import Mathlib

/-!
# Offline ray tracer (`Projects/Finals/Main.cpp`): intersection, raycast and shading

A shallow embedding of the ray tracer of `Main.cpp`.  A C++ `float` is read as an
element of an arbitrary linearly ordered field `K` (exact arithmetic; `K = ℝ` is the
intended reading, `K = ℚ` makes every definition executable).  The C library functions
the program calls (`sqrt`, `pow`) are not part of the repository and are taken as the
fields of a `Runtime` (`tan` and `M_PI` are parameters of `GetRayThruPixel`); theorems that
depend on them say what they assume about them.  The recursion of `RayTrace` is also given
with a bound on the nested activations (`RayTraceFuel`), to state what it calls and how deep.
-/

namespace Finals

/-! ## glm vectors -/

/-- The type `glm::vec3`. -/
@[ext]
structure Vec3 (K : Type) where
  x : K
  y : K
  z : K

/-- The type `glm::vec4`. -/
structure Vec4 (K : Type) where
  x : K
  y : K
  z : K
  w : K

/-- Library functions used by the program and the contents of locals that the program
declares without initialising them. -/
structure Runtime (K : Type) where
  /-- The function `sqrt` of `<cmath>`. -/
  sqrt : K → K
  /-- The function `pow` of `<cmath>`. -/
  pow : K → K → K
  /-- Value found in a `float` that was declared and never assigned. -/
  uninitFloat : K
  /-- Value found in a `glm::vec3` that was declared and never assigned. -/
  uninitVec : Vec3 K

section Vec

variable {K : Type} [LinearOrderedField K]

instance : Zero (Vec3 K) := ⟨⟨0, 0, 0⟩⟩
instance : Add (Vec3 K) := ⟨fun a b => ⟨a.x + b.x, a.y + b.y, a.z + b.z⟩⟩
instance : Sub (Vec3 K) := ⟨fun a b => ⟨a.x - b.x, a.y - b.y, a.z - b.z⟩⟩
instance : Neg (Vec3 K) := ⟨fun a => ⟨-a.x, -a.y, -a.z⟩⟩
/-- Component-wise product `vec3 * vec3`. -/
instance : Mul (Vec3 K) := ⟨fun a b => ⟨a.x * b.x, a.y * b.y, a.z * b.z⟩⟩
/-- Product of a scalar and a vector, `float * vec3` (and `vec3 * float`). -/
instance : SMul K (Vec3 K) := ⟨fun k a => ⟨k * a.x, k * a.y, k * a.z⟩⟩

/-- The conversion `glm::vec3(v)` of a `glm::vec4`: the first three components. -/
def Vec4.xyz (v : Vec4 K) : Vec3 K := ⟨v.x, v.y, v.z⟩

/-- The function `glm::dot`. -/
def dot (a b : Vec3 K) : K := a.x * b.x + a.y * b.y + a.z * b.z

/-- The function `glm::cross`. -/
def cross (a b : Vec3 K) : Vec3 K :=
  ⟨a.y * b.z - b.y * a.z, a.z * b.x - b.z * a.x, a.x * b.y - b.x * a.y⟩

/-- The function `glm::length`: `sqrt(dot(v, v))`. -/
def length (rt : Runtime K) (v : Vec3 K) : K := rt.sqrt (dot v v)

/-- The function `glm::normalize`: `v * inversesqrt(dot(v, v))`. -/
def normalize (rt : Runtime K) (v : Vec3 K) : Vec3 K := (1 / rt.sqrt (dot v v)) • v

/-- The function `glm::reflect`: `I - N * dot(N, I) * 2`. -/
def reflect (I N : Vec3 K) : Vec3 K := I - (dot N I * 2) • N

end Vec

/-! ## Scene data -/

/-- The struct `Ray`. -/
structure Ray (K : Type) where
  origin : Vec3 K
  direction : Vec3 K

/-- The struct `Material`. -/
structure Material (K : Type) where
  ambient : Vec3 K
  diffuse : Vec3 K
  specular : Vec3 K
  shininess : K

/-- The struct `Sphere` (a `SceneObject`). -/
structure Sphere (K : Type) where
  material : Material K
  center : Vec3 K
  radius : K

/-- The struct `Triangle` (a `SceneObject`). -/
structure Triangle (K : Type) where
  material : Material K
  A : Vec3 K
  B : Vec3 K
  C : Vec3 K

/-- The abstract struct `SceneObject` with its two subclasses. -/
inductive SceneObject (K : Type) where
  | sphere (s : Sphere K)
  | triangle (t : Triangle K)

/-- The struct `Camera`. -/
structure Camera (K : Type) where
  position : Vec3 K
  lookTarget : Vec3 K
  globalUp : Vec3 K
  fovY : K
  focalLength : K
  imageWidth : Int
  imageHeight : Int

/-- The struct `Light`. -/
structure Light (K : Type) where
  position : Vec4 K
  ambient : Vec3 K
  diffuse : Vec3 K
  specular : Vec3 K
  constant : K
  linear : K
  quadratic : K

/-- The struct `IntersectionInfo`; `obj = none` is the null pointer. -/
structure IntersectionInfo (K : Type) where
  incomingRay : Ray K
  t : K
  obj : Option (SceneObject K)
  intersectionPoint : Vec3 K
  intersectionNormal : Vec3 K

/-- The struct `Scene`. -/
structure Scene (K : Type) where
  objects : List (SceneObject K)
  lights : List (Light K)

/-- What a call of `Intersect` leaves behind: the returned `float` and the two
reference parameters. -/
structure IntersectResult (K : Type) where
  ret : K
  outIntersectionPoint : Vec3 K
  outIntersectionNormal : Vec3 K

section Intersect

variable {K : Type} [LinearOrderedField K]

/-- The member `material` of a `SceneObject`. -/
def SceneObject.material : SceneObject K → Material K
  | .sphere s => s.material
  | .triangle t => t.material

/-- The method `Sphere::Intersect`.  The last two arguments are the contents of the
reference parameters on entry; the early return leaves them as they are. -/
def Sphere.Intersect (rt : Runtime K) (self : Sphere K) (incomingRay : Ray K)
    (outIntersectionPoint outIntersectionNormal : Vec3 K) : IntersectResult K :=
  let p := incomingRay.origin
  let d := incomingRay.direction
  let m := p - self.center
  let b := dot m d
  let c := dot m m - self.radius * self.radius
  let isIntersecting := b * b - c
  if isIntersecting < 0 then
    ⟨-1, outIntersectionPoint, outIntersectionNormal⟩
  else
    let t : K :=
      if isIntersecting = 0 then
        -1 * b
      else if isIntersecting > 0 then
        let root := -1 * b + rt.sqrt isIntersecting
        let rootTwo := -1 * b - rt.sqrt isIntersecting
        if root > 0 ∧ rootTwo > 0 then
          if root < rootTwo then root else rootTwo
        else if root > 0 ∧ rootTwo < 0 then
          root
        else if root < 0 ∧ rootTwo > 0 then
          rootTwo
        else
          0
      else
        0
    let point := p + t • d
    ⟨t, point, normalize rt point⟩

/-- The method `Triangle::Intersect`.  The last two arguments are the contents of the
reference parameters on entry; the two early returns leave them as they are. -/
def Triangle.Intersect (rt : Runtime K) (self : Triangle K) (incomingRay : Ray K)
    (outIntersectionPoint outIntersectionNormal : Vec3 K) : IntersectResult K :=
  let d := incomingRay.direction
  let n := cross (self.B - self.A) (self.C - self.A)
  let f := dot (-d) n
  let e := cross (-d) (incomingRay.origin - self.A)
  if f ≤ 0 then
    ⟨-1, outIntersectionPoint, outIntersectionNormal⟩
  else
    let tNumerator := dot (incomingRay.origin - self.A) n
    let t := tNumerator / f
    if t ≤ 0 then
      ⟨-1, outIntersectionPoint, outIntersectionNormal⟩
    else
      let uNumerator := dot (self.C - self.A) e
      let u := uNumerator / f
      let vNumerator := dot (-(self.B - self.A)) e
      let v := vNumerator / f
      let s : K := if (u ≥ 0 ∧ v ≥ 0) ∧ u + v ≤ 1 then t else -1
      let intersectionPoint := self.A + u • (self.B - self.A) + v • (self.C - self.A)
      ⟨s, intersectionPoint, normalize rt n⟩

/-- The virtual call `obj->Intersect(...)`. -/
def SceneObject.Intersect (rt : Runtime K) (self : SceneObject K) (incomingRay : Ray K)
    (outIntersectionPoint outIntersectionNormal : Vec3 K) : IntersectResult K :=
  match self with
  | .sphere s => s.Intersect rt incomingRay outIntersectionPoint outIntersectionNormal
  | .triangle t => t.Intersect rt incomingRay outIntersectionPoint outIntersectionNormal

end Intersect

section Trace

variable {K : Type} [LinearOrderedField K]

/-- An `IntersectionInfo` that was declared and never assigned. -/
def uninitInfo (rt : Runtime K) : IntersectionInfo K :=
  ⟨⟨rt.uninitVec, rt.uninitVec⟩, rt.uninitFloat, none, rt.uninitVec, rt.uninitVec⟩

/-- The first loop of `Raycast`: the list `infoList` of the hits with `rayDist > 0`,
in scene order. -/
def Raycast.infoList (rt : Runtime K) (ray : Ray K) (scene : Scene K) :
    List (IntersectionInfo K) :=
  scene.objects.foldl
    (fun infoList obj =>
      let r := obj.Intersect rt ray 0 0
      let ret : IntersectionInfo K :=
        ⟨ray, r.ret, none, r.outIntersectionPoint, r.outIntersectionNormal⟩
      if r.ret > 0 then infoList ++ [{ ret with obj := some obj }] else infoList)
    []

/-- One step of the second loop of `Raycast`. -/
def Raycast.select (ret info : IntersectionInfo K) : IntersectionInfo K :=
  let ret := if ret.t < 0 ∧ info.t ≥ 0 then info else ret
  if ret.t > info.t ∧ info.t ≥ 0 then info else ret

/-- The function `Raycast`. -/
def Raycast (rt : Runtime K) (ray : Ray K) (scene : Scene K) : IntersectionInfo K :=
  let infoList := Raycast.infoList rt ray scene
  match infoList with
  | [] => { uninitInfo rt with obj := none }
  | first :: _ => infoList.foldl Raycast.select first

/-- The locals of `RayTrace` that live across the iterations of the loop over the lights. -/
structure ShadeState (K : Type) where
  ambient : Vec3 K
  diffuse : Vec3 K
  specular : Vec3 K
  lightDirection : Vec3 K
  colorTemp : Vec3 K
  colorCombinedTemp : Vec3 K

/-- The Phong block of the loop body of `RayTrace` (the `if (lightW == 1.0f) ... else if
(lightW == 0.0f) ...` statement): for any other `w` the locals keep what the previous
light left in them. -/
def RayTrace.phong (rt : Runtime K) (camera : Camera K) (didRayHit : IntersectionInfo K)
    (material : Material K) (light : Light K) (st : ShadeState K) : ShadeState K :=
  let lightW := light.position.w
  if lightW = 1 then
    let ambient := light.ambient * material.ambient
    let norm := didRayHit.intersectionNormal
    let lightDirection := normalize rt (light.position.xyz - didRayHit.intersectionPoint)
    let diff := max (dot norm lightDirection) 0
    let diffuse := light.diffuse * (diff • material.diffuse)
    let viewDirection := normalize rt (camera.position - didRayHit.intersectionPoint)
    let reflectDirection := reflect (-lightDirection) norm
    let spec := rt.pow (max (dot viewDirection reflectDirection) 0) material.shininess
    let specular := light.specular * (spec • material.specular)
    let distance := length rt (light.position.xyz - didRayHit.intersectionPoint)
    let attenuation :=
      1 / (light.constant + light.linear * distance + light.quadratic * rt.pow distance 2)
    { st with
      ambient := attenuation • ambient
      diffuse := attenuation • diffuse
      specular := attenuation • specular
      lightDirection := lightDirection }
  else if lightW = 0 then
    let ambient := light.ambient * material.ambient
    let norm := didRayHit.intersectionNormal
    let lightDirection := normalize rt ((-1 : K) • light.position.xyz)
    let diff := max (dot norm lightDirection) 0
    let diffuse := diff • (material.diffuse * light.diffuse)
    let viewDirection := normalize rt (camera.position - didRayHit.intersectionPoint)
    let reflectDirection := reflect (-lightDirection) norm
    let spec := rt.pow (max (dot viewDirection reflectDirection) 0) material.shininess
    let specular := light.specular * (spec • material.specular)
    { st with
      ambient := ambient
      diffuse := diffuse
      specular := specular
      lightDirection := lightDirection }
  else
    st

/-- The shadow ray of `RayTrace` as one iteration of the loop over the objects sets it
up; for a `w` other than 0 and 1 the direction keeps its previous content. -/
def RayTrace.shadowRay (rt : Runtime K) (didRayHit : IntersectionInfo K) (light : Light K)
    (shadow : Ray K) : Ray K :=
  let origin := didRayHit.intersectionPoint + ((1 : K) / 100) • didRayHit.intersectionNormal
  let lightW := light.position.w
  if lightW = 0 then
    ⟨origin, normalize rt (-light.position.xyz)⟩
  else if lightW = 1 then
    ⟨origin, normalize rt (light.position.xyz - origin)⟩
  else
    ⟨origin, shadow.direction⟩

/-- The loop over the objects in the loop body of `RayTrace`: the final `isShadow`. -/
def RayTrace.isShadow (rt : Runtime K) (scene : Scene K) (didRayHit : IntersectionInfo K)
    (light : Light K) : Bool :=
  (scene.objects.foldl
    (fun (acc : Ray K × Bool) obj =>
      let shadow := RayTrace.shadowRay rt didRayHit light acc.1
      let rayDist := (obj.Intersect rt shadow 0 0).ret
      if rayDist < 1 ∧ rayDist > 0 then (shadow, true) else (shadow, acc.2))
    ((⟨rt.uninitVec, rt.uninitVec⟩ : Ray K), false)).2

/-- The ray `reflection` of `RayTrace`. -/
def RayTrace.reflection (didRayHit : IntersectionInfo K) : Ray K :=
  ⟨didRayHit.intersectionPoint + ((1 : K) / 1000) • didRayHit.intersectionNormal,
   reflect didRayHit.incomingRay.direction didRayHit.intersectionNormal⟩

/-- The function `RayTrace`. -/
def RayTrace (rt : Runtime K) (ray : Ray K) (scene : Scene K) (camera : Camera K)
    (maxDepth : Int) : Vec3 K :=
  let didRayHit := Raycast rt ray scene
  match didRayHit.obj with
  | none => 0
  | some _ =>
    let final := scene.lights.foldl
      (fun (st : ShadeState K) light =>
        match didRayHit.obj with
        | none => st
        | some obj =>
          let st := RayTrace.phong rt camera didRayHit obj.material light st
          let isShadow := RayTrace.isShadow rt scene didRayHit light
          let shadowVal : K := if isShadow then 1 else 0
          let colorCombinedTemp :=
            if isShadow then
              st.colorCombinedTemp
            else if _h : maxDepth > 0 then
              let reflection := RayTrace.reflection didRayHit
              let kr := obj.material.shininess / 128
              st.colorCombinedTemp + kr • RayTrace rt reflection scene camera (maxDepth - 1)
            else
              st.colorCombinedTemp
          let colorTemp := st.ambient + (1 - shadowVal) • (st.diffuse + st.specular)
          { st with
            colorTemp := colorTemp
            colorCombinedTemp := colorCombinedTemp + colorTemp })
      (⟨0, 0, 0, 0, 0, 0⟩ : ShadeState K)
    final.colorCombinedTemp
termination_by maxDepth.toNat
decreasing_by omega

end Trace

section Locals

variable {K : Type} [LinearOrderedField K]

/-! ## Assumptions on the library functions -/

/-- The exact-arithmetic reading of `sqrt`: on a non-negative argument it returns the
non-negative square root. -/
def Runtime.SqrtExact (rt : Runtime K) : Prop :=
  ∀ x : K, 0 ≤ x → 0 ≤ rt.sqrt x ∧ rt.sqrt x * rt.sqrt x = x

/-! ## Locals of the intersection tests -/

/-- The value that `Sphere::Intersect` leaves in `t` once it is past the early return,
as a function of `b` and of `isIntersecting`. -/
def Sphere.chooseT (rt : Runtime K) (b isIntersecting : K) : K :=
  if isIntersecting = 0 then
    -1 * b
  else if isIntersecting > 0 then
    let root := -1 * b + rt.sqrt isIntersecting
    let rootTwo := -1 * b - rt.sqrt isIntersecting
    if root > 0 ∧ rootTwo > 0 then
      if root < rootTwo then root else rootTwo
    else if root > 0 ∧ rootTwo < 0 then
      root
    else if root < 0 ∧ rootTwo > 0 then
      rootTwo
    else
      0
  else
    0

/-- The local `b` of `Sphere::Intersect`. -/
def Sphere.b (s : Sphere K) (ray : Ray K) : K := dot (ray.origin - s.center) ray.direction

/-- The local `c` of `Sphere::Intersect`. -/
def Sphere.c (s : Sphere K) (ray : Ray K) : K :=
  dot (ray.origin - s.center) (ray.origin - s.center) - s.radius * s.radius

/-- The record that the first loop of `Raycast` pushes for an object that was hit. -/
def Raycast.hitInfo (rt : Runtime K) (ray : Ray K) (obj : SceneObject K) :
    IntersectionInfo K :=
  ⟨ray, (obj.Intersect rt ray 0 0).ret, some obj,
   (obj.Intersect rt ray 0 0).outIntersectionPoint,
   (obj.Intersect rt ray 0 0).outIntersectionNormal⟩

/-- The local `n` of `Triangle::Intersect`. -/
def Triangle.n (self : Triangle K) : Vec3 K := cross (self.B - self.A) (self.C - self.A)

/-- The local `f` of `Triangle::Intersect`. -/
def Triangle.f (self : Triangle K) (ray : Ray K) : K := dot (-ray.direction) self.n

/-- The local `e` of `Triangle::Intersect`. -/
def Triangle.e (self : Triangle K) (ray : Ray K) : Vec3 K :=
  cross (-ray.direction) (ray.origin - self.A)

/-- The local `t` of `Triangle::Intersect`. -/
def Triangle.t (self : Triangle K) (ray : Ray K) : K :=
  dot (ray.origin - self.A) self.n / self.f ray

/-- The local `u` of `Triangle::Intersect`. -/
def Triangle.u (self : Triangle K) (ray : Ray K) : K :=
  dot (self.C - self.A) (self.e ray) / self.f ray

/-- The local `v` of `Triangle::Intersect`. -/
def Triangle.v (self : Triangle K) (ray : Ray K) : K :=
  dot (-(self.B - self.A)) (self.e ray) / self.f ray

/-- A division that fails unless the denominator is strictly positive. -/
def checkedDiv (a b : K) : Option K := if b > 0 then some (a / b) else none

end Locals

section Shading

variable {K : Type} [LinearOrderedField K]

/-! ## The loop over the lights, with the recursive call made explicit -/

/-- The body of the loop over the lights of `RayTrace`, with the recursive call
`RayTrace(reflection, scene, camera, maxDepth - 1)` written `recur reflection (maxDepth - 1)`;
`none` stands for a call that does not return. -/
def RayTrace.body (rt : Runtime K) (scene : Scene K) (camera : Camera K) (maxDepth : Int)
    (didRayHit : IntersectionInfo K) (recur : Ray K → Int → Option (Vec3 K))
    (st : ShadeState K) (light : Light K) : Option (ShadeState K) :=
  match didRayHit.obj with
  | none => some st
  | some obj =>
    let st := RayTrace.phong rt camera didRayHit obj.material light st
    let isShadow := RayTrace.isShadow rt scene didRayHit light
    let shadowVal : K := if isShadow then 1 else 0
    let colorCombinedTemp : Option (Vec3 K) :=
      if isShadow then
        some st.colorCombinedTemp
      else if maxDepth > 0 then
        let reflection := RayTrace.reflection didRayHit
        let kr := obj.material.shininess / 128
        (recur reflection (maxDepth - 1)).map fun c => st.colorCombinedTemp + kr • c
      else
        some st.colorCombinedTemp
    colorCombinedTemp.map fun colorCombinedTemp =>
      let colorTemp := st.ambient + (1 - shadowVal) • (st.diffuse + st.specular)
      { st with
        colorTemp := colorTemp
        colorCombinedTemp := colorCombinedTemp + colorTemp }

/-- The loop over the lights of `RayTrace`, on top of `RayTrace.body`. -/
def RayTrace.lightLoop (rt : Runtime K) (scene : Scene K) (camera : Camera K) (maxDepth : Int)
    (didRayHit : IntersectionInfo K) (recur : Ray K → Int → Option (Vec3 K))
    (lights : List (Light K)) (st : ShadeState K) : Option (ShadeState K) :=
  lights.foldl
    (fun acc light =>
      acc.bind fun st => RayTrace.body rt scene camera maxDepth didRayHit recur st light)
    (some st)

/-- The function `RayTrace` run with a bound on the number of nested activations: with
`fuel` activations left, a call that needs more does not return (`none`). -/
def RayTraceFuel (rt : Runtime K) : Nat → Ray K → Scene K → Camera K → Int → Option (Vec3 K)
  | 0, _, _, _, _ => none
  | fuel + 1, ray, scene, camera, maxDepth =>
    let didRayHit := Raycast rt ray scene
    match didRayHit.obj with
    | none => some 0
    | some _ =>
      (RayTrace.lightLoop rt scene camera maxDepth didRayHit
        (fun r d => RayTraceFuel rt fuel r scene camera d) scene.lights
        (⟨0, 0, 0, 0, 0, 0⟩ : ShadeState K)).map fun final => final.colorCombinedTemp

/-! ## The sums the shading is compared with -/

/-- The value of `shadowVal` for a light: `1` when the light is shadowed, else `0`. -/
def RayTrace.shadowVal (rt : Runtime K) (scene : Scene K) (didRayHit : IntersectionInfo K)
    (light : Light K) : K :=
  if RayTrace.isShadow rt scene didRayHit light then 1 else 0

/-- The sum over the lights, in scene order, of
`ambient_i + (1 - shadow_i) * (diffuse_i + specular_i)`, where `ambient_i`, `diffuse_i`,
`specular_i` are the locals as the Phong block of iteration `i` leaves them. -/
def RayTrace.localSum (rt : Runtime K) (scene : Scene K) (camera : Camera K)
    (didRayHit : IntersectionInfo K) (material : Material K) :
    List (Light K) → ShadeState K → Vec3 K
  | [], _ => 0
  | light :: rest, st =>
    let st1 := RayTrace.phong rt camera didRayHit material light st
    (st1.ambient + (1 - RayTrace.shadowVal rt scene didRayHit light) • (st1.diffuse + st1.specular))
      + RayTrace.localSum rt scene camera didRayHit material rest st1

/-- The number of lights of the list that are not shadowed. -/
def RayTrace.unshadowed (rt : Runtime K) (scene : Scene K) (didRayHit : IntersectionInfo K)
    (lights : List (Light K)) : Nat :=
  (lights.filter fun light => !RayTrace.isShadow rt scene didRayHit light).length

/-- The assumption on `pow` used for the attenuation: `pow(x, 2)` is the square. -/
def Runtime.PowSquare (rt : Runtime K) : Prop := ∀ x : K, rt.pow x 2 = x * x

/-- The sum of a list of vectors. -/
def sumVec : List (Vec3 K) → Vec3 K
  | [] => 0
  | v :: vs => v + sumVec vs

/-- The term `ambient + (1 - shadow) * (diffuse + specular)` of one light taken alone: the
three locals are those the Phong block computes for this light from zeroed locals (a light
with `w = 0` or `w = 1` overwrites all three). -/
def RayTrace.lightTerm (rt : Runtime K) (scene : Scene K) (camera : Camera K)
    (didRayHit : IntersectionInfo K) (material : Material K) (light : Light K) : Vec3 K :=
  let st := RayTrace.phong rt camera didRayHit material light ⟨0, 0, 0, 0, 0, 0⟩
  st.ambient + (1 - RayTrace.shadowVal rt scene didRayHit light) • (st.diffuse + st.specular)

/-- The local term of a light as the specification writes it:
`att * (La*Ma + (1 - s) * (max(N.L, 0) * Ld*Md + max(V.R, 0)^shininess * Ls*Ms))`, where
for a point light (`w = 1`) `L = normalize(light.xyz - X)` and
`att = 1 / (constant + linear*d + quadratic*d^2)` with `d = |light.xyz - X|`, and otherwise
(directional light, `w = 0`) `L = normalize(-light.xyz)` and `att = 1`. -/
def RayTrace.localTerm (rt : Runtime K) (camera : Camera K) (X N : Vec3 K) (M : Material K)
    (light : Light K) (s : K) : Vec3 K :=
  let L := if light.position.w = 1 then normalize rt (light.position.xyz - X)
    else normalize rt (-light.position.xyz)
  let d := length rt (light.position.xyz - X)
  let att : K :=
    if light.position.w = 1 then
      1 / (light.constant + light.linear * d + light.quadratic * (d * d))
    else 1
  let V := normalize rt (camera.position - X)
  let R := reflect (-L) N
  att • (light.ambient * M.ambient + (1 - s) •
    (max (dot N L) 0 • (light.diffuse * M.diffuse)
      + rt.pow (max (dot V R) 0) M.shininess • (light.specular * M.specular)))

/-! ## A scene with an occluder between the light and the surface -/

/-- Material of the two spheres of the example: no specular part. -/
def ShadowExample.material : Material K := ⟨⟨1, 1, 1⟩, ⟨1, 1, 1⟩, ⟨0, 0, 0⟩, 8⟩

/-- The sphere whose north pole `(0, 0, 1)` the primary ray hits. -/
def ShadowExample.surface : Sphere K := ⟨ShadowExample.material, ⟨0, 0, 0⟩, 1⟩

/-- A unit sphere centred at `(0, 0, 6)`, on the segment from `(0, 0, 1)` to the light. -/
def ShadowExample.occluder : Sphere K := ⟨ShadowExample.material, ⟨0, 0, 6⟩, 1⟩

/-- A point light at `(0, 0, 11)` without attenuation. -/
def ShadowExample.light : Light K := ⟨⟨0, 0, 11, 1⟩, ⟨1, 1, 1⟩, ⟨1, 1, 1⟩, ⟨1, 1, 1⟩, 1, 0, 0⟩

/-- The two spheres and the light. -/
def ShadowExample.scene : Scene K :=
  ⟨[.sphere ShadowExample.surface, .sphere ShadowExample.occluder], [ShadowExample.light]⟩

/-- The primary ray, from `(0, 0, 3)` down the z axis. -/
def ShadowExample.ray : Ray K := ⟨⟨0, 0, 3⟩, ⟨0, 0, -1⟩⟩

/-- A camera at the origin of the primary ray. -/
def ShadowExample.camera : Camera K := ⟨⟨0, 0, 3⟩, ⟨0, 0, 0⟩, ⟨0, 1, 0⟩, 60, 1, 4, 4⟩

/-- A unit sphere centred at `(3/2, 0, 101/100)`, beside the first sphere: it is met at
distance `1/2` by the shadow ray of `ShadowExample.sideLight`. -/
def ShadowExample.nearOccluder : Sphere K := ⟨ShadowExample.material, ⟨3 / 2, 0, 101 / 100⟩, 1⟩

/-- A point light at `(11, 0, 101/100)` without attenuation. -/
def ShadowExample.sideLight : Light K :=
  ⟨⟨11, 0, 101 / 100, 1⟩, ⟨1, 1, 1⟩, ⟨1, 1, 1⟩, ⟨1, 1, 1⟩, 1, 0, 0⟩

/-- The first sphere, the near occluder and the side light. -/
def ShadowExample.nearScene : Scene K :=
  ⟨[.sphere ShadowExample.surface, .sphere ShadowExample.nearOccluder],
   [ShadowExample.sideLight]⟩

/-! ## A sphere that is hit in the origin of the world -/

/-- A unit sphere centred at `(0, 0, -1)`: its north pole is the origin of the world. -/
def OriginExample.sphere : Sphere K := ⟨ShadowExample.material, ⟨0, 0, -1⟩, 1⟩

/-- A primary ray from `(0, 0, 2)` down the z axis, with a direction of length one. -/
def OriginExample.ray : Ray K := ⟨⟨0, 0, 2⟩, ⟨0, 0, -1⟩⟩

/-- The sphere and the point light at `(0, 0, 11)`. -/
def OriginExample.scene : Scene K := ⟨[.sphere OriginExample.sphere], [ShadowExample.light]⟩

/-! ## The rays of the nested activations -/

/-- The ray of the nested activation number `depth` of `RayTrace` below the call on
`ray`: every activation calls `RayTrace` on `reflection`, built from its own
`didRayHit = Raycast(ray, scene)`. -/
def RayTrace.rayAt (rt : Runtime K) (scene : Scene K) (ray : Ray K) : Nat → Ray K
  | 0 => ray
  | depth + 1 => RayTrace.reflection (Raycast rt (RayTrace.rayAt rt scene ray depth) scene)

end Shading

section Rendering

variable {K : Type} [LinearOrderedField K] [FloorRing K]

/-! ## Image and render loop -/

/-- The function `glm::clamp`: `min(max(x, minVal), maxVal)`. -/
def clamp (x minVal maxVal : K) : K := min (max x minVal) maxVal

/-- The conversion `static_cast<unsigned char>(x)` of a `float`: the fractional part is
dropped and the result is kept on 8 bits.  (A negative `x` gives 0 here; the source never
converts one.) -/
def toUnsignedChar (x : K) : Nat := ⌊x⌋₊ % 256

/-- The struct `Image`: the bytes of `data`, and the `int` fields read as integers. -/
structure Image where
  data : List Nat
  width : Int
  height : Int

/-- The constructor `Image(w, h)`: `w * h * 3` zero bytes. -/
def Image.create (w h : Int) : Image := ⟨List.replicate (w * h * 3).toNat 0, w, h⟩

/-- The method `Image::ToChar`. -/
def Image.ToChar (c : K) : Nat :=
  let c := clamp c 0 1
  toUnsignedChar (c * 255)

/-- The assignment `data[index] = value`.  An index outside the buffer is undefined
behaviour in the source; here it writes nothing. -/
def Image.store (data : List Nat) (index : Int) (value : Nat) : List Nat :=
  if 0 ≤ index then data.set index.toNat value else data

/-- The method `Image::SetColor`. -/
def Image.SetColor (self : Image) (x y : Int) (color : Vec3 K) : Image :=
  let index := (y * self.width + x) * 3
  let data := Image.store self.data index (Image.ToChar color.x)
  let data := Image.store data (index + 1) (Image.ToChar color.y)
  let data := Image.store data (index + 2) (Image.ToChar color.z)
  { self with data := data }

/-- The function `GetRayThruPixel`; `tan` and the constant `M_PI` of `<cmath>` are taken as
parameters. -/
def GetRayThruPixel (rt : Runtime K) (tan : K → K) (M_PI : K) (camera : Camera K)
    (pixelX pixelY : Int) : Ray K :=
  let origin := camera.position
  let aspectRatio : K := (camera.imageWidth : K) / (camera.imageHeight : K)
  let hViewport := 2 * camera.focalLength * tan ((camera.fovY * M_PI / 180) / 2)
  let wViewport := aspectRatio * hViewport
  let lookDirection := normalize rt (camera.lookTarget - origin)
  let upVector := cross lookDirection camera.globalUp
  let vVector := cross upVector lookDirection
  let upVector :=
    if upVector.x ≠ 0 ∨ upVector.y ≠ 0 ∨ upVector.z ≠ 0 then normalize rt upVector
    else upVector
  let vVector :=
    if vVector.x ≠ 0 ∨ vVector.y ≠ 0 ∨ vVector.z ≠ 0 then normalize rt vVector
    else vVector
  let L := camera.position + camera.focalLength • lookDirection
    - (wViewport / 2) • upVector - (hViewport / 2) • vVector
  let s := (((pixelX : K) + 1 / 2) / (camera.imageWidth : K)) * wViewport
  let t := (((pixelY : K) + 1 / 2) / (camera.imageHeight : K)) * hViewport
  let P := L + s • upVector + t • vVector
  let rayDirection := P - origin
  let rayDirection :=
    if rayDirection.x ≠ 0 ∨ rayDirection.y ≠ 0 ∨ rayDirection.z ≠ 0 then
      normalize rt rayDirection
    else rayDirection
  ⟨origin, rayDirection⟩

/-- The body of the inner loop of `main` over the pixels: the ray through pixel
`(x, height - y - 1)`, its colour, and the write of the pixel `(x, y)`. -/
def renderPixel (rt : Runtime K) (tan : K → K) (M_PI : K) (scene : Scene K) (camera : Camera K)
    (maxDepth : Int) (image : Image) (x y : Int) : Image :=
  let ray := GetRayThruPixel rt tan M_PI camera x (image.height - y - 1)
  let color := RayTrace rt ray scene camera maxDepth
  image.SetColor x y color

/-- The two nested loops of `main` that fill the image. -/
def render (rt : Runtime K) (tan : K → K) (M_PI : K) (scene : Scene K) (camera : Camera K)
    (maxDepth : Int) : Image :=
  let image := Image.create camera.imageWidth camera.imageHeight
  (List.range image.height.toNat).foldl
    (fun image y =>
      (List.range image.width.toNat).foldl
        (fun image x => renderPixel rt tan M_PI scene camera maxDepth image x y)
        image)
    image

end Rendering

/-! ## Reading the scene file -/

/-- How the part of `main` that reads the scene file stops early: `outOfBounds i` is the
access `filecontent[i]` with `i` past the end of the vector (undefined behaviour in the
source), `notANumber i` is `std::stoi` or `std::stof` throwing on the token at index `i`. -/
inductive ParseError where
  | outOfBounds (index : Nat)
  | notANumber (index : Nat)
  deriving DecidableEq

/-- The library functions `std::stoi` and `std::stof`; `none` when they throw. -/
structure StdLib (K : Type) where
  stoi : String → Option Int
  stof : String → Option K

/-- What `main` writes to `std::cout`, one item for each `operator<<`.  The field width set by
`std::setw` is not recorded. -/
inductive Output (K : Type) where
  | text (s : String)
  | int (n : Int)
  | float (x : K)
  | endl

/-- The seven keywords that the object loop of `main` tests for, in the order of its `if`s. -/
inductive ObjectKind where
  | sphere
  | sphereBounce
  | tri
  | triSide1
  | triSide2
  | triSide3
  | triSide4
  deriving DecidableEq

/-- The string literal in the test `filecontent[startNum] == "..."` of a block. -/
def ObjectKind.keyword : ObjectKind → String
  | .sphere => "sphere"
  | .sphereBounce => "sphereBounce"
  | .tri => "tri"
  | .triSide1 => "triSide1"
  | .triSide2 => "triSide2"
  | .triSide3 => "triSide3"
  | .triSide4 => "triSide4"

/-- The amount in the statement `startNum += ...` of a block. -/
def ObjectKind.size : ObjectKind → Nat
  | .sphere => 15
  | .sphereBounce => 15
  | .tri => 20
  | .triSide1 => 20
  | .triSide2 => 20
  | .triSide3 => 20
  | .triSide4 => 20

section Parsing

variable {K : Type} [LinearOrderedField K]

/-- The table `bounceY` of `main`. -/
def bounceY : List Int :=
  [8, 7, 6, 5, 4, 3, 2, 1, 1, 2, 3, 4, 5, 6, 7, 8]

/-- The table `pyramidSide1BX` of `main`. -/
def pyramidSide1BX : List K :=
  [-9, -8.90625, -8.8125, -8.71875, -8.625, -8.53125, -8.4375, -8.34375, -8.25, -8.15625,
   -8.0625, -7.96875, -7.875, -7.78125, -7.6875, -7.59375]

/-- The table `pyramidSide1BZ` of `main`. -/
def pyramidSide1BZ : List K :=
  [4.5, 4.40625, 4.3125, 4.21875, 4.125, 4.03125, 3.9375, 3.84375, 3.75, 3.65625, 3.5625,
   3.46875, 3.375, 3.28125, 3.1875, 3.09375]

/-- The table `pyramidSide1CX` of `main`. -/
def pyramidSide1CX : List K :=
  [-7.5, -7.40625, -7.3125, -7.21875, -7.125, -7.03125, -6.9375, -6.84375, -6.75, -6.65625,
   -6.5625, -6.46875, -6.375, -6.28125, -6.1875, -6.09375]

/-- The table `pyramidSide1CZ` of `main`. -/
def pyramidSide1CZ : List K :=
  [3, 3.09375, 3.1875, 3.28125, 3.375, 3.46875, 3.5625, 3.65625, 3.75, 3.84375, 3.9375, 4.03125,
   4.125, 4.21875, 4.3125, 4.40625]

/-- The table `pyramidSide2BX` of `main`. -/
def pyramidSide2BX : List K :=
  [-7.5, -7.40625, -7.3125, -7.21875, -7.125, -7.03125, -6.9375, -6.84375, -6.75, -6.65625,
   -6.5625, -6.46875, -6.375, -6.28125, -6.1875, -6.09375]

/-- The table `pyramidSide2BZ` of `main`. -/
def pyramidSide2BZ : List K :=
  [3, 3.09375, 3.1875, 3.28125, 3.375, 3.46875, 3.5625, 3.65625, 3.75, 3.84375, 3.9375, 4.03125,
   4.125, 4.21875, 4.3125, 4.40625]

/-- The table `pyramidSide2CX` of `main`. -/
def pyramidSide2CX : List K :=
  [-6, -6.09375, -6.1875, -6.28125, -6.375, -6.46875, -6.5625, -6.65625, -6.75, -6.84375,
   -6.9375, -7.03125, -7.125, -7.21875, -7.3125, -7.40625]

/-- The table `pyramidSide2CZ` of `main`. -/
def pyramidSide2CZ : List K :=
  [4.5, 4.59375, 4.6875, 4.78125, 4.875, 4.96875, 5.0625, 5.15625, 5.25, 5.34375, 5.4375,
   5.53125, 5.625, 5.71875, 5.8125, 5.90625]

/-- The table `pyramidSide3BX` of `main`. -/
def pyramidSide3BX : List K :=
  [-6, -6.09375, -6.1875, -6.28125, -6.375, -6.46875, -6.5625, -6.65625, -6.75, -6.84375,
   -6.9375, -7.03125, -7.125, -7.21875, -7.3125, -7.40625]

/-- The table `pyramidSide3BZ` of `main`. -/
def pyramidSide3BZ : List K :=
  [4.5, 4.59375, 4.6875, 4.78125, 4.875, 4.96875, 5.0625, 5.15625, 5.25, 5.34375, 5.4375,
   5.53125, 5.625, 5.71875, 5.8125, 5.90625]

/-- The table `pyramidSide3CX` of `main`. -/
def pyramidSide3CX : List K :=
  [-7.5, -7.59375, -7.6875, -7.78125, -7.875, -7.96875, -8.0625, -8.15625, -8.25, -8.34375,
   -8.4375, -8.53125, -8.625, -8.71875, -8.8125, -8.90625]

/-- The table `pyramidSide3CZ` of `main`. -/
def pyramidSide3CZ : List K :=
  [6, 5.90625, 5.8125, 5.71875, 5.625, 5.53125, 5.4375, 5.34375, 5.25, 5.15625, 5.0625, 4.96875,
   4.875, 4.78125, 4.6875, 4.59375]

/-- The table `pyramidSide4BX` of `main`. -/
def pyramidSide4BX : List K :=
  [-7.5, -7.59375, -7.6875, -7.78125, -7.875, -7.96875, -8.0625, -8.15625, -8.25, -8.34375,
   -8.4375, -8.53125, -8.625, -8.71875, -8.8125, -8.90625]

/-- The table `pyramidSide4BZ` of `main`. -/
def pyramidSide4BZ : List K :=
  [6, 5.90625, 5.8125, 5.71875, 5.625, 5.53125, 5.4375, 5.34375, 5.25, 5.15625, 5.0625, 4.96875,
   4.875, 4.78125, 4.6875, 4.59375]

/-- The table `pyramidSide4CX` of `main`. -/
def pyramidSide4CX : List K :=
  [-9, -8.90625, -8.8125, -8.71875, -8.625, -8.53125, -8.4375, -8.34375, -8.25, -8.15625,
   -8.0625, -7.96875, -7.875, -7.78125, -7.6875, -7.59375]

/-- The table `pyramidSide4CZ` of `main`. -/
def pyramidSide4CZ : List K :=
  [4.5, 4.40625, 4.3125, 4.21875, 4.125, 4.03125, 3.9375, 3.84375, 3.75, 3.65625, 3.5625,
   3.46875, 3.375, 3.28125, 3.1875, 3.09375]

/-- The element `table[animationIndex]` of one of the tables; `animationIndex` is below 16 in
`main`. -/
def tableAt (table : List K) (animationIndex : Nat) : K := table.getD animationIndex 0

/-- The access `filecontent[index]`. -/
def tokenAt (filecontent : List String) (index : Nat) : Except ParseError String :=
  match filecontent[index]? with
  | some token => .ok token
  | none => .error (.outOfBounds index)

/-- The expression `std::stoi(filecontent[index])`. -/
def stoiAt (lib : StdLib K) (filecontent : List String) (index : Nat) : Except ParseError Int :=
  match tokenAt filecontent index with
  | .ok token =>
    match lib.stoi token with
    | some value => .ok value
    | none => .error (.notANumber index)
  | .error e => .error e

/-- The expression `std::stof(filecontent[index])`. -/
def stofAt (lib : StdLib K) (filecontent : List String) (index : Nat) : Except ParseError K :=
  match tokenAt filecontent index with
  | .ok token =>
    match lib.stof token with
    | some value => .ok value
    | none => .error (.notANumber index)
  | .error e => .error e

/-- The expression `glm::vec3(std::stof(filecontent[i]), std::stof(filecontent[j]),
std::stof(filecontent[k]))`, the arguments evaluated from left to right. -/
def vec3At (lib : StdLib K) (filecontent : List String) (i j k : Nat) :
    Except ParseError (Vec3 K) := do
  let x ← stofAt lib filecontent i
  let y ← stofAt lib filecontent j
  let z ← stofAt lib filecontent k
  pure ⟨x, y, z⟩

/-- The assignments to `material` shared by all the blocks: ambient, diffuse and specular
from the nine tokens from `index` on, shininess from the tenth. -/
def materialAt (lib : StdLib K) (filecontent : List String) (index : Nat) :
    Except ParseError (Material K) := do
  let ambient ← vec3At lib filecontent index (index + 1) (index + 2)
  let diffuse ← vec3At lib filecontent (index + 3) (index + 4) (index + 5)
  let specular ← vec3At lib filecontent (index + 6) (index + 7) (index + 8)
  let shininess ← stofAt lib filecontent (index + 9)
  pure ⟨ambient, diffuse, specular, shininess⟩

/-- The body of the block `if (filecontent[startNum] == "sphere")` up to the assignment of
the shininess. -/
def readSphere (lib : StdLib K) (filecontent : List String) (startNum : Nat) :
    Except ParseError (Sphere K) := do
  let center ← vec3At lib filecontent (startNum + 1) (startNum + 2) (startNum + 3)
  let radius ← stofAt lib filecontent (startNum + 4)
  let material ← materialAt lib filecontent (startNum + 5)
  pure ⟨material, center, radius⟩

/-- The body of the block `if (filecontent[startNum] == "sphereBounce")`: the second
coordinate of the centre is `bounceY[animationIndex]`. -/
def readSphereBounce (lib : StdLib K) (animationIndex : Nat) (filecontent : List String)
    (startNum : Nat) : Except ParseError (Sphere K) := do
  let x ← stofAt lib filecontent (startNum + 1)
  let z ← stofAt lib filecontent (startNum + 3)
  let center : Vec3 K := ⟨x, ((bounceY.getD animationIndex 0 : Int) : K), z⟩
  let radius ← stofAt lib filecontent (startNum + 4)
  let material ← materialAt lib filecontent (startNum + 5)
  pure ⟨material, center, radius⟩

/-- The body of the block `if (filecontent[startNum] == "tri")`. -/
def readTri (lib : StdLib K) (filecontent : List String) (startNum : Nat) :
    Except ParseError (Triangle K) := do
  let A ← vec3At lib filecontent (startNum + 1) (startNum + 2) (startNum + 3)
  let B ← vec3At lib filecontent (startNum + 4) (startNum + 5) (startNum + 6)
  let C ← vec3At lib filecontent (startNum + 7) (startNum + 8) (startNum + 9)
  let material ← materialAt lib filecontent (startNum + 10)
  pure ⟨material, A, B, C⟩

/-- The body of the blocks `if (filecontent[startNum] == "triSideN")`, which differ in the
four tables only: `bx`, `bz`, `cx`, `cz` are `pyramidSideNBX[animationIndex]`,
`pyramidSideNBZ[animationIndex]`, `pyramidSideNCX[animationIndex]` and
`pyramidSideNCZ[animationIndex]`. -/
def readTriSide (lib : StdLib K) (filecontent : List String) (startNum : Nat)
    (bx bz cx cz : K) : Except ParseError (Triangle K) := do
  let A ← vec3At lib filecontent (startNum + 1) (startNum + 2) (startNum + 3)
  let By ← stofAt lib filecontent (startNum + 5)
  let Cy ← stofAt lib filecontent (startNum + 8)
  let material ← materialAt lib filecontent (startNum + 10)
  pure ⟨material, A, ⟨bx, By, bz⟩, ⟨cx, Cy, cz⟩⟩

/-- The object that the block of a keyword builds from the tokens at `startNum`. -/
def readObject (lib : StdLib K) (animationIndex : Nat) (filecontent : List String)
    (startNum : Nat) : ObjectKind → Except ParseError (SceneObject K)
  | .sphere => (readSphere lib filecontent startNum).map SceneObject.sphere
  | .sphereBounce =>
    (readSphereBounce lib animationIndex filecontent startNum).map SceneObject.sphere
  | .tri => (readTri lib filecontent startNum).map SceneObject.triangle
  | .triSide1 =>
    (readTriSide lib filecontent startNum
      (tableAt pyramidSide1BX animationIndex) (tableAt pyramidSide1BZ animationIndex)
      (tableAt pyramidSide1CX animationIndex) (tableAt pyramidSide1CZ animationIndex)).map
      SceneObject.triangle
  | .triSide2 =>
    (readTriSide lib filecontent startNum
      (tableAt pyramidSide2BX animationIndex) (tableAt pyramidSide2BZ animationIndex)
      (tableAt pyramidSide2CX animationIndex) (tableAt pyramidSide2CZ animationIndex)).map
      SceneObject.triangle
  | .triSide3 =>
    (readTriSide lib filecontent startNum
      (tableAt pyramidSide3BX animationIndex) (tableAt pyramidSide3BZ animationIndex)
      (tableAt pyramidSide3CX animationIndex) (tableAt pyramidSide3CZ animationIndex)).map
      SceneObject.triangle
  | .triSide4 =>
    (readTriSide lib filecontent startNum
      (tableAt pyramidSide4BX animationIndex) (tableAt pyramidSide4BZ animationIndex)
      (tableAt pyramidSide4CX animationIndex) (tableAt pyramidSide4CZ animationIndex)).map
      SceneObject.triangle

/-- One block `if (filecontent[startNum] == "keyword") {...}` of the object loop, on the
cursor `startNum` and the vector `scene.objects`. -/
def objectBlock (lib : StdLib K) (animationIndex : Nat) (filecontent : List String)
    (kind : ObjectKind) (state : Nat × List (SceneObject K)) :
    Except ParseError (Nat × List (SceneObject K)) := do
  let token ← tokenAt filecontent state.1
  if token = kind.keyword then
    let object ← readObject lib animationIndex filecontent state.1 kind
    pure (state.1 + kind.size, state.2 ++ [object])
  else
    pure state

/-- The body of the object loop: the seven blocks one after the other, each of them testing
the token at the cursor that the blocks before it left. -/
def objectLoopBody (lib : StdLib K) (animationIndex : Nat) (filecontent : List String)
    (state : Nat × List (SceneObject K)) : Except ParseError (Nat × List (SceneObject K)) := do
  let state ← objectBlock lib animationIndex filecontent .sphere state
  let state ← objectBlock lib animationIndex filecontent .sphereBounce state
  let state ← objectBlock lib animationIndex filecontent .tri state
  let state ← objectBlock lib animationIndex filecontent .triSide1 state
  let state ← objectBlock lib animationIndex filecontent .triSide2 state
  let state ← objectBlock lib animationIndex filecontent .triSide3 state
  objectBlock lib animationIndex filecontent .triSide4 state

/-- The loop `for (int i = 0; i < numObj; i++)`, run for `count` iterations. -/
def readObjects (lib : StdLib K) (animationIndex : Nat) (filecontent : List String) :
    Nat → Nat × List (SceneObject K) → Except ParseError (Nat × List (SceneObject K))
  | 0, state => .ok state
  | count + 1, state =>
    match objectLoopBody lib animationIndex filecontent state with
    | .ok state => readObjects lib animationIndex filecontent count state
    | .error e => .error e

/-- The declaration of `light` in the light loop and the assignments to its fields. -/
def readLight (lib : StdLib K) (filecontent : List String) (startNum : Nat) :
    Except ParseError (Light K) := do
  let x ← stofAt lib filecontent (startNum + 1)
  let y ← stofAt lib filecontent (startNum + 2)
  let z ← stofAt lib filecontent (startNum + 3)
  let w ← stofAt lib filecontent (startNum + 4)
  let ambient ← vec3At lib filecontent (startNum + 5) (startNum + 6) (startNum + 7)
  let diffuse ← vec3At lib filecontent (startNum + 8) (startNum + 9) (startNum + 10)
  let specular ← vec3At lib filecontent (startNum + 11) (startNum + 12) (startNum + 13)
  let constant ← stofAt lib filecontent (startNum + 14)
  let linear ← stofAt lib filecontent (startNum + 15)
  let quadratic ← stofAt lib filecontent (startNum + 16)
  pure ⟨⟨x, y, z, w⟩, ambient, diffuse, specular, constant, linear, quadratic⟩

/-- The loop `for (int i = 0; i < lightNum; i++)`, run for `count` iterations, on the cursor
`startNum` and the vector `scene.lights`. -/
def readLights (lib : StdLib K) (filecontent : List String) :
    Nat → Nat × List (Light K) → Except ParseError (Nat × List (Light K))
  | 0, state => .ok state
  | count + 1, state =>
    match readLight lib filecontent state.1 with
    | .ok light => readLights lib filecontent count (state.1 + 16, state.2 ++ [light])
    | .error e => .error e

/-- The camera initialisation of `main` with the two locals `maxDepth` and `numObj`. -/
def readHeader (lib : StdLib K) (filecontent : List String) :
    Except ParseError (Camera K × Int × Int) := do
  let imageWidth ← stoiAt lib filecontent 0
  let imageHeight ← stoiAt lib filecontent 1
  let position ← vec3At lib filecontent 2 3 4
  let lookTarget ← vec3At lib filecontent 5 6 7
  let globalUp ← vec3At lib filecontent 8 9 10
  let fovY ← stofAt lib filecontent 11
  let focalLength ← stofAt lib filecontent 12
  let maxDepth ← stoiAt lib filecontent 13
  let numObj ← stoiAt lib filecontent 14
  pure (⟨position, lookTarget, globalUp, fovY, focalLength, imageWidth, imageHeight⟩,
    maxDepth, numObj)

/-- What has been written to `std::cout` by a part of `main`, and the value of the part
unless it stopped. -/
structure Run (K : Type) (α : Type) where
  stdout : List (Output K)
  result : Except ParseError α

/-- The part of `main` under the comment `Light Initialization`: the light count, the two
debugging lines and the light loop.  The second line writes its label before
`std::stof(filecontent[startNum + 4])` is evaluated. -/
def readLightSection (lib : StdLib K) (filecontent : List String) (startNum : Nat) :
    Run K (List (Light K)) :=
  match stoiAt lib filecontent startNum with
  | .error e => ⟨[], .error e⟩
  | .ok lightNum =>
    let line1 : List (Output K) := [.text "Start num: ", .int startNum, .endl]
    match stofAt lib filecontent (startNum + 4) with
    | .error e => ⟨line1 ++ [.text "Light w: "], .error e⟩
    | .ok w =>
      let line2 : List (Output K) := [.text "Light w: ", .float w, .endl]
      match readLights lib filecontent lightNum.toNat (startNum, []) with
      | .error e => ⟨line1 ++ line2, .error e⟩
      | .ok state => ⟨line1 ++ line2, .ok state.2⟩

/-- The lines `File index i: token` that `main` writes for the tokens from index `i` on. -/
def listTokens : Nat → List String → List (Output K)
  | _, [] => []
  | i, token :: rest =>
    [.text "File index ", .int i, .text ": ", .text token, .endl] ++ listTokens (i + 1) rest

/-- The opening of the scene file and the loop that fills `filecontent`: what is written to
`std::cout`, and `filecontent` afterwards.  The file is given by the tokens that the loop
pushes, `none` when it cannot be opened. -/
def readFile (scenefile : Option (List String)) : List (Output K) × List String :=
  match scenefile with
  | some tokens => ([.text "File exist", .endl], tokens)
  | none => ([], [])

/-- The part of an iteration of the outer loop of `main` before the image is made: the
tokens of the scene file, their listing, the camera, the objects and the lights. -/
def readScene (lib : StdLib K) (animationIndex : Nat) (scenefile : Option (List String)) :
    Run K (Camera K × Int × Scene K) :=
  let opened : List (Output K) × List String := readFile scenefile
  let filecontent := opened.2
  let out := opened.1 ++ listTokens 0 filecontent
  match readHeader lib filecontent with
  | .error e => ⟨out, .error e⟩
  | .ok (camera, maxDepth, numObj) =>
    match readObjects lib animationIndex filecontent numObj.toNat (15, []) with
    | .error e => ⟨out, .error e⟩
    | .ok state =>
      let lights := readLightSection lib filecontent state.1
      match lights.result with
      | .error e => ⟨out ++ lights.stdout, .error e⟩
      | .ok lights1 => ⟨out ++ lights.stdout, .ok (camera, maxDepth, ⟨state.2, lights1⟩)⟩

/-! ## Well-formed scene files -/

/-- The blocks of the keywords `kinds` one after the other. -/
def objectBlocks (lib : StdLib K) (animationIndex : Nat) (filecontent : List String) :
    List ObjectKind → Nat × List (SceneObject K) → Except ParseError (Nat × List (SceneObject K))
  | [], state => .ok state
  | kind :: kinds, state =>
    match objectBlock lib animationIndex filecontent kind state with
    | .ok state => objectBlocks lib animationIndex filecontent kinds state
    | .error e => .error e

/-- The layout of the object records of a well-formed scene file: from index `start` on
stand records of the kinds `kinds`, each with the keyword of its kind in front and as long as
its kind says, read by the block of the kind as `objects`; behind the last record, at index
`last`, stands a number, the light count. -/
def RecordsAt (lib : StdLib K) (animationIndex : Nat) (filecontent : List String) :
    Nat → List ObjectKind → List (SceneObject K) → Nat → Prop
  | start, [], [], last => start = last ∧ ∃ n, stoiAt lib filecontent last = .ok n
  | start, kind :: kinds, object :: objects, last =>
    tokenAt filecontent start = .ok kind.keyword ∧
    readObject lib animationIndex filecontent start kind = .ok object ∧
    RecordsAt lib animationIndex filecontent (start + kind.size) kinds objects last
  | _, _ :: _, [], _ => False
  | _, [], _ :: _, _ => False

/-- The light with the position `(v 1, v 2, v 3, v 4)`, the ambient colour `(v 5, v 6, v 7)`,
the diffuse colour `(v 8, v 9, v 10)`, the specular colour `(v 11, v 12, v 13)` and the
attenuation coefficients `v 14`, `v 15`, `v 16`. -/
def lightOfValues (v : Nat → K) : Light K :=
  ⟨⟨v 1, v 2, v 3, v 4⟩, ⟨v 5, v 6, v 7⟩, ⟨v 8, v 9, v 10⟩, ⟨v 11, v 12, v 13⟩,
    v 14, v 15, v 16⟩

/-! ## Scene files for the examples -/

/-- The decimal digits `cs` appended to the number `acc`; `none` when a character is no
digit. -/
def digitsValue : List Char → Nat → Option Nat
  | [], acc => some acc
  | c :: cs, acc =>
    if 48 ≤ c.toNat ∧ c.toNat ≤ 57 then digitsValue cs (acc * 10 + (c.toNat - 48)) else none

/-- The integer written by a token of decimal digits with an optional minus sign. -/
def decimalInt (token : String) : Option Int :=
  match token.data with
  | [] => none
  | '-' :: [] => none
  | '-' :: cs => (digitsValue cs 0).map (fun n => -(n : Int))
  | cs => (digitsValue cs 0).map (fun n => (n : Int))

/-- The conversions `std::stoi` and `std::stof` on the tokens that are decimal integers; the
scene files of the examples have no other numbers. -/
def decimalLib : StdLib K := ⟨decimalInt, fun token => (decimalInt token).map (fun n => (n : K))⟩

/-- The header of the scene files of the examples: a 4 x 4 image, the camera at `(0, 0, 3)`
looking at the origin, `maxDepth = 2`, and the object count `numObj`. -/
def exampleHeader (numObj : String) : List String :=
  ["4", "4", "0", "0", "3", "0", "0", "0", "0", "1", "0", "60", "1", "2", numObj]

/-- A `sphere` record: the unit sphere at the origin. -/
def exampleSphere : List String :=
  ["sphere", "0", "0", "0", "1", "1", "1", "1", "1", "1", "1", "0", "0", "0", "8"]

/-- A `tri` record: the triangle `(0,0,-2)`, `(1,0,-2)`, `(0,1,-2)`. -/
def exampleTri : List String :=
  ["tri", "0", "0", "-2", "1", "0", "-2", "0", "1", "-2", "1", "1", "1", "1", "1", "1", "0",
   "0", "0", "8"]

/-- The sixteen tokens of a light: a point light at `(0, 0, 11)`. -/
def exampleLight : List String :=
  ["0", "0", "11", "1", "1", "1", "1", "1", "1", "1", "1", "1", "1", "1", "0", "0"]

end Parsing

section Frames

variable {K : Type} [LinearOrderedField K] [FloorRing K]

/-- The progress line that `main` writes after row `y` of the image. -/
def rowLine (y height : Int) : List (Output K) :=
  [.text "Row: ", .int (y + 1), .text " / ", .int height, .text "\r"]

/-- One iteration of the outer loop of `main`: the image `frame<animationIndex>.png` that it
hands to `stbi_write_png`, as the file name with the image, and what it writes to
`std::cout`. -/
def frame (lib : StdLib K) (rt : Runtime K) (tan : K → K) (M_PI : K) (animationIndex : Nat)
    (scenefile : Option (List String)) : Run K (String × Image) :=
  let parsed := readScene lib animationIndex scenefile
  match parsed.result with
  | .error e => ⟨parsed.stdout, .error e⟩
  | .ok (camera, maxDepth, scene) =>
    let image := render rt tan M_PI scene camera maxDepth
    let rows : List (Output K) :=
      (List.range image.height.toNat).flatMap (fun y => rowLine (y : Int) image.height)
    let imageFileName := "frame" ++ toString animationIndex ++ ".png"
    ⟨parsed.stdout ++ rows ++ [.endl], .ok (imageFileName, image)⟩

end Frames

/-! # Theorems -/

section Basics

variable {K : Type} [LinearOrderedField K]

@[simp] theorem Vec3.zero_x : (0 : Vec3 K).x = 0 := rfl
@[simp] theorem Vec3.zero_y : (0 : Vec3 K).y = 0 := rfl
@[simp] theorem Vec3.zero_z : (0 : Vec3 K).z = 0 := rfl
@[simp] theorem Vec3.add_x (a b : Vec3 K) : (a + b).x = a.x + b.x := rfl
@[simp] theorem Vec3.add_y (a b : Vec3 K) : (a + b).y = a.y + b.y := rfl
@[simp] theorem Vec3.add_z (a b : Vec3 K) : (a + b).z = a.z + b.z := rfl
@[simp] theorem Vec3.sub_x (a b : Vec3 K) : (a - b).x = a.x - b.x := rfl
@[simp] theorem Vec3.sub_y (a b : Vec3 K) : (a - b).y = a.y - b.y := rfl
@[simp] theorem Vec3.sub_z (a b : Vec3 K) : (a - b).z = a.z - b.z := rfl
@[simp] theorem Vec3.neg_x (a : Vec3 K) : (-a).x = -a.x := rfl
@[simp] theorem Vec3.neg_y (a : Vec3 K) : (-a).y = -a.y := rfl
@[simp] theorem Vec3.neg_z (a : Vec3 K) : (-a).z = -a.z := rfl
@[simp] theorem Vec3.mul_x (a b : Vec3 K) : (a * b).x = a.x * b.x := rfl
@[simp] theorem Vec3.mul_y (a b : Vec3 K) : (a * b).y = a.y * b.y := rfl
@[simp] theorem Vec3.mul_z (a b : Vec3 K) : (a * b).z = a.z * b.z := rfl
@[simp] theorem Vec3.smul_x (k : K) (a : Vec3 K) : (k • a).x = k * a.x := rfl
@[simp] theorem Vec3.smul_y (k : K) (a : Vec3 K) : (k • a).y = k * a.y := rfl
@[simp] theorem Vec3.smul_z (k : K) (a : Vec3 K) : (k • a).z = k * a.z := rfl


theorem Runtime.SqrtExact.sqrt_nonneg {rt : Runtime K} (h : rt.SqrtExact) {x : K}
    (hx : 0 ≤ x) : 0 ≤ rt.sqrt x := (h x hx).1

theorem Runtime.SqrtExact.mul_self_sqrt {rt : Runtime K} (h : rt.SqrtExact) {x : K}
    (hx : 0 ≤ x) : rt.sqrt x * rt.sqrt x = x := (h x hx).2

theorem Runtime.SqrtExact.sqrt_mul_self {rt : Runtime K} (h : rt.SqrtExact) {a : K}
    (ha : 0 ≤ a) : rt.sqrt (a * a) = a := by
  have h0 : 0 ≤ a * a := mul_self_nonneg a
  have h1 := h.sqrt_nonneg h0
  have h2 := h.mul_self_sqrt h0
  nlinarith [mul_self_nonneg (rt.sqrt (a * a) - a), mul_nonneg h1 ha]

theorem dot_self_nonneg (v : Vec3 K) : 0 ≤ dot v v := by
  unfold dot
  nlinarith [mul_self_nonneg v.x, mul_self_nonneg v.y, mul_self_nonneg v.z]

end Basics

/-! ## Sphere intersection -/

section SphereTheorems

variable {K : Type} [LinearOrderedField K]

/-- `Sphere::Intersect` in terms of its locals. -/
theorem Sphere.Intersect_unfold (rt : Runtime K) (s : Sphere K) (ray : Ray K) (p0 n0 : Vec3 K) :
    s.Intersect rt ray p0 n0 =
      if s.b ray * s.b ray - s.c ray < 0 then ⟨-1, p0, n0⟩
      else
        ⟨Sphere.chooseT rt (s.b ray) (s.b ray * s.b ray - s.c ray),
         ray.origin + Sphere.chooseT rt (s.b ray) (s.b ray * s.b ray - s.c ray) • ray.direction,
         normalize rt (ray.origin +
           Sphere.chooseT rt (s.b ray) (s.b ray * s.b ray - s.c ray) • ray.direction)⟩ := rfl

/-- A positive `chooseT` is one of the two roots `-b ± sqrt(b² - c)`. -/
theorem Sphere.chooseT_root (rt : Runtime K) (hsqrt : rt.SqrtExact) (b disc : K)
    (hd : 0 ≤ disc) (hpos : 0 < Sphere.chooseT rt b disc) :
    Sphere.chooseT rt b disc * Sphere.chooseT rt b disc
      + 2 * b * Sphere.chooseT rt b disc + (b * b - disc) = 0 := by
  have h2 := hsqrt.mul_self_sqrt hd
  unfold Sphere.chooseT at hpos ⊢
  simp only at hpos ⊢
  split_ifs at hpos ⊢ with h1 h3 h4 h5 h6 h7
  · subst h1; ring
  · nlinarith
  · nlinarith
  · nlinarith
  · nlinarith
  · exact absurd hpos (lt_irrefl 0)
  · exact absurd hpos (lt_irrefl 0)

/-- The root selection of `Sphere::Intersect` away from the uncovered case: when `c ≠ 0`
(no root is `0`) and `q` is a strictly positive root of `t² + 2bt + c`, the selected `t` is
a strictly positive root and is `≤ q`. -/
theorem Sphere.chooseT_least_pos_root (rt : Runtime K) (hsqrt : rt.SqrtExact) (b disc q : K)
    (hd : 0 ≤ disc) (hc : b * b - disc ≠ 0) (hq : 0 < q)
    (hroot : q * q + 2 * b * q + (b * b - disc) = 0) :
    0 < Sphere.chooseT rt b disc ∧ Sphere.chooseT rt b disc ≤ q := by
  have hs0 := hsqrt.sqrt_nonneg hd
  have hs2 := hsqrt.mul_self_sqrt hd
  have hfac : (q - (-1 * b + rt.sqrt disc)) * (q - (-1 * b - rt.sqrt disc)) = 0 := by
    linear_combination hroot - hs2
  have hprod : (-1 * b + rt.sqrt disc) * (-1 * b - rt.sqrt disc) ≠ 0 := by
    intro h0
    apply hc
    linear_combination h0 + hs2
  have hr1 : -1 * b + rt.sqrt disc ≠ 0 := left_ne_zero_of_mul hprod
  have hr2 : -1 * b - rt.sqrt disc ≠ 0 := right_ne_zero_of_mul hprod
  have hqcases : q = -1 * b + rt.sqrt disc ∨ q = -1 * b - rt.sqrt disc := by
    rcases mul_eq_zero.mp hfac with h | h
    · left; linarith
    · right; linarith
  unfold Sphere.chooseT
  simp only
  split_ifs with h1 h3 h4 h5 h6 h7
  · subst h1
    have hsz : rt.sqrt 0 = 0 := by
      rcases mul_self_eq_zero.mp hs2 with h
      exact h
    rw [hsz] at hqcases
    rcases hqcases with h | h <;> constructor <;> linarith
  · rcases hqcases with h | h <;> constructor <;> linarith
  · rcases hqcases with h | h <;> constructor <;> linarith [h4.1, h4.2]
  · rcases hqcases with h | h <;> constructor <;> linarith [h6.1, h6.2]
  · rcases hqcases with h | h <;> constructor <;> linarith [h7.1, h7.2]
  · exfalso
    rcases lt_or_gt_of_ne hr2 with h | h
    · rcases hqcases with h8 | h8
      · exact h6 ⟨by linarith, h⟩
      · linarith
    · exact h4 ⟨by linarith, h⟩
  · exact absurd (lt_of_le_of_ne hd (Ne.symm h1)) h3

/-- Expansion of `|P + t D - C|²`. -/
theorem Sphere.dist_sq_expand (s : Sphere K) (ray : Ray K) (t : K) :
    dot (ray.origin + t • ray.direction - s.center) (ray.origin + t • ray.direction - s.center)
      = t * t * dot ray.direction ray.direction + 2 * s.b ray * t + s.c ray
        + s.radius * s.radius := by
  simp only [dot, Sphere.b, Sphere.c, Vec3.add_x, Vec3.add_y, Vec3.add_z, Vec3.sub_x,
    Vec3.sub_y, Vec3.sub_z, Vec3.smul_x, Vec3.smul_y, Vec3.smul_z]
  ring

/-- A vector of length one has `dot v v = 1`. -/
theorem dot_self_of_length_eq_one {rt : Runtime K} (hsqrt : rt.SqrtExact) {v : Vec3 K}
    (h : length rt v = 1) : dot v v = 1 := by
  have h2 := hsqrt.mul_self_sqrt (dot_self_nonneg v)
  unfold length at h
  rw [h] at h2
  linarith

/-- C1: if `Sphere::Intersect` returns `t > 0` on a ray whose direction has length one,
the output point is `origin + t * direction` and lies on the sphere:
`|point - center|² = radius²`. -/
theorem Sphere.Intersect_point_on_sphere (rt : Runtime K) (hsqrt : rt.SqrtExact)
    (s : Sphere K) (ray : Ray K) (p0 n0 : Vec3 K)
    (hunit : length rt ray.direction = 1)
    (hpos : 0 < (s.Intersect rt ray p0 n0).ret) :
    (s.Intersect rt ray p0 n0).outIntersectionPoint
        = ray.origin + (s.Intersect rt ray p0 n0).ret • ray.direction ∧
      dot ((s.Intersect rt ray p0 n0).outIntersectionPoint - s.center)
          ((s.Intersect rt ray p0 n0).outIntersectionPoint - s.center)
        = s.radius * s.radius := by
  have hdd := dot_self_of_length_eq_one hsqrt hunit
  rw [Sphere.Intersect_unfold] at hpos ⊢
  split_ifs at hpos ⊢ with h1
  · simp only at hpos
    linarith
  · simp only at hpos ⊢
    refine ⟨trivial, ?_⟩
    have hroot := Sphere.chooseT_root rt hsqrt (s.b ray) _ (not_lt.mp h1) hpos
    rw [Sphere.dist_sq_expand, hdd]
    linarith

/-- The square root of the reals is exact. -/
theorem real_sqrtExact (pw : ℝ → ℝ → ℝ) (u : ℝ) (v : Vec3 ℝ) :
    Runtime.SqrtExact (⟨Real.sqrt, pw, u, v⟩ : Runtime ℝ) :=
  fun x hx => ⟨Real.sqrt_nonneg x, Real.mul_self_sqrt hx⟩

/-- Witness of C1 over the reals: the unit sphere at the origin and the ray from
`(0, 0, 3)` along `(0, 0, -1)`. -/
theorem Sphere.Intersect_point_on_sphere_witness :
    length (⟨Real.sqrt, Real.rpow, 0, 0⟩ : Runtime ℝ) (⟨0, 0, -1⟩ : Vec3 ℝ) = 1 ∧
    0 < (Sphere.Intersect (⟨Real.sqrt, Real.rpow, 0, 0⟩ : Runtime ℝ)
          ⟨⟨0, 0, 0, 0⟩, ⟨0, 0, 0⟩, 1⟩ ⟨⟨0, 0, 3⟩, ⟨0, 0, -1⟩⟩ 0 0).ret ∧
    (Sphere.Intersect (⟨Real.sqrt, Real.rpow, 0, 0⟩ : Runtime ℝ)
          ⟨⟨0, 0, 0, 0⟩, ⟨0, 0, 0⟩, 1⟩ ⟨⟨0, 0, 3⟩, ⟨0, 0, -1⟩⟩ 0 0).outIntersectionPoint
        = (⟨0, 0, 3⟩ : Vec3 ℝ) + (Sphere.Intersect (⟨Real.sqrt, Real.rpow, 0, 0⟩ : Runtime ℝ)
          ⟨⟨0, 0, 0, 0⟩, ⟨0, 0, 0⟩, 1⟩ ⟨⟨0, 0, 3⟩, ⟨0, 0, -1⟩⟩ 0 0).ret • (⟨0, 0, -1⟩ : Vec3 ℝ) ∧
    dot ((Sphere.Intersect (⟨Real.sqrt, Real.rpow, 0, 0⟩ : Runtime ℝ)
          ⟨⟨0, 0, 0, 0⟩, ⟨0, 0, 0⟩, 1⟩ ⟨⟨0, 0, 3⟩, ⟨0, 0, -1⟩⟩ 0 0).outIntersectionPoint - 0)
        ((Sphere.Intersect (⟨Real.sqrt, Real.rpow, 0, 0⟩ : Runtime ℝ)
          ⟨⟨0, 0, 0, 0⟩, ⟨0, 0, 0⟩, 1⟩ ⟨⟨0, 0, 3⟩, ⟨0, 0, -1⟩⟩ 0 0).outIntersectionPoint - 0)
        = 1 * 1 := by
  have hu : length (⟨Real.sqrt, Real.rpow, 0, 0⟩ : Runtime ℝ) (⟨0, 0, -1⟩ : Vec3 ℝ) = 1 := by
    simp [length, dot]
  have hp : 0 < (Sphere.Intersect (⟨Real.sqrt, Real.rpow, 0, 0⟩ : Runtime ℝ)
          ⟨⟨0, 0, 0, 0⟩, ⟨0, 0, 0⟩, 1⟩ ⟨⟨0, 0, 3⟩, ⟨0, 0, -1⟩⟩ 0 0).ret := by
    simp [Sphere.Intersect_unfold, Sphere.b, Sphere.c, Sphere.chooseT, dot]
    norm_num
  exact ⟨hu, hp, Sphere.Intersect_point_on_sphere _ (real_sqrtExact _ _ _) _ _ 0 0 hu hp⟩

/-- The direction `normalize(v)` has `dot = 1` when `v` is not the zero vector. -/
theorem dot_normalize_self {rt : Runtime K} (hsqrt : rt.SqrtExact) (v : Vec3 K)
    (hv : 0 < rt.sqrt (dot v v)) : dot (normalize rt v) (normalize rt v) = 1 := by
  have h2 := hsqrt.mul_self_sqrt (dot_self_nonneg v)
  have hne : rt.sqrt (dot v v) ≠ 0 := ne_of_gt hv
  have : dot (normalize rt v) (normalize rt v)
      = dot v v / (rt.sqrt (dot v v) * rt.sqrt (dot v v)) := by
    simp only [normalize, dot, Vec3.smul_x, Vec3.smul_y, Vec3.smul_z]
    field_simp
  rw [this, h2]
  exact div_self (by rw [← h2]; exact mul_ne_zero hne hne)

/-- C2, evaluated on the unit sphere at the origin and the ray from the surface point
`(0, 0, 1)` along `(0, 0, -1)`: here `b = -1`, `c = 0`, the roots of `t² + 2bt + c` are
`0` and `2`, so `2` is the smallest strictly positive root, and `Sphere::Intersect`
returns `0`: no branch of the root selection covers `rootTwo == 0`. -/
theorem Sphere.Intersect_origin_on_surface :
    Sphere.b (⟨⟨0, 0, 0, 0⟩, ⟨0, 0, 0⟩, 1⟩ : Sphere ℝ) ⟨⟨0, 0, 1⟩, ⟨0, 0, -1⟩⟩ = -1 ∧
    Sphere.c (⟨⟨0, 0, 0, 0⟩, ⟨0, 0, 0⟩, 1⟩ : Sphere ℝ) ⟨⟨0, 0, 1⟩, ⟨0, 0, -1⟩⟩ = 0 ∧
    length (⟨Real.sqrt, Real.rpow, 0, 0⟩ : Runtime ℝ) (⟨0, 0, -1⟩ : Vec3 ℝ) = 1 ∧
    (∀ t : ℝ, (0 < t ∧ t * t + 2 * (-1) * t + 0 = 0) ↔ t = 2) ∧
    (Sphere.Intersect (⟨Real.sqrt, Real.rpow, 0, 0⟩ : Runtime ℝ)
        ⟨⟨0, 0, 0, 0⟩, ⟨0, 0, 0⟩, 1⟩ ⟨⟨0, 0, 1⟩, ⟨0, 0, -1⟩⟩ 0 0).ret = 0 := by
  refine ⟨by simp [Sphere.b, dot], by simp [Sphere.c, dot], by simp [length, dot], ?_, ?_⟩
  · intro t
    constructor
    · rintro ⟨h0, h1⟩
      have : t * (t - 2) = 0 := by linarith
      rcases mul_eq_zero.mp this with h | h
      · linarith
      · linarith
    · rintro rfl
      norm_num
  · simp only [Sphere.Intersect_unfold, Sphere.b, Sphere.c, Sphere.chooseT, dot, Vec3.sub_x,
      Vec3.sub_y, Vec3.sub_z]
    norm_num

end SphereTheorems

/-! ## Scene raycast -/

section RaycastTheorems

variable {K : Type} [LinearOrderedField K]

/-- The first loop of `Raycast`, started from any list. -/
theorem Raycast.infoList_foldl (rt : Runtime K) (ray : Ray K) (objs : List (SceneObject K))
    (acc : List (IntersectionInfo K)) :
    objs.foldl
      (fun infoList obj =>
        let r := obj.Intersect rt ray 0 0
        let ret : IntersectionInfo K :=
          ⟨ray, r.ret, none, r.outIntersectionPoint, r.outIntersectionNormal⟩
        if r.ret > 0 then infoList ++ [{ ret with obj := some obj }] else infoList)
      acc
    = acc ++ (objs.filter (fun o => decide (0 < (o.Intersect rt ray 0 0).ret))).map
        (Raycast.hitInfo rt ray) := by
  induction objs generalizing acc with
  | nil => simp
  | cons o rest ih =>
    simp only [List.foldl_cons, ih]
    by_cases h : 0 < (o.Intersect rt ray 0 0).ret
    · simp [List.filter_cons, h, Raycast.hitInfo]
    · simp [List.filter_cons, h]

/-- The list `infoList` of `Raycast` holds the records of the objects whose `Intersect`
returned a positive value, in scene order. -/
theorem Raycast.infoList_eq (rt : Runtime K) (ray : Ray K) (scene : Scene K) :
    Raycast.infoList rt ray scene
      = (scene.objects.filter (fun o => decide (0 < (o.Intersect rt ray 0 0).ret))).map
          (Raycast.hitInfo rt ray) := by
  unfold Raycast.infoList
  rw [Raycast.infoList_foldl]
  simp

/-- On records with positive `t`, one step of the second loop keeps the smaller `t`. -/
theorem Raycast.select_eq (ret info : IntersectionInfo K) (hr : 0 < ret.t) (hi : 0 < info.t) :
    Raycast.select ret info = if ret.t > info.t then info else ret := by
  have h0 : ¬ (ret.t < 0 ∧ info.t ≥ 0) := fun h => absurd h.1 (not_lt.mpr (le_of_lt hr))
  unfold Raycast.select
  simp only [if_neg h0]
  by_cases h : ret.t > info.t
  · rw [if_pos ⟨h, le_of_lt hi⟩, if_pos h]
  · rw [if_neg (fun h2 => h h2.1), if_neg h]

/-- The second loop of `Raycast` returns a record of the list with the least `t`. -/
theorem Raycast.foldl_select (l : List (IntersectionInfo K)) (first : IntersectionInfo K)
    (hf : 0 < first.t) (hl : ∀ i ∈ l, 0 < i.t) :
    (l.foldl Raycast.select first = first ∨ l.foldl Raycast.select first ∈ l) ∧
      (l.foldl Raycast.select first).t ≤ first.t ∧
      ∀ i ∈ l, (l.foldl Raycast.select first).t ≤ i.t := by
  induction l generalizing first with
  | nil => simp
  | cons a rest ih =>
    have ha : 0 < a.t := hl a (List.mem_cons_self a rest)
    have hrest : ∀ i ∈ rest, 0 < i.t := fun i hi => hl i (List.mem_cons_of_mem a hi)
    simp only [List.foldl_cons]
    rw [Raycast.select_eq first a hf ha]
    by_cases h : first.t > a.t
    · rw [if_pos h]
      obtain ⟨h1, h2, h3⟩ := ih a ha hrest
      refine ⟨?_, le_trans h2 (le_of_lt h), ?_⟩
      · rcases h1 with h1 | h1
        · right; rw [h1]; exact List.mem_cons_self a rest
        · right; exact List.mem_cons_of_mem a h1
      · intro i hi
        rcases List.mem_cons.mp hi with rfl | hi
        · exact h2
        · exact h3 i hi
    · rw [if_neg h]
      obtain ⟨h1, h2, h3⟩ := ih first hf hrest
      refine ⟨?_, h2, ?_⟩
      · rcases h1 with h1 | h1
        · left; exact h1
        · right; exact List.mem_cons_of_mem a h1
      · intro i hi
        rcases List.mem_cons.mp hi with rfl | hi
        · exact le_trans h2 (not_lt.mp h)
        · exact h3 i hi

/-- Membership in `infoList`. -/
theorem Raycast.mem_infoList (rt : Runtime K) (ray : Ray K) (scene : Scene K)
    (i : IntersectionInfo K) :
    i ∈ Raycast.infoList rt ray scene ↔
      ∃ o ∈ scene.objects, 0 < (o.Intersect rt ray 0 0).ret ∧ i = Raycast.hitInfo rt ray o := by
  rw [Raycast.infoList_eq]
  simp only [List.mem_map, List.mem_filter, decide_eq_true_eq]
  constructor
  · rintro ⟨o, ⟨ho, hp⟩, rfl⟩
    exact ⟨o, ho, hp, rfl⟩
  · rintro ⟨o, ho, hp, rfl⟩
    exact ⟨o, ⟨ho, hp⟩, rfl⟩

/-- When some object is hit, `Raycast` returns a record of `infoList` with the least `t`. -/
theorem Raycast.of_hit (rt : Runtime K) (ray : Ray K) (scene : Scene K)
    (hhit : ∃ o ∈ scene.objects, 0 < (o.Intersect rt ray 0 0).ret) :
    Raycast rt ray scene ∈ Raycast.infoList rt ray scene ∧
      ∀ i ∈ Raycast.infoList rt ray scene, (Raycast rt ray scene).t ≤ i.t := by
  obtain ⟨o, ho, hp⟩ := hhit
  have hmem : Raycast.hitInfo rt ray o ∈ Raycast.infoList rt ray scene :=
    (Raycast.mem_infoList rt ray scene _).mpr ⟨o, ho, hp, rfl⟩
  have hpos : ∀ i ∈ Raycast.infoList rt ray scene, 0 < i.t := by
    intro i hi
    obtain ⟨o2, _, hp2, rfl⟩ := (Raycast.mem_infoList rt ray scene i).mp hi
    exact hp2
  unfold Raycast
  simp only
  cases hlist : Raycast.infoList rt ray scene with
  | nil => rw [hlist] at hmem; exact absurd hmem (List.not_mem_nil _)
  | cons first rest =>
    rw [hlist] at hpos
    simp only
    obtain ⟨h1, h2, h3⟩ := Raycast.foldl_select (first :: rest) first
      (hpos first (List.mem_cons_self first rest)) hpos
    refine ⟨?_, h3⟩
    rcases h1 with h1 | h1
    · rw [h1]; exact List.mem_cons_self first rest
    · exact h1

/-- C4: if some scene object's `Intersect` returns a value `> 0`, `Raycast` returns a
non-null `obj` of the scene, its `t` is the value `Intersect` returns for that object, it
is positive, and it is `≤` the positive `Intersect` value of every scene object: the
nearest hit wins.  In particular, when the scene consists of two objects `a` and `b`, in
either order, that are hit at distances `0 < ta < tb`, the nearer one, `a`, is returned. -/
theorem Raycast_closest (rt : Runtime K) (ray : Ray K) (scene : Scene K)
    (hhit : ∃ o ∈ scene.objects, 0 < (o.Intersect rt ray 0 0).ret) :
    (∃ obj, (Raycast rt ray scene).obj = some obj ∧ obj ∈ scene.objects ∧
      (Raycast rt ray scene).t = (obj.Intersect rt ray 0 0).ret ∧
      0 < (Raycast rt ray scene).t ∧
      ∀ o ∈ scene.objects, 0 < (o.Intersect rt ray 0 0).ret →
        (Raycast rt ray scene).t ≤ (o.Intersect rt ray 0 0).ret) ∧
    (∀ a b : SceneObject K, scene.objects = [a, b] ∨ scene.objects = [b, a] →
      0 < (a.Intersect rt ray 0 0).ret →
      (a.Intersect rt ray 0 0).ret < (b.Intersect rt ray 0 0).ret →
      (Raycast rt ray scene).obj = some a) := by
  obtain ⟨hmem, hmin⟩ := Raycast.of_hit rt ray scene hhit
  obtain ⟨obj, hobj, hp, heq⟩ := (Raycast.mem_infoList rt ray scene _).mp hmem
  have hall : ∀ o ∈ scene.objects, 0 < (o.Intersect rt ray 0 0).ret →
      (Raycast rt ray scene).t ≤ (o.Intersect rt ray 0 0).ret := by
    intro o ho hpo
    exact hmin _ ((Raycast.mem_infoList rt ray scene _).mpr ⟨o, ho, hpo, rfl⟩)
  refine ⟨⟨obj, by rw [heq]; rfl, hobj, by rw [heq]; rfl, by rw [heq]; exact hp, hall⟩, ?_⟩
  intro a b hab ha hlt
  have hamem : a ∈ scene.objects := by
    rcases hab with h | h <;> rw [h] <;> simp
  have hcases : obj = a ∨ obj = b := by
    rcases hab with h | h
    · rw [h] at hobj
      simpa using hobj
    · rw [h] at hobj
      have := List.mem_cons.mp hobj
      rcases this with h1 | h1
      · right; exact h1
      · left; simpa using h1
  have hle := hall a hamem ha
  rcases hcases with h | h
  · rw [heq, h]; rfl
  · rw [heq, h] at hle
    exact absurd (lt_of_lt_of_le hlt hle) (lt_irrefl _)

/-- The unit sphere at the origin is hit at distance `2` from `(0, 0, 3)`. -/
theorem near_sphere_ret :
    (SceneObject.Intersect (⟨Real.sqrt, Real.rpow, 0, 0⟩ : Runtime ℝ)
      (.sphere ⟨⟨0, 0, 0, 0⟩, ⟨0, 0, 0⟩, 1⟩) ⟨⟨0, 0, 3⟩, ⟨0, 0, -1⟩⟩ 0 0).ret = 2 := by
  simp only [SceneObject.Intersect, Sphere.Intersect_unfold, Sphere.b, Sphere.c, Sphere.chooseT, dot,
    Vec3.sub_x, Vec3.sub_y, Vec3.sub_z]
  norm_num

/-- The unit sphere at `(0, 0, -5)` is hit at distance `7` from `(0, 0, 3)`. -/
theorem far_sphere_ret :
    (SceneObject.Intersect (⟨Real.sqrt, Real.rpow, 0, 0⟩ : Runtime ℝ)
      (.sphere ⟨⟨0, 0, 0, 0⟩, ⟨0, 0, -5⟩, 1⟩) ⟨⟨0, 0, 3⟩, ⟨0, 0, -1⟩⟩ 0 0).ret = 7 := by
  simp only [SceneObject.Intersect, Sphere.Intersect_unfold, Sphere.b, Sphere.c, Sphere.chooseT, dot,
    Vec3.sub_x, Vec3.sub_y, Vec3.sub_z]
  norm_num

/-- Witness of C4 over the reals: the ray from `(0, 0, 3)` along `(0, 0, -1)` meets the
unit sphere at the origin before the unit sphere at `(0, 0, -5)`; with the far sphere
first in the scene, `Raycast` returns the near one. -/
theorem Raycast_closest_witness :
    (∃ o ∈ [SceneObject.sphere (⟨⟨0, 0, 0, 0⟩, ⟨0, 0, -5⟩, 1⟩ : Sphere ℝ),
            SceneObject.sphere ⟨⟨0, 0, 0, 0⟩, ⟨0, 0, 0⟩, 1⟩],
        0 < (o.Intersect ⟨Real.sqrt, Real.rpow, 0, 0⟩ ⟨⟨0, 0, 3⟩, ⟨0, 0, -1⟩⟩ 0 0).ret) ∧
    (Raycast (⟨Real.sqrt, Real.rpow, 0, 0⟩ : Runtime ℝ) ⟨⟨0, 0, 3⟩, ⟨0, 0, -1⟩⟩
        ⟨[.sphere ⟨⟨0, 0, 0, 0⟩, ⟨0, 0, -5⟩, 1⟩, .sphere ⟨⟨0, 0, 0, 0⟩, ⟨0, 0, 0⟩, 1⟩], []⟩).obj
      = some (.sphere ⟨⟨0, 0, 0, 0⟩, ⟨0, 0, 0⟩, 1⟩) := by
  have hhit : ∃ o ∈ [SceneObject.sphere (⟨⟨0, 0, 0, 0⟩, ⟨0, 0, -5⟩, 1⟩ : Sphere ℝ),
            SceneObject.sphere ⟨⟨0, 0, 0, 0⟩, ⟨0, 0, 0⟩, 1⟩],
        0 < (o.Intersect ⟨Real.sqrt, Real.rpow, 0, 0⟩ ⟨⟨0, 0, 3⟩, ⟨0, 0, -1⟩⟩ 0 0).ret :=
    ⟨_, List.mem_cons_of_mem _ (List.mem_cons_self _ _), by rw [near_sphere_ret]; norm_num⟩
  exact ⟨hhit, (Raycast_closest _ _ ⟨_, []⟩ hhit).2 _ _ (Or.inr rfl)
    (by rw [near_sphere_ret]; norm_num) (by rw [near_sphere_ret, far_sphere_ret]; norm_num)⟩

/-- When no object is hit, `Raycast` returns the null `obj`. -/
theorem Raycast.obj_none_of_no_hit (rt : Runtime K) (ray : Ray K) (scene : Scene K)
    (hno : ∀ o ∈ scene.objects, ¬ 0 < (o.Intersect rt ray 0 0).ret) :
    (Raycast rt ray scene).obj = none := by
  have hnil : Raycast.infoList rt ray scene = [] := by
    apply List.eq_nil_iff_forall_not_mem.mpr
    intro i hi
    obtain ⟨o, ho, hp, _⟩ := (Raycast.mem_infoList rt ray scene i).mp hi
    exact hno o ho hp
  unfold Raycast
  simp only [hnil]

/-- C5: `Raycast` returns `obj = nullptr` exactly when no scene object's `Intersect`
returns a value `> 0` (a returned `0` or `-1` is no hit); in particular on a scene
without objects. -/
theorem Raycast_null_iff (rt : Runtime K) (ray : Ray K) (scene : Scene K) :
    ((Raycast rt ray scene).obj = none ↔
        ¬ ∃ o ∈ scene.objects, 0 < (o.Intersect rt ray 0 0).ret) ∧
      (Raycast rt ray ⟨[], scene.lights⟩).obj = none := by
  constructor
  · constructor
    · intro hnone hhit
      obtain ⟨hmem, _⟩ := Raycast.of_hit rt ray scene hhit
      obtain ⟨obj, _, _, heq⟩ := (Raycast.mem_infoList rt ray scene _).mp hmem
      rw [heq] at hnone
      exact absurd hnone (by simp [Raycast.hitInfo])
    · intro hno
      exact Raycast.obj_none_of_no_hit rt ray scene (fun o ho hp => hno ⟨o, ho, hp⟩)
  · rfl

end RaycastTheorems

/-! ## Triangle intersection -/

section TriangleTheorems

variable {K : Type} [LinearOrderedField K]

/-- `Triangle::Intersect` in terms of its locals. -/
theorem Triangle.Intersect_locals (rt : Runtime K) (tri : Triangle K) (ray : Ray K)
    (p0 n0 : Vec3 K) :
    tri.Intersect rt ray p0 n0 =
      if tri.f ray ≤ 0 then ⟨-1, p0, n0⟩
      else if tri.t ray ≤ 0 then ⟨-1, p0, n0⟩
      else
        ⟨if (tri.u ray ≥ 0 ∧ tri.v ray ≥ 0) ∧ tri.u ray + tri.v ray ≤ 1 then tri.t ray else -1,
         tri.A + tri.u ray • (tri.B - tri.A) + tri.v ray • (tri.C - tri.A),
         normalize rt tri.n⟩ := rfl

/-- Clearing the common denominator of one coordinate of the intersection point. -/
theorem cramer_clear (F a uN p vN q o tN d : K) (hF : F ≠ 0)
    (h : F * a + uN * p + vN * q = F * o + tN * d) :
    a + uN / F * p + vN / F * q = o + tN / F * d := by
  field_simp
  linear_combination h

/-- Cramer's rule for the system `O + t D = A + u (B - A) + v (C - A)`: when `f ≠ 0`,
the locals `t`, `u`, `v` solve it. -/
theorem Triangle.point_on_ray (tri : Triangle K) (ray : Ray K) (hf : tri.f ray ≠ 0) :
    tri.A + tri.u ray • (tri.B - tri.A) + tri.v ray • (tri.C - tri.A)
      = ray.origin + tri.t ray • ray.direction := by
  ext
  all_goals
    simp only [Triangle.u, Triangle.v, Triangle.t, Vec3.add_x, Vec3.add_y, Vec3.add_z,
      Vec3.smul_x, Vec3.smul_y, Vec3.smul_z]
    apply cramer_clear _ _ _ _ _ _ _ _ _ hf
    simp only [Triangle.f, Triangle.e, Triangle.n, dot, cross,
      Vec3.neg_x, Vec3.neg_y, Vec3.neg_z, Vec3.sub_x, Vec3.sub_y, Vec3.sub_z]
    ring

/-- C6: if `Triangle::Intersect` returns `s > 0`, the output point is
`origin + s * direction` and it is `A + u (B - A) + v (C - A)` for some `u ≥ 0`, `v ≥ 0`
with `u + v ≤ 1`: the reported point is on the ray and inside the triangle. -/
theorem Triangle.Intersect_point_inside (rt : Runtime K) (tri : Triangle K) (ray : Ray K)
    (p0 n0 : Vec3 K) (hpos : 0 < (tri.Intersect rt ray p0 n0).ret) :
    (tri.Intersect rt ray p0 n0).outIntersectionPoint
        = ray.origin + (tri.Intersect rt ray p0 n0).ret • ray.direction ∧
      ∃ u v : K, 0 ≤ u ∧ 0 ≤ v ∧ u + v ≤ 1 ∧
        (tri.Intersect rt ray p0 n0).outIntersectionPoint
          = tri.A + u • (tri.B - tri.A) + v • (tri.C - tri.A) := by
  rw [Triangle.Intersect_locals] at hpos ⊢
  split_ifs at hpos ⊢ with h1 h2 h3
  · simp only at hpos; linarith
  · simp only at hpos; linarith
  · simp only
    exact ⟨Triangle.point_on_ray tri ray (ne_of_gt (not_le.mp h1)),
      tri.u ray, tri.v ray, h3.1.1, h3.1.2, h3.2, rfl⟩
  · simp only at hpos; linarith

/-- C7: when `f = dot(-direction, cross(B - A, C - A)) ≤ 0` (back face, parallel ray or
degenerate triangle), `Triangle::Intersect` returns `-1` and leaves the two reference
parameters untouched, whatever the geometry. -/
theorem Triangle.Intersect_backface (rt : Runtime K) (tri : Triangle K) (ray : Ray K)
    (p0 n0 : Vec3 K)
    (hf : dot (-ray.direction) (cross (tri.B - tri.A) (tri.C - tri.A)) ≤ 0) :
    tri.Intersect rt ray p0 n0 = ⟨-1, p0, n0⟩ := by
  have hf2 : tri.f ray ≤ 0 := hf
  rw [Triangle.Intersect_locals, if_pos hf2]

/-- A vector other than zero has a positive `dot v v`. -/
theorem dot_self_pos {v : Vec3 K} (hv : v ≠ 0) : 0 < dot v v := by
  rcases lt_or_eq_of_le (dot_self_nonneg v) with h | h
  · exact h
  · exfalso
    apply hv
    unfold dot at h
    have hx : v.x = 0 := by nlinarith [mul_self_nonneg v.x, mul_self_nonneg v.y, mul_self_nonneg v.z]
    have hy : v.y = 0 := by nlinarith [mul_self_nonneg v.x, mul_self_nonneg v.y, mul_self_nonneg v.z]
    have hz : v.z = 0 := by nlinarith [mul_self_nonneg v.x, mul_self_nonneg v.y, mul_self_nonneg v.z]
    ext
    · exact hx
    · exact hy
    · exact hz

/-- The local `f` for the ray along `-i n` (any scalar `i`). -/
theorem centroid_f (A B C : Vec3 K) (i : K) :
    dot (-(-(i • cross (B - A) (C - A)))) (cross (B - A) (C - A))
      = i * dot (cross (B - A) (C - A)) (cross (B - A) (C - A)) := by
  simp only [dot, cross, Vec3.neg_x, Vec3.neg_y, Vec3.neg_z, Vec3.sub_x, Vec3.sub_y, Vec3.sub_z,
    Vec3.smul_x, Vec3.smul_y, Vec3.smul_z]
  ring

/-- The numerator of `t` for the ray from `G + h i n` along `-i n`. -/
theorem centroid_tNumerator (A B C : Vec3 K) (i h : K) :
    dot (((1 : K) / 3) • (A + B + C) + h • (i • cross (B - A) (C - A)) - A)
        (cross (B - A) (C - A))
      = h * (i * dot (cross (B - A) (C - A)) (cross (B - A) (C - A))) := by
  simp only [dot, cross, Vec3.sub_x, Vec3.sub_y, Vec3.sub_z, Vec3.add_x, Vec3.add_y, Vec3.add_z,
    Vec3.smul_x, Vec3.smul_y, Vec3.smul_z]
  ring

/-- The numerator of `u` for the ray from `G + h i n` along `-i n`. -/
theorem centroid_uNumerator (A B C : Vec3 K) (i h : K) :
    dot (C - A) (cross (-(-(i • cross (B - A) (C - A))))
        (((1 : K) / 3) • (A + B + C) + h • (i • cross (B - A) (C - A)) - A))
      = 1 / 3 * (i * dot (cross (B - A) (C - A)) (cross (B - A) (C - A))) := by
  simp only [dot, cross, Vec3.neg_x, Vec3.neg_y, Vec3.neg_z, Vec3.sub_x, Vec3.sub_y, Vec3.sub_z,
    Vec3.add_x, Vec3.add_y, Vec3.add_z, Vec3.smul_x, Vec3.smul_y, Vec3.smul_z]
  ring

/-- The numerator of `v` for the ray from `G + h i n` along `-i n`. -/
theorem centroid_vNumerator (A B C : Vec3 K) (i h : K) :
    dot (-(B - A)) (cross (-(-(i • cross (B - A) (C - A))))
        (((1 : K) / 3) • (A + B + C) + h • (i • cross (B - A) (C - A)) - A))
      = 1 / 3 * (i * dot (cross (B - A) (C - A)) (cross (B - A) (C - A))) := by
  simp only [dot, cross, Vec3.neg_x, Vec3.neg_y, Vec3.neg_z, Vec3.sub_x, Vec3.sub_y, Vec3.sub_z,
    Vec3.add_x, Vec3.add_y, Vec3.add_z, Vec3.smul_x, Vec3.smul_y, Vec3.smul_z]
  ring

/-- C8: for a non-degenerate triangle with centroid `G` and unit normal
`N = normalize(cross(B - A, C - A))`, and `h > 0`, the ray from `G + h N` along `-N` is a
hit: `Triangle::Intersect` returns `h`, its locals are `u = v = 1/3`, and the output point
is `G` (the output normal is `N`). -/
theorem Triangle.Intersect_centroid (rt : Runtime K) (hsqrt : rt.SqrtExact) (tri : Triangle K)
    (h : K) (p0 n0 : Vec3 K)
    (hnd : cross (tri.B - tri.A) (tri.C - tri.A) ≠ 0) (hh : 0 < h) :
    let N := normalize rt (cross (tri.B - tri.A) (tri.C - tri.A))
    let G := ((1 : K) / 3) • (tri.A + tri.B + tri.C)
    let ray : Ray K := ⟨G + h • N, -N⟩
    tri.Intersect rt ray p0 n0 = ⟨h, G, N⟩ ∧ tri.u ray = 1 / 3 ∧ tri.v ray = 1 / 3 := by
  intro N G ray
  have hnn : 0 < dot (cross (tri.B - tri.A) (tri.C - tri.A)) (cross (tri.B - tri.A) (tri.C - tri.A)) :=
    dot_self_pos hnd
  have hs0 := hsqrt.sqrt_nonneg (le_of_lt hnn)
  have hs2 := hsqrt.mul_self_sqrt (le_of_lt hnn)
  have hspos : 0 < rt.sqrt (dot (cross (tri.B - tri.A) (tri.C - tri.A))
      (cross (tri.B - tri.A) (tri.C - tri.A))) := by
    rcases lt_or_eq_of_le hs0 with h0 | h0
    · exact h0
    · rw [← h0, mul_zero] at hs2
      exact absurd hs2 (ne_of_lt hnn)
  have hF : 0 < 1 / rt.sqrt (dot (cross (tri.B - tri.A) (tri.C - tri.A))
      (cross (tri.B - tri.A) (tri.C - tri.A)))
      * dot (cross (tri.B - tri.A) (tri.C - tri.A)) (cross (tri.B - tri.A) (tri.C - tri.A)) :=
    mul_pos (one_div_pos.mpr hspos) hnn
  have hf : tri.f ray = 1 / rt.sqrt (dot (cross (tri.B - tri.A) (tri.C - tri.A))
      (cross (tri.B - tri.A) (tri.C - tri.A)))
      * dot (cross (tri.B - tri.A) (tri.C - tri.A)) (cross (tri.B - tri.A) (tri.C - tri.A)) :=
    centroid_f tri.A tri.B tri.C _
  have ht : tri.t ray = h := by
    show dot (ray.origin - tri.A) tri.n / tri.f ray = h
    rw [hf]
    show dot (G + h • N - tri.A) (cross (tri.B - tri.A) (tri.C - tri.A)) / _ = h
    rw [show dot (G + h • N - tri.A) (cross (tri.B - tri.A) (tri.C - tri.A)) = _ from
      centroid_tNumerator tri.A tri.B tri.C _ h]
    exact mul_div_cancel_right₀ h (ne_of_gt hF)
  have hu : tri.u ray = 1 / 3 := by
    show dot (tri.C - tri.A) (tri.e ray) / tri.f ray = 1 / 3
    rw [hf, show dot (tri.C - tri.A) (tri.e ray) = _ from
      centroid_uNumerator tri.A tri.B tri.C _ h]
    exact mul_div_cancel_right₀ _ (ne_of_gt hF)
  have hv : tri.v ray = 1 / 3 := by
    show dot (-(tri.B - tri.A)) (tri.e ray) / tri.f ray = 1 / 3
    rw [hf, show dot (-(tri.B - tri.A)) (tri.e ray) = _ from
      centroid_vNumerator tri.A tri.B tri.C _ h]
    exact mul_div_cancel_right₀ _ (ne_of_gt hF)
  refine ⟨?_, hu, hv⟩
  rw [Triangle.Intersect_locals, if_neg (by rw [hf]; exact not_le.mpr hF),
    if_neg (by rw [ht]; exact not_le.mpr hh), hu, hv, ht,
    if_pos (by norm_num)]
  have hG : tri.A + ((1 : K) / 3) • (tri.B - tri.A) + ((1 : K) / 3) • (tri.C - tri.A) = G := by
    ext <;>
    · simp only [G, Vec3.sub_x, Vec3.sub_y, Vec3.sub_z, Vec3.add_x, Vec3.add_y, Vec3.add_z,
        Vec3.smul_x, Vec3.smul_y, Vec3.smul_z]
      ring
  rw [hG]
  rfl

/-- Witness of C6 over the reals: the triangle `(0,0,0), (1,0,0), (0,1,0)` and the ray
from `(1/4, 1/4, 1)` along `(0, 0, -1)`, which is a hit at distance `1`. -/
theorem Triangle.Intersect_point_inside_witness :
    0 < (Triangle.Intersect (⟨Real.sqrt, Real.rpow, 0, 0⟩ : Runtime ℝ)
        ⟨⟨0, 0, 0, 0⟩, ⟨0, 0, 0⟩, ⟨1, 0, 0⟩, ⟨0, 1, 0⟩⟩ ⟨⟨1 / 4, 1 / 4, 1⟩, ⟨0, 0, -1⟩⟩ 0 0).ret ∧
    (Triangle.Intersect (⟨Real.sqrt, Real.rpow, 0, 0⟩ : Runtime ℝ)
        ⟨⟨0, 0, 0, 0⟩, ⟨0, 0, 0⟩, ⟨1, 0, 0⟩, ⟨0, 1, 0⟩⟩
        ⟨⟨1 / 4, 1 / 4, 1⟩, ⟨0, 0, -1⟩⟩ 0 0).outIntersectionPoint
      = (⟨1 / 4, 1 / 4, 1⟩ : Vec3 ℝ) +
        (Triangle.Intersect (⟨Real.sqrt, Real.rpow, 0, 0⟩ : Runtime ℝ)
          ⟨⟨0, 0, 0, 0⟩, ⟨0, 0, 0⟩, ⟨1, 0, 0⟩, ⟨0, 1, 0⟩⟩
          ⟨⟨1 / 4, 1 / 4, 1⟩, ⟨0, 0, -1⟩⟩ 0 0).ret • (⟨0, 0, -1⟩ : Vec3 ℝ) := by
  have hpos : 0 < (Triangle.Intersect (⟨Real.sqrt, Real.rpow, 0, 0⟩ : Runtime ℝ)
      ⟨⟨0, 0, 0, 0⟩, ⟨0, 0, 0⟩, ⟨1, 0, 0⟩, ⟨0, 1, 0⟩⟩
      ⟨⟨1 / 4, 1 / 4, 1⟩, ⟨0, 0, -1⟩⟩ 0 0).ret := by
    simp only [Triangle.Intersect_locals, Triangle.f, Triangle.t, Triangle.u, Triangle.v, Triangle.e,
      Triangle.n, dot, cross, Vec3.neg_x, Vec3.neg_y, Vec3.neg_z, Vec3.sub_x, Vec3.sub_y,
      Vec3.sub_z]
    norm_num
  exact ⟨hpos, (Triangle.Intersect_point_inside _ _ _ 0 0 hpos).1⟩

/-- Witness of C7 over the reals: the triangle `(0,0,0), (1,0,0), (0,1,0)` and the ray
from `(1/4, 1/4, -1)` along `(0, 0, 1)`, whose line crosses the triangle from behind. -/
theorem Triangle.Intersect_backface_witness :
    dot (-(⟨0, 0, 1⟩ : Vec3 ℝ)) (cross ((⟨1, 0, 0⟩ : Vec3 ℝ) - ⟨0, 0, 0⟩) (⟨0, 1, 0⟩ - ⟨0, 0, 0⟩)) ≤ 0 ∧
    Triangle.Intersect (⟨Real.sqrt, Real.rpow, 0, 0⟩ : Runtime ℝ)
        ⟨⟨0, 0, 0, 0⟩, ⟨0, 0, 0⟩, ⟨1, 0, 0⟩, ⟨0, 1, 0⟩⟩ ⟨⟨1 / 4, 1 / 4, -1⟩, ⟨0, 0, 1⟩⟩ 0 0
      = ⟨-1, 0, 0⟩ := by
  have hf : dot (-(⟨0, 0, 1⟩ : Vec3 ℝ))
      (cross ((⟨1, 0, 0⟩ : Vec3 ℝ) - ⟨0, 0, 0⟩) (⟨0, 1, 0⟩ - ⟨0, 0, 0⟩)) ≤ 0 := by
    simp only [dot, cross, Vec3.neg_x, Vec3.neg_y, Vec3.neg_z, Vec3.sub_x, Vec3.sub_y, Vec3.sub_z]
    norm_num
  exact ⟨hf, Triangle.Intersect_backface _ ⟨⟨0, 0, 0, 0⟩, ⟨0, 0, 0⟩, ⟨1, 0, 0⟩, ⟨0, 1, 0⟩⟩
    ⟨⟨1 / 4, 1 / 4, -1⟩, ⟨0, 0, 1⟩⟩ 0 0 hf⟩

/-- Witness of C8 over the reals: the triangle `(0,0,0), (1,0,0), (0,1,0)` and `h = 1`. -/
theorem Triangle.Intersect_centroid_witness :
    cross ((⟨1, 0, 0⟩ : Vec3 ℝ) - ⟨0, 0, 0⟩) (⟨0, 1, 0⟩ - ⟨0, 0, 0⟩) ≠ 0 ∧ (0 : ℝ) < 1 ∧
    (Triangle.Intersect (⟨Real.sqrt, Real.rpow, 0, 0⟩ : Runtime ℝ)
        ⟨⟨0, 0, 0, 0⟩, ⟨0, 0, 0⟩, ⟨1, 0, 0⟩, ⟨0, 1, 0⟩⟩
        ⟨((1 : ℝ) / 3) • ((⟨0, 0, 0⟩ : Vec3 ℝ) + ⟨1, 0, 0⟩ + ⟨0, 1, 0⟩)
            + (1 : ℝ) • normalize ⟨Real.sqrt, Real.rpow, 0, 0⟩
                (cross ((⟨1, 0, 0⟩ : Vec3 ℝ) - ⟨0, 0, 0⟩) (⟨0, 1, 0⟩ - ⟨0, 0, 0⟩)),
          -normalize ⟨Real.sqrt, Real.rpow, 0, 0⟩
                (cross ((⟨1, 0, 0⟩ : Vec3 ℝ) - ⟨0, 0, 0⟩) (⟨0, 1, 0⟩ - ⟨0, 0, 0⟩))⟩ 0 0).ret
      = 1 := by
  have hnd : cross ((⟨1, 0, 0⟩ : Vec3 ℝ) - ⟨0, 0, 0⟩) (⟨0, 1, 0⟩ - ⟨0, 0, 0⟩) ≠ 0 := by
    intro h0
    have hz := congrArg Vec3.z h0
    simp [cross] at hz
  exact ⟨hnd, one_pos, congrArg IntersectResult.ret
    (Triangle.Intersect_centroid ⟨Real.sqrt, Real.rpow, 0, 0⟩ (real_sqrtExact _ _ _)
      ⟨⟨0, 0, 0, 0⟩, ⟨0, 0, 0⟩, ⟨1, 0, 0⟩, ⟨0, 1, 0⟩⟩ 1 0 0 hnd one_pos).1⟩

end TriangleTheorems

/-! ## Shading -/

section RayTraceTheorems

variable {K : Type} [LinearOrderedField K]

/-- C10: if `Raycast` of the primary ray hits no object, `RayTrace` returns the black
colour `(0, 0, 0)`, whatever the lights, the camera and `maxDepth`. -/
theorem RayTrace_miss_black (rt : Runtime K) (ray : Ray K) (scene : Scene K) (camera : Camera K)
    (maxDepth : Int) (hmiss : (Raycast rt ray scene).obj = none) :
    RayTrace rt ray scene camera maxDepth = ⟨0, 0, 0⟩ := by
  rw [RayTrace]
  simp only [hmiss]
  rfl

/-- Witness of C10 over the reals: the unit sphere at the origin, one point light, and
the ray from `(0, 0, 3)` along `(0, 1, 0)`, which passes beside the sphere. -/
theorem RayTrace_miss_black_witness :
    (Raycast (⟨Real.sqrt, Real.rpow, 0, 0⟩ : Runtime ℝ) ⟨⟨0, 0, 3⟩, ⟨0, 1, 0⟩⟩
        ⟨[.sphere ⟨⟨⟨1, 1, 1⟩, ⟨1, 1, 1⟩, ⟨1, 1, 1⟩, 8⟩, ⟨0, 0, 0⟩, 1⟩],
         [⟨⟨0, 5, 0, 1⟩, ⟨1, 1, 1⟩, ⟨1, 1, 1⟩, ⟨1, 1, 1⟩, 1, 0, 0⟩]⟩).obj = none ∧
    RayTrace (⟨Real.sqrt, Real.rpow, 0, 0⟩ : Runtime ℝ) ⟨⟨0, 0, 3⟩, ⟨0, 1, 0⟩⟩
        ⟨[.sphere ⟨⟨⟨1, 1, 1⟩, ⟨1, 1, 1⟩, ⟨1, 1, 1⟩, 8⟩, ⟨0, 0, 0⟩, 1⟩],
         [⟨⟨0, 5, 0, 1⟩, ⟨1, 1, 1⟩, ⟨1, 1, 1⟩, ⟨1, 1, 1⟩, 1, 0, 0⟩]⟩
        ⟨⟨0, 0, 3⟩, ⟨0, 0, 0⟩, ⟨0, 1, 0⟩, 60, 1, 4, 4⟩ 3 = ⟨0, 0, 0⟩ := by
  have hmiss : (Raycast (⟨Real.sqrt, Real.rpow, 0, 0⟩ : Runtime ℝ) ⟨⟨0, 0, 3⟩, ⟨0, 1, 0⟩⟩
        ⟨[.sphere ⟨⟨⟨1, 1, 1⟩, ⟨1, 1, 1⟩, ⟨1, 1, 1⟩, 8⟩, ⟨0, 0, 0⟩, 1⟩],
         [⟨⟨0, 5, 0, 1⟩, ⟨1, 1, 1⟩, ⟨1, 1, 1⟩, ⟨1, 1, 1⟩, 1, 0, 0⟩]⟩).obj = none := by
    apply Raycast.obj_none_of_no_hit
    intro o ho
    rw [List.mem_singleton.mp ho]
    simp only [SceneObject.Intersect, Sphere.Intersect_unfold, Sphere.b, Sphere.c, dot, Vec3.sub_x,
      Vec3.sub_y, Vec3.sub_z]
    norm_num
  exact ⟨hmiss, RayTrace_miss_black _ _ _ _ 3 hmiss⟩

end RayTraceTheorems

/-! ## Shading: the loop over the lights -/

section ShadingTheorems

variable {K : Type} [LinearOrderedField K]

/-- A loop in `Option` whose body never fails is the plain loop. -/
theorem foldl_bind_some {α β γ : Type} (f : α → β → α) (g : α → β → Option α) (p : α → γ)
    (h : ∀ a b, g a b = some (f a b)) (l : List β) (a : α) :
    (l.foldl (fun acc b => acc.bind fun x => g x b) (some a)).map p
      = some (p (l.foldl f a)) := by
  induction l generalizing a with
  | nil => rfl
  | cons b rest ih =>
    simp only [List.foldl_cons, Option.some_bind]
    rw [h]
    exact ih (f a b)

/-- On a hit, `RayTrace` is the loop over the lights in which every recursive call
returns the value of `RayTrace`. -/
theorem RayTrace_eq_lightLoop (rt : Runtime K) (ray : Ray K) (scene : Scene K)
    (camera : Camera K) (maxDepth : Int) (obj : SceneObject K)
    (hhit : (Raycast rt ray scene).obj = some obj) :
    (RayTrace.lightLoop rt scene camera maxDepth (Raycast rt ray scene)
          (fun r d => some (RayTrace rt r scene camera d)) scene.lights
          (⟨0, 0, 0, 0, 0, 0⟩ : ShadeState K)).map (fun final => final.colorCombinedTemp)
      = some (RayTrace rt ray scene camera maxDepth) := by
  rw [RayTrace]
  simp only [hhit]
  unfold RayTrace.lightLoop
  apply foldl_bind_some _ _ ShadeState.colorCombinedTemp
  intro st light
  unfold RayTrace.body
  simp only [hhit]
  by_cases hs : RayTrace.isShadow rt scene (Raycast rt ray scene) light = true
  · simp only [hs, if_true, Option.map_some']
  · by_cases hd : maxDepth > 0
    · simp [hs, hd]
    · simp [hs, hd]

/-- On a miss, `RayTrace` is the zero vector. -/
theorem RayTrace_of_miss (rt : Runtime K) (ray : Ray K) (scene : Scene K) (camera : Camera K)
    (maxDepth : Int) (hmiss : (Raycast rt ray scene).obj = none) :
    RayTrace rt ray scene camera maxDepth = 0 := by
  rw [RayTrace]
  simp only [hmiss]

/-- Once the loop over the lights has failed it stays failed. -/
theorem foldl_bind_none {α β : Type} (g : α → β → Option α) (l : List β) :
    l.foldl (fun acc b => acc.bind fun x => g x b) none = none := by
  induction l with
  | nil => rfl
  | cons b rest ih => simpa only [List.foldl_cons, Option.none_bind] using ih

/-- The loop over the lights, one light at a time. -/
theorem RayTrace.lightLoop_cons (rt : Runtime K) (scene : Scene K) (camera : Camera K)
    (maxDepth : Int) (didRayHit : IntersectionInfo K) (recur : Ray K → Int → Option (Vec3 K))
    (light : Light K) (rest : List (Light K)) (st : ShadeState K) :
    RayTrace.lightLoop rt scene camera maxDepth didRayHit recur (light :: rest) st
      = (RayTrace.body rt scene camera maxDepth didRayHit recur st light).bind
          (RayTrace.lightLoop rt scene camera maxDepth didRayHit recur rest) := by
  unfold RayTrace.lightLoop
  simp only [List.foldl_cons, Option.some_bind]
  cases RayTrace.body rt scene camera maxDepth didRayHit recur st light with
  | none => simp only [Option.none_bind]; exact foldl_bind_none _ _
  | some st1 => rfl

/-- The Phong block does not touch `colorCombinedTemp`. -/
theorem RayTrace.phong_colorCombinedTemp (rt : Runtime K) (camera : Camera K)
    (didRayHit : IntersectionInfo K) (material : Material K) (light : Light K)
    (st : ShadeState K) :
    (RayTrace.phong rt camera didRayHit material light st).colorCombinedTemp
      = st.colorCombinedTemp := by
  unfold RayTrace.phong
  simp only
  split_ifs <;> rfl

/-- What the Phong block leaves in `ambient`, `diffuse`, `specular` depends on the state
only through these three locals. -/
theorem RayTrace.phong_congr (rt : Runtime K) (camera : Camera K)
    (didRayHit : IntersectionInfo K) (material : Material K) (light : Light K)
    (st1 st2 : ShadeState K) (ha : st1.ambient = st2.ambient) (hd : st1.diffuse = st2.diffuse)
    (hs : st1.specular = st2.specular) :
    (RayTrace.phong rt camera didRayHit material light st1).ambient
        = (RayTrace.phong rt camera didRayHit material light st2).ambient ∧
      (RayTrace.phong rt camera didRayHit material light st1).diffuse
        = (RayTrace.phong rt camera didRayHit material light st2).diffuse ∧
      (RayTrace.phong rt camera didRayHit material light st1).specular
        = (RayTrace.phong rt camera didRayHit material light st2).specular := by
  unfold RayTrace.phong
  simp only
  split_ifs
  · exact ⟨rfl, rfl, rfl⟩
  · exact ⟨rfl, rfl, rfl⟩
  · exact ⟨ha, hd, hs⟩

/-- The loop body at a light that is shadowed: no recursive call, whatever `recur` is. -/
theorem RayTrace.body_shadowed (rt : Runtime K) (scene : Scene K) (camera : Camera K)
    (maxDepth : Int) (didRayHit : IntersectionInfo K) (recur : Ray K → Int → Option (Vec3 K))
    (st : ShadeState K) (light : Light K) (obj : SceneObject K)
    (hobj : didRayHit.obj = some obj)
    (hs : RayTrace.isShadow rt scene didRayHit light = true) :
    RayTrace.body rt scene camera maxDepth didRayHit recur st light
      = some { RayTrace.phong rt camera didRayHit obj.material light st with
          colorTemp := (RayTrace.phong rt camera didRayHit obj.material light st).ambient
            + (1 - (1 : K)) • ((RayTrace.phong rt camera didRayHit obj.material light st).diffuse
              + (RayTrace.phong rt camera didRayHit obj.material light st).specular)
          colorCombinedTemp := st.colorCombinedTemp
            + ((RayTrace.phong rt camera didRayHit obj.material light st).ambient
              + (1 - (1 : K)) • ((RayTrace.phong rt camera didRayHit obj.material light st).diffuse
                + (RayTrace.phong rt camera didRayHit obj.material light st).specular)) } := by
  unfold RayTrace.body
  simp only [hobj, hs, if_true, Option.map_some', RayTrace.phong_colorCombinedTemp]

/-- The loop body at a light that is not shadowed when `maxDepth ≤ 0`: no recursive call. -/
theorem RayTrace.body_lit_leaf (rt : Runtime K) (scene : Scene K) (camera : Camera K)
    (maxDepth : Int) (didRayHit : IntersectionInfo K) (recur : Ray K → Int → Option (Vec3 K))
    (st : ShadeState K) (light : Light K) (obj : SceneObject K)
    (hobj : didRayHit.obj = some obj)
    (hs : RayTrace.isShadow rt scene didRayHit light = false) (hd : ¬ maxDepth > 0) :
    RayTrace.body rt scene camera maxDepth didRayHit recur st light
      = some { RayTrace.phong rt camera didRayHit obj.material light st with
          colorTemp := (RayTrace.phong rt camera didRayHit obj.material light st).ambient
            + (1 - (0 : K)) • ((RayTrace.phong rt camera didRayHit obj.material light st).diffuse
              + (RayTrace.phong rt camera didRayHit obj.material light st).specular)
          colorCombinedTemp := st.colorCombinedTemp
            + ((RayTrace.phong rt camera didRayHit obj.material light st).ambient
              + (1 - (0 : K)) • ((RayTrace.phong rt camera didRayHit obj.material light st).diffuse
                + (RayTrace.phong rt camera didRayHit obj.material light st).specular)) } := by
  unfold RayTrace.body
  simp [hobj, hs, hd, RayTrace.phong_colorCombinedTemp]

/-- The loop body at a light that is not shadowed when `maxDepth > 0`: one recursive call,
on the reflected ray with `maxDepth - 1`, weighted by `shininess / 128`. -/
theorem RayTrace.body_lit_recur (rt : Runtime K) (scene : Scene K) (camera : Camera K)
    (maxDepth : Int) (didRayHit : IntersectionInfo K) (recur : Ray K → Int → Option (Vec3 K))
    (st : ShadeState K) (light : Light K) (obj : SceneObject K)
    (hobj : didRayHit.obj = some obj)
    (hs : RayTrace.isShadow rt scene didRayHit light = false) (hd : maxDepth > 0) :
    RayTrace.body rt scene camera maxDepth didRayHit recur st light
      = (recur (RayTrace.reflection didRayHit) (maxDepth - 1)).map fun c =>
        { RayTrace.phong rt camera didRayHit obj.material light st with
          colorTemp := (RayTrace.phong rt camera didRayHit obj.material light st).ambient
            + (1 - (0 : K)) • ((RayTrace.phong rt camera didRayHit obj.material light st).diffuse
              + (RayTrace.phong rt camera didRayHit obj.material light st).specular)
          colorCombinedTemp := st.colorCombinedTemp + (obj.material.shininess / 128) • c
            + ((RayTrace.phong rt camera didRayHit obj.material light st).ambient
              + (1 - (0 : K)) • ((RayTrace.phong rt camera didRayHit obj.material light st).diffuse
                + (RayTrace.phong rt camera didRayHit obj.material light st).specular)) } := by
  unfold RayTrace.body
  simp only [hobj, hs, hd, if_true, Bool.false_eq_true, if_false,
    RayTrace.phong_colorCombinedTemp]
  cases recur (RayTrace.reflection didRayHit) (maxDepth - 1) <;> rfl

/-- The number of unshadowed lights, one light at a time. -/
theorem RayTrace.unshadowed_cons (rt : Runtime K) (scene : Scene K)
    (didRayHit : IntersectionInfo K) (light : Light K) (rest : List (Light K)) :
    RayTrace.unshadowed rt scene didRayHit (light :: rest)
      = (if RayTrace.isShadow rt scene didRayHit light then 0 else 1)
        + RayTrace.unshadowed rt scene didRayHit rest := by
  unfold RayTrace.unshadowed
  cases h : RayTrace.isShadow rt scene didRayHit light
  · simp [List.filter_cons, h, Nat.add_comm]
  · simp [List.filter_cons, h]

/-- One pass through the loop body, when the recursive call (if it is made) returns `c`:
the three Phong locals are those of the Phong block, and `colorCombinedTemp` grows by the
weighted `c` (only for an unshadowed light and `maxDepth > 0`) and by the local term. -/
theorem RayTrace.body_spec (rt : Runtime K) (scene : Scene K) (camera : Camera K)
    (maxDepth : Int) (didRayHit : IntersectionInfo K) (recur : Ray K → Int → Option (Vec3 K))
    (obj : SceneObject K) (hobj : didRayHit.obj = some obj) (c : Vec3 K)
    (hrec : maxDepth > 0 → recur (RayTrace.reflection didRayHit) (maxDepth - 1) = some c)
    (st : ShadeState K) (light : Light K) :
    ∃ st1, RayTrace.body rt scene camera maxDepth didRayHit recur st light = some st1 ∧
      st1.ambient = (RayTrace.phong rt camera didRayHit obj.material light st).ambient ∧
      st1.diffuse = (RayTrace.phong rt camera didRayHit obj.material light st).diffuse ∧
      st1.specular = (RayTrace.phong rt camera didRayHit obj.material light st).specular ∧
      st1.colorCombinedTemp = st.colorCombinedTemp
        + ((if RayTrace.isShadow rt scene didRayHit light then 0
            else if maxDepth > 0 then (obj.material.shininess / 128) • c else 0)
          + ((RayTrace.phong rt camera didRayHit obj.material light st).ambient
            + (1 - RayTrace.shadowVal rt scene didRayHit light)
              • ((RayTrace.phong rt camera didRayHit obj.material light st).diffuse
                + (RayTrace.phong rt camera didRayHit obj.material light st).specular))) := by
  cases hsh : RayTrace.isShadow rt scene didRayHit light
  · by_cases hdep : maxDepth > 0
    · rw [RayTrace.body_lit_recur rt scene camera maxDepth didRayHit recur st light obj hobj
        hsh hdep, hrec hdep]
      refine ⟨_, rfl, rfl, rfl, rfl, ?_⟩
      simp only [RayTrace.shadowVal, hsh, if_pos hdep]
      ext <;> simp <;> ring
    · rw [RayTrace.body_lit_leaf rt scene camera maxDepth didRayHit recur st light obj hobj
        hsh hdep]
      refine ⟨_, rfl, rfl, rfl, rfl, ?_⟩
      simp only [RayTrace.shadowVal, hsh, if_neg hdep]
      ext <;> simp
  · rw [RayTrace.body_shadowed rt scene camera maxDepth didRayHit recur st light obj hobj hsh]
    refine ⟨_, rfl, rfl, rfl, rfl, ?_⟩
    simp only [RayTrace.shadowVal, hsh]
    ext <;> simp

/-- The loop over the lights adds to `colorCombinedTemp` the sum of the local terms and,
once per unshadowed light, the weighted result `c` of the recursive call (nothing when
`maxDepth ≤ 0`). -/
theorem RayTrace.lightLoop_sum (rt : Runtime K) (scene : Scene K) (camera : Camera K)
    (maxDepth : Int) (didRayHit : IntersectionInfo K) (recur : Ray K → Int → Option (Vec3 K))
    (obj : SceneObject K) (hobj : didRayHit.obj = some obj) (c : Vec3 K)
    (hrec : maxDepth > 0 → recur (RayTrace.reflection didRayHit) (maxDepth - 1) = some c)
    (lights : List (Light K)) (st st0 : ShadeState K)
    (ha : st.ambient = st0.ambient) (hd : st.diffuse = st0.diffuse)
    (hs : st.specular = st0.specular) :
    ∃ fin, RayTrace.lightLoop rt scene camera maxDepth didRayHit recur lights st = some fin ∧
      fin.colorCombinedTemp = st.colorCombinedTemp
        + (RayTrace.localSum rt scene camera didRayHit obj.material lights st0
          + (RayTrace.unshadowed rt scene didRayHit lights : K)
            • (if maxDepth > 0 then (obj.material.shininess / 128) • c else 0)) := by
  induction lights generalizing st st0 with
  | nil =>
    refine ⟨st, rfl, ?_⟩
    ext <;> simp [RayTrace.localSum, RayTrace.unshadowed] <;> split_ifs <;> simp
  | cons light rest ih =>
    obtain ⟨pa, pd, ps⟩ := RayTrace.phong_congr rt camera didRayHit obj.material light st st0
      ha hd hs
    obtain ⟨st1, hb, a1, d1, s1, cc1⟩ := RayTrace.body_spec rt scene camera maxDepth didRayHit
      recur obj hobj c hrec st light
    obtain ⟨fin, hfin, hcc⟩ := ih st1 (RayTrace.phong rt camera didRayHit obj.material light st0)
      (a1.trans pa) (d1.trans pd) (s1.trans ps)
    rw [RayTrace.lightLoop_cons, hb, Option.some_bind, RayTrace.unshadowed_cons]
    refine ⟨fin, hfin, ?_⟩
    rw [hcc, cc1, pa, pd, ps]
    simp only [RayTrace.localSum]
    cases hsh : RayTrace.isShadow rt scene didRayHit light
    · by_cases hdep : maxDepth > 0
      · simp only [if_pos hdep, Bool.false_eq_true, if_false]
        ext <;> simp <;> ring
      · simp only [if_neg hdep, Bool.false_eq_true, if_false]
        ext <;> simp <;> ring
    · simp only [if_true]
      ext <;> simp <;> ring

/-- On a hit, the result of the loop over the lights, for any `recur` that returns `c`
on the reflected ray whenever `maxDepth > 0`. -/
theorem RayTrace.lightLoop_result (rt : Runtime K) (scene : Scene K) (camera : Camera K)
    (maxDepth : Int) (didRayHit : IntersectionInfo K) (recur : Ray K → Int → Option (Vec3 K))
    (obj : SceneObject K) (hobj : didRayHit.obj = some obj) (c : Vec3 K)
    (hrec : maxDepth > 0 → recur (RayTrace.reflection didRayHit) (maxDepth - 1) = some c) :
    (RayTrace.lightLoop rt scene camera maxDepth didRayHit recur scene.lights
        (⟨0, 0, 0, 0, 0, 0⟩ : ShadeState K)).map (fun final => final.colorCombinedTemp)
      = some (RayTrace.localSum rt scene camera didRayHit obj.material scene.lights
            ⟨0, 0, 0, 0, 0, 0⟩
          + (RayTrace.unshadowed rt scene didRayHit scene.lights : K)
            • (if maxDepth > 0 then (obj.material.shininess / 128) • c else 0)) := by
  obtain ⟨fin, hfin, hcc⟩ := RayTrace.lightLoop_sum rt scene camera maxDepth didRayHit recur obj
    hobj c hrec scene.lights ⟨0, 0, 0, 0, 0, 0⟩ ⟨0, 0, 0, 0, 0, 0⟩ rfl rfl rfl
  rw [hfin, Option.map_some', hcc]
  congr 1
  ext <;> simp

/-- On a hit, `RayTrace` is the sum of the local terms of the lights plus, when
`maxDepth > 0`, once per unshadowed light the recursive result weighted by
`shininess / 128`. -/
theorem RayTrace_of_hit (rt : Runtime K) (ray : Ray K) (scene : Scene K) (camera : Camera K)
    (maxDepth : Int) (obj : SceneObject K) (hhit : (Raycast rt ray scene).obj = some obj) :
    RayTrace rt ray scene camera maxDepth
      = RayTrace.localSum rt scene camera (Raycast rt ray scene) obj.material scene.lights
            ⟨0, 0, 0, 0, 0, 0⟩
          + (RayTrace.unshadowed rt scene (Raycast rt ray scene) scene.lights : K)
            • (if maxDepth > 0 then (obj.material.shininess / 128)
                • RayTrace rt (RayTrace.reflection (Raycast rt ray scene)) scene camera
                    (maxDepth - 1)
              else 0) := by
  have h1 := RayTrace_eq_lightLoop rt ray scene camera maxDepth obj hhit
  have h2 := RayTrace.lightLoop_result rt scene camera maxDepth (Raycast rt ray scene)
    (fun r d => some (RayTrace rt r scene camera d)) obj hhit
    (RayTrace rt (RayTrace.reflection (Raycast rt ray scene)) scene camera (maxDepth - 1))
    (fun _ => rfl)
  rw [h1] at h2
  exact Option.some.inj h2

/-- With more activations than `max(maxDepth, 0)`, the bounded run of `RayTrace` returns,
and returns the value of `RayTrace`. -/
theorem RayTraceFuel_eq (rt : Runtime K) (scene : Scene K) (camera : Camera K) (fuel : Nat) :
    ∀ (ray : Ray K) (maxDepth : Int), maxDepth.toNat < fuel →
      RayTraceFuel rt fuel ray scene camera maxDepth
        = some (RayTrace rt ray scene camera maxDepth) := by
  induction fuel with
  | zero => intro ray maxDepth h; exact absurd h (Nat.not_lt_zero _)
  | succ n ih =>
    intro ray maxDepth h
    unfold RayTraceFuel
    simp only
    cases hobj : (Raycast rt ray scene).obj with
    | none => simp only [RayTrace_of_miss rt ray scene camera maxDepth hobj]
    | some obj =>
      simp only
      rw [RayTrace.lightLoop_result rt scene camera maxDepth (Raycast rt ray scene)
        (fun r d => RayTraceFuel rt n r scene camera d) obj hobj
        (RayTrace rt (RayTrace.reflection (Raycast rt ray scene)) scene camera (maxDepth - 1))
        (fun hd => ih _ _ (by omega)),
        RayTrace_of_hit rt ray scene camera maxDepth obj hobj]

/-- The loop body uses `recur` only at the reflected ray with `maxDepth - 1`, and only
when `maxDepth > 0`. -/
theorem RayTrace.body_congr (rt : Runtime K) (scene : Scene K) (camera : Camera K)
    (maxDepth : Int) (didRayHit : IntersectionInfo K)
    (recur1 recur2 : Ray K → Int → Option (Vec3 K))
    (h : maxDepth > 0 → recur1 (RayTrace.reflection didRayHit) (maxDepth - 1)
      = recur2 (RayTrace.reflection didRayHit) (maxDepth - 1))
    (st : ShadeState K) (light : Light K) :
    RayTrace.body rt scene camera maxDepth didRayHit recur1 st light
      = RayTrace.body rt scene camera maxDepth didRayHit recur2 st light := by
  unfold RayTrace.body
  cases didRayHit.obj with
  | none => rfl
  | some obj =>
    simp only
    by_cases hd : maxDepth > 0
    · rw [h hd]
    · simp only [if_neg hd]

/-- C11: called with `maxDepth ≤ 0`, `RayTrace` makes no recursive call, whether or not a
light is shadowed: a single activation is enough for the run to return, the loop over the
lights gives the same result for every `recur` (even one that never returns), and on a hit
the result is the sum over the lights of `ambient_i + (1 - shadow_i) * (diffuse_i +
specular_i)`, without reflection term. -/
theorem RayTrace_leaf (rt : Runtime K) (ray : Ray K) (scene : Scene K) (camera : Camera K)
    (maxDepth : Int) (hd : maxDepth ≤ 0) :
    RayTraceFuel rt 1 ray scene camera maxDepth
        = some (RayTrace rt ray scene camera maxDepth) ∧
      ∀ obj, (Raycast rt ray scene).obj = some obj →
        RayTrace rt ray scene camera maxDepth
            = RayTrace.localSum rt scene camera (Raycast rt ray scene) obj.material scene.lights
                ⟨0, 0, 0, 0, 0, 0⟩ ∧
          ∀ recur : Ray K → Int → Option (Vec3 K),
            (RayTrace.lightLoop rt scene camera maxDepth (Raycast rt ray scene) recur scene.lights
              (⟨0, 0, 0, 0, 0, 0⟩ : ShadeState K)).map (fun final => final.colorCombinedTemp)
            = some (RayTrace rt ray scene camera maxDepth) := by
  have hnot : ¬ maxDepth > 0 := not_lt.mpr hd
  refine ⟨RayTraceFuel_eq rt scene camera 1 ray maxDepth (by omega), ?_⟩
  intro obj hobj
  have hsum : RayTrace rt ray scene camera maxDepth
      = RayTrace.localSum rt scene camera (Raycast rt ray scene) obj.material scene.lights
          ⟨0, 0, 0, 0, 0, 0⟩ := by
    rw [RayTrace_of_hit rt ray scene camera maxDepth obj hobj, if_neg hnot]
    ext <;> simp
  refine ⟨hsum, ?_⟩
  intro recur
  rw [RayTrace.lightLoop_result rt scene camera maxDepth (Raycast rt ray scene) recur obj hobj 0
    (fun h => absurd h hnot), hsum, if_neg hnot]
  congr 1
  ext <;> simp

/-- Witness of C11 over the reals: `maxDepth = 0` on the unit sphere at the origin with
one point light, seen from `(0, 0, 3)`. -/
theorem RayTrace_leaf_witness :
    (0 : Int) ≤ 0 ∧
    RayTraceFuel (⟨Real.sqrt, Real.rpow, 0, 0⟩ : Runtime ℝ) 1 ⟨⟨0, 0, 3⟩, ⟨0, 0, -1⟩⟩
        ⟨[.sphere ⟨⟨⟨1, 1, 1⟩, ⟨1, 1, 1⟩, ⟨1, 1, 1⟩, 8⟩, ⟨0, 0, 0⟩, 1⟩],
         [⟨⟨0, 5, 0, 1⟩, ⟨1, 1, 1⟩, ⟨1, 1, 1⟩, ⟨1, 1, 1⟩, 1, 0, 0⟩]⟩
        ⟨⟨0, 0, 3⟩, ⟨0, 0, 0⟩, ⟨0, 1, 0⟩, 60, 1, 4, 4⟩ 0
      = some (RayTrace (⟨Real.sqrt, Real.rpow, 0, 0⟩ : Runtime ℝ) ⟨⟨0, 0, 3⟩, ⟨0, 0, -1⟩⟩
        ⟨[.sphere ⟨⟨⟨1, 1, 1⟩, ⟨1, 1, 1⟩, ⟨1, 1, 1⟩, 8⟩, ⟨0, 0, 0⟩, 1⟩],
         [⟨⟨0, 5, 0, 1⟩, ⟨1, 1, 1⟩, ⟨1, 1, 1⟩, ⟨1, 1, 1⟩, 1, 0, 0⟩]⟩
        ⟨⟨0, 0, 3⟩, ⟨0, 0, 0⟩, ⟨0, 1, 0⟩, 60, 1, 4, 4⟩ 0) :=
  ⟨le_refl 0, (RayTrace_leaf _ _ _ _ 0 (le_refl 0)).1⟩

/-- C12: `RayTrace` terminates for every ray, scene, camera and integer `maxDepth`, with a
recursion depth of at most `max(maxDepth, 0)`: the run bounded to `max(maxDepth, 0) + 1`
nested activations (or more) returns the value of `RayTrace`.  The loop body makes its
recursive call with `maxDepth - 1` and only when `maxDepth > 0`: it depends on `recur`
through nothing else. -/
theorem RayTrace_terminates (rt : Runtime K) (ray : Ray K) (scene : Scene K) (camera : Camera K)
    (maxDepth : Int) (extra : Nat) :
    RayTraceFuel rt ((max maxDepth 0).toNat + 1 + extra) ray scene camera maxDepth
        = some (RayTrace rt ray scene camera maxDepth) ∧
      ∀ (didRayHit : IntersectionInfo K) (recur1 recur2 : Ray K → Int → Option (Vec3 K))
        (st : ShadeState K) (light : Light K),
        (maxDepth > 0 → recur1 (RayTrace.reflection didRayHit) (maxDepth - 1)
          = recur2 (RayTrace.reflection didRayHit) (maxDepth - 1)) →
        RayTrace.body rt scene camera maxDepth didRayHit recur1 st light
          = RayTrace.body rt scene camera maxDepth didRayHit recur2 st light := by
  refine ⟨RayTraceFuel_eq rt scene camera _ ray maxDepth ?_, ?_⟩
  · have : (max maxDepth 0).toNat = maxDepth.toNat := by
      rcases le_total maxDepth 0 with h | h
      · rw [max_eq_right h]; simp [Int.toNat_eq_zero.mpr h]
      · rw [max_eq_left h]
    omega
  · intro didRayHit recur1 recur2 st light h
    exact RayTrace.body_congr rt scene camera maxDepth didRayHit recur1 recur2 h st light

/-- For a light with `w = 0` or `w = 1` the shadow ray does not depend on what the local
`shadow` held before. -/
theorem RayTrace.shadowRay_of_kind (rt : Runtime K) (didRayHit : IntersectionInfo K)
    (light : Light K) (hw : light.position.w = 0 ∨ light.position.w = 1) (shadow : Ray K) :
    RayTrace.shadowRay rt didRayHit light shadow
      = ⟨didRayHit.intersectionPoint + ((1 : K) / 100) • didRayHit.intersectionNormal,
         if light.position.w = 0 then normalize rt (-light.position.xyz)
         else normalize rt (light.position.xyz
           - (didRayHit.intersectionPoint + ((1 : K) / 100) • didRayHit.intersectionNormal))⟩ := by
  unfold RayTrace.shadowRay
  simp only
  rcases hw with h | h
  · simp only [h, if_true]
  · have h0 : ¬ light.position.w = 0 := by rw [h]; exact one_ne_zero
    simp only [if_neg h0, if_pos h]

/-- The loop that sets `isShadow`, for a shadow ray that is the same in every iteration. -/
theorem RayTrace.isShadow_foldl (rt : Runtime K) (didRayHit : IntersectionInfo K)
    (light : Light K) (sr : Ray K)
    (hsr : ∀ shadow, RayTrace.shadowRay rt didRayHit light shadow = sr)
    (objs : List (SceneObject K)) (acc : Ray K × Bool) :
    (objs.foldl
      (fun (acc : Ray K × Bool) obj =>
        let shadow := RayTrace.shadowRay rt didRayHit light acc.1
        let rayDist := (obj.Intersect rt shadow 0 0).ret
        if rayDist < 1 ∧ rayDist > 0 then (shadow, true) else (shadow, acc.2))
      acc).2 = true ↔
      acc.2 = true ∨ ∃ o ∈ objs, 0 < (o.Intersect rt sr 0 0).ret ∧ (o.Intersect rt sr 0 0).ret < 1 := by
  induction objs generalizing acc with
  | nil => simp
  | cons o rest ih =>
    rw [List.foldl_cons, ih]
    simp only [hsr]
    by_cases hc : (o.Intersect rt sr 0 0).ret < 1 ∧ (o.Intersect rt sr 0 0).ret > 0
    · simp only [if_pos hc, true_or, true_iff]
      right
      exact ⟨o, List.mem_cons_self o rest, hc.2, hc.1⟩
    · simp only [if_neg hc]
      constructor
      · rintro (h | ⟨o2, ho2, hp⟩)
        · left; exact h
        · right; exact ⟨o2, List.mem_cons_of_mem o ho2, hp⟩
      · rintro (h | ⟨o2, ho2, hp⟩)
        · left; exact h
        · rcases List.mem_cons.mp ho2 with rfl | ho3
          · exact absurd ⟨hp.2, hp.1⟩ hc
          · right; exact ⟨o2, ho3, hp⟩

/-- A light with `w = 0` or `w = 1` is shadowed exactly when some object is met by its
shadow ray at a distance strictly between 0 and 1. -/
theorem RayTrace.isShadow_iff (rt : Runtime K) (scene : Scene K)
    (didRayHit : IntersectionInfo K) (light : Light K)
    (hw : light.position.w = 0 ∨ light.position.w = 1) :
    RayTrace.isShadow rt scene didRayHit light = true ↔
      ∃ o ∈ scene.objects,
        0 < (o.Intersect rt
          ⟨didRayHit.intersectionPoint + ((1 : K) / 100) • didRayHit.intersectionNormal,
           if light.position.w = 0 then normalize rt (-light.position.xyz)
           else normalize rt (light.position.xyz
             - (didRayHit.intersectionPoint + ((1 : K) / 100) • didRayHit.intersectionNormal))⟩
          0 0).ret ∧
        (o.Intersect rt
          ⟨didRayHit.intersectionPoint + ((1 : K) / 100) • didRayHit.intersectionNormal,
           if light.position.w = 0 then normalize rt (-light.position.xyz)
           else normalize rt (light.position.xyz
             - (didRayHit.intersectionPoint + ((1 : K) / 100) • didRayHit.intersectionNormal))⟩
          0 0).ret < 1 := by
  unfold RayTrace.isShadow
  rw [RayTrace.isShadow_foldl rt didRayHit light _
    (RayTrace.shadowRay_of_kind rt didRayHit light hw)]
  simp

/-- One iteration of the loop over the lights at a shadowed light: the shadow test for a
light with `w = 0` or `w = 1` holds exactly when some scene object's `Intersect` on the
shadow ray returns a value strictly between 0 and 1, and then the loop body adds only the
ambient local to `colorCombinedTemp` (`diffuse + specular` is multiplied by `1 - 1`) and
makes no recursive call: it succeeds for every `recur`, even one that never returns. -/
theorem RayTrace.shadowed_iteration (rt : Runtime K) (scene : Scene K) (camera : Camera K)
    (maxDepth : Int) (didRayHit : IntersectionInfo K) (obj : SceneObject K) (light : Light K)
    (hobj : didRayHit.obj = some obj)
    (hw : light.position.w = 0 ∨ light.position.w = 1) :
    (RayTrace.isShadow rt scene didRayHit light = true ↔
      ∃ o ∈ scene.objects,
        0 < (o.Intersect rt
          ⟨didRayHit.intersectionPoint + ((1 : K) / 100) • didRayHit.intersectionNormal,
           if light.position.w = 0 then normalize rt (-light.position.xyz)
           else normalize rt (light.position.xyz
             - (didRayHit.intersectionPoint + ((1 : K) / 100) • didRayHit.intersectionNormal))⟩
          0 0).ret ∧
        (o.Intersect rt
          ⟨didRayHit.intersectionPoint + ((1 : K) / 100) • didRayHit.intersectionNormal,
           if light.position.w = 0 then normalize rt (-light.position.xyz)
           else normalize rt (light.position.xyz
             - (didRayHit.intersectionPoint + ((1 : K) / 100) • didRayHit.intersectionNormal))⟩
          0 0).ret < 1) ∧
    (RayTrace.isShadow rt scene didRayHit light = true →
      ∀ (recur : Ray K → Int → Option (Vec3 K)) (st : ShadeState K),
        (RayTrace.body rt scene camera maxDepth didRayHit recur st light).map
            (fun st1 => (st1.colorTemp, st1.colorCombinedTemp))
          = some ((RayTrace.phong rt camera didRayHit obj.material light st).ambient,
              st.colorCombinedTemp
                + (RayTrace.phong rt camera didRayHit obj.material light st).ambient)) := by
  refine ⟨RayTrace.isShadow_iff rt scene didRayHit light hw, ?_⟩
  intro hs recur st
  rw [RayTrace.body_shadowed rt scene camera maxDepth didRayHit recur st light obj hobj hs]
  simp only [Option.map_some', sub_self]
  congr 1
  have h0 : (RayTrace.phong rt camera didRayHit obj.material light st).ambient
      + (0 : K) • ((RayTrace.phong rt camera didRayHit obj.material light st).diffuse
        + (RayTrace.phong rt camera didRayHit obj.material light st).specular)
      = (RayTrace.phong rt camera didRayHit obj.material light st).ambient := by
    ext <;> simp
  rw [h0]

/-- For a light with `w = 0` or `w = 1` the Phong block overwrites `ambient`, `diffuse`
and `specular`: what they held before does not matter. -/
theorem RayTrace.phong_of_kind (rt : Runtime K) (camera : Camera K)
    (didRayHit : IntersectionInfo K) (material : Material K) (light : Light K)
    (hw : light.position.w = 0 ∨ light.position.w = 1) (st1 st2 : ShadeState K) :
    (RayTrace.phong rt camera didRayHit material light st1).ambient
        = (RayTrace.phong rt camera didRayHit material light st2).ambient ∧
      (RayTrace.phong rt camera didRayHit material light st1).diffuse
        = (RayTrace.phong rt camera didRayHit material light st2).diffuse ∧
      (RayTrace.phong rt camera didRayHit material light st1).specular
        = (RayTrace.phong rt camera didRayHit material light st2).specular := by
  unfold RayTrace.phong
  simp only
  split_ifs with h1 h0
  · exact ⟨rfl, rfl, rfl⟩
  · exact ⟨rfl, rfl, rfl⟩
  · rcases hw with h | h
    · exact absurd h h0
    · exact absurd h h1

/-- The sum of the local terms depends on the state only through the three Phong locals. -/
theorem RayTrace.localSum_congr (rt : Runtime K) (scene : Scene K) (camera : Camera K)
    (didRayHit : IntersectionInfo K) (material : Material K) (lights : List (Light K))
    (st1 st2 : ShadeState K) (ha : st1.ambient = st2.ambient) (hd : st1.diffuse = st2.diffuse)
    (hs : st1.specular = st2.specular) :
    RayTrace.localSum rt scene camera didRayHit material lights st1
      = RayTrace.localSum rt scene camera didRayHit material lights st2 := by
  induction lights generalizing st1 st2 with
  | nil => rfl
  | cons light rest ih =>
    obtain ⟨pa, pd, ps⟩ := RayTrace.phong_congr rt camera didRayHit material light st1 st2
      ha hd hs
    simp only [RayTrace.localSum]
    rw [pa, pd, ps, ih _ _ pa pd ps]

/-- When every light has `w = 0` or `w = 1`, the sum of the local terms is the sum of the
terms of the lights taken one by one. -/
theorem RayTrace.localSum_eq_sumVec (rt : Runtime K) (scene : Scene K) (camera : Camera K)
    (didRayHit : IntersectionInfo K) (material : Material K) (lights : List (Light K))
    (hw : ∀ light ∈ lights, light.position.w = 0 ∨ light.position.w = 1) (st : ShadeState K) :
    RayTrace.localSum rt scene camera didRayHit material lights st
      = sumVec (lights.map (RayTrace.lightTerm rt scene camera didRayHit material)) := by
  induction lights generalizing st with
  | nil => rfl
  | cons light rest ih =>
    obtain ⟨pa, pd, ps⟩ := RayTrace.phong_of_kind rt camera didRayHit material light
      (hw light (List.mem_cons_self light rest)) st ⟨0, 0, 0, 0, 0, 0⟩
    simp only [RayTrace.localSum, List.map_cons, sumVec, RayTrace.lightTerm]
    rw [pa, pd, ps, ih (fun l hl => hw l (List.mem_cons_of_mem light hl))]

/-- The sum of the local terms over two lists of lights one after the other, when the
lights of the second list have `w = 0` or `w = 1`. -/
theorem RayTrace.localSum_append (rt : Runtime K) (scene : Scene K) (camera : Camera K)
    (didRayHit : IntersectionInfo K) (material : Material K) (l1 l2 : List (Light K))
    (hw : ∀ light ∈ l2, light.position.w = 0 ∨ light.position.w = 1) (st : ShadeState K) :
    RayTrace.localSum rt scene camera didRayHit material (l1 ++ l2) st
      = RayTrace.localSum rt scene camera didRayHit material l1 st
        + RayTrace.localSum rt scene camera didRayHit material l2 ⟨0, 0, 0, 0, 0, 0⟩ := by
  induction l1 generalizing st with
  | nil =>
    rw [List.nil_append, RayTrace.localSum_eq_sumVec rt scene camera didRayHit material l2 hw st,
      RayTrace.localSum_eq_sumVec rt scene camera didRayHit material l2 hw ⟨0, 0, 0, 0, 0, 0⟩]
    ext <;> simp [RayTrace.localSum]
  | cons light rest ih =>
    simp only [List.cons_append, RayTrace.localSum]
    rw [show rest.append l2 = rest ++ l2 from rfl, ih]
    ext <;> simp <;> ring

/-- The sum of the local terms does not look at the lights of the scene. -/
theorem RayTrace.localSum_objects (rt : Runtime K) (objects : List (SceneObject K))
    (la lb : List (Light K)) (camera : Camera K) (didRayHit : IntersectionInfo K)
    (material : Material K) (lights : List (Light K)) (st : ShadeState K) :
    RayTrace.localSum rt ⟨objects, la⟩ camera didRayHit material lights st
      = RayTrace.localSum rt ⟨objects, lb⟩ camera didRayHit material lights st := by
  induction lights generalizing st with
  | nil => rfl
  | cons light rest ih =>
    simp only [RayTrace.localSum]
    rw [ih]
    rfl

/-- On a hit, the record `Raycast` returns carries the ray that was cast. -/
theorem Raycast.incomingRay_of_hit (rt : Runtime K) (ray : Ray K) (scene : Scene K)
    (obj : SceneObject K) (hhit : (Raycast rt ray scene).obj = some obj) :
    (Raycast rt ray scene).incomingRay = ray := by
  have hex : ∃ o ∈ scene.objects, 0 < (o.Intersect rt ray 0 0).ret := by
    by_contra hno
    have := Raycast.obj_none_of_no_hit rt ray scene (fun o ho hp => hno ⟨o, ho, hp⟩)
    rw [this] at hhit
    exact Option.noConfusion hhit
  obtain ⟨hmem, _⟩ := Raycast.of_hit rt ray scene hex
  obtain ⟨o, _, _, heq⟩ := (Raycast.mem_infoList rt ray scene _).mp hmem
  rw [heq]
  rfl

/-- The term of one light, by cases on the shadow test: the ambient local alone for a
shadowed light, the sum of the three locals otherwise. -/
theorem RayTrace.lightTerm_cases (rt : Runtime K) (scene : Scene K) (camera : Camera K)
    (didRayHit : IntersectionInfo K) (material : Material K) (light : Light K) :
    RayTrace.lightTerm rt scene camera didRayHit material light
      = if RayTrace.isShadow rt scene didRayHit light = true then
          (RayTrace.phong rt camera didRayHit material light ⟨0, 0, 0, 0, 0, 0⟩).ambient
        else
          (RayTrace.phong rt camera didRayHit material light ⟨0, 0, 0, 0, 0, 0⟩).ambient
            + ((RayTrace.phong rt camera didRayHit material light ⟨0, 0, 0, 0, 0, 0⟩).diffuse
              + (RayTrace.phong rt camera didRayHit material light
                  ⟨0, 0, 0, 0, 0, 0⟩).specular) := by
  unfold RayTrace.lightTerm RayTrace.shadowVal
  simp only
  split_ifs with h
  · ext <;> simp
  · ext <;> simp

/-- C13: in `RayTrace`, on a hit and with all lights of `w = 0` or `w = 1`, a light is
treated as shadowed exactly when some scene object's `Intersect` on the shadow ray (origin
`hit point + 0.01 * hit normal`, direction `normalize(-light.xyz)` for `w = 0` and
`normalize(light.xyz - origin)` for `w = 1`) returns a value strictly between 0 and 1; the
value of `RayTrace` is the sum over the lights of the ambient term alone for a shadowed light
(diffuse and specular are multiplied by 0) and of ambient + diffuse + specular for the
others, plus the reflection term `(shininess / 128) * RayTrace(reflection, maxDepth - 1)`
once for every light that is not shadowed and never for a shadowed one. -/
theorem RayTrace_shadowed_light (rt : Runtime K) (ray : Ray K) (scene : Scene K)
    (camera : Camera K) (maxDepth : Int) (obj : SceneObject K)
    (hhit : (Raycast rt ray scene).obj = some obj)
    (hw : ∀ light ∈ scene.lights, light.position.w = 0 ∨ light.position.w = 1) :
    (∀ light ∈ scene.lights,
      (RayTrace.isShadow rt scene (Raycast rt ray scene) light = true ↔
        ∃ o ∈ scene.objects,
          0 < (o.Intersect rt
            ⟨(Raycast rt ray scene).intersectionPoint
                + ((1 : K) / 100) • (Raycast rt ray scene).intersectionNormal,
             if light.position.w = 0 then normalize rt (-light.position.xyz)
             else normalize rt (light.position.xyz
               - ((Raycast rt ray scene).intersectionPoint
                  + ((1 : K) / 100) • (Raycast rt ray scene).intersectionNormal))⟩
            0 0).ret ∧
          (o.Intersect rt
            ⟨(Raycast rt ray scene).intersectionPoint
                + ((1 : K) / 100) • (Raycast rt ray scene).intersectionNormal,
             if light.position.w = 0 then normalize rt (-light.position.xyz)
             else normalize rt (light.position.xyz
               - ((Raycast rt ray scene).intersectionPoint
                  + ((1 : K) / 100) • (Raycast rt ray scene).intersectionNormal))⟩
            0 0).ret < 1)) ∧
    RayTrace rt ray scene camera maxDepth
      = sumVec (scene.lights.map fun light =>
          if RayTrace.isShadow rt scene (Raycast rt ray scene) light = true then
            (RayTrace.phong rt camera (Raycast rt ray scene) obj.material light
              ⟨0, 0, 0, 0, 0, 0⟩).ambient
          else
            (RayTrace.phong rt camera (Raycast rt ray scene) obj.material light
                ⟨0, 0, 0, 0, 0, 0⟩).ambient
              + ((RayTrace.phong rt camera (Raycast rt ray scene) obj.material light
                    ⟨0, 0, 0, 0, 0, 0⟩).diffuse
                + (RayTrace.phong rt camera (Raycast rt ray scene) obj.material light
                    ⟨0, 0, 0, 0, 0, 0⟩).specular))
        + ((scene.lights.filter fun light =>
              !RayTrace.isShadow rt scene (Raycast rt ray scene) light).length : K)
          • (if maxDepth > 0 then
              (obj.material.shininess / 128)
                • RayTrace rt
                    ⟨(Raycast rt ray scene).intersectionPoint
                        + ((1 : K) / 1000) • (Raycast rt ray scene).intersectionNormal,
                     reflect ray.direction (Raycast rt ray scene).intersectionNormal⟩
                    scene camera (maxDepth - 1)
            else 0) := by
  refine ⟨fun light hl => RayTrace.isShadow_iff rt scene _ light (hw light hl), ?_⟩
  rw [RayTrace_of_hit rt ray scene camera maxDepth obj hhit,
    RayTrace.localSum_eq_sumVec rt scene camera _ _ scene.lights hw]
  unfold RayTrace.unshadowed RayTrace.reflection
  rw [Raycast.incomingRay_of_hit rt ray scene obj hhit]
  congr 2
  apply List.map_congr_left
  intro light _
  exact RayTrace.lightTerm_cases rt scene camera _ _ light

/-- C15: on a hit with `maxDepth > 0` and all lights with `w = 0` or `w = 1`, `RayTrace` is
the sum over the lights of their local terms plus `k * (shininess / 128) *
RayTrace(reflected ray, maxDepth - 1)`, where `k` is the number of unshadowed lights and
the reflected ray starts at `hit point + 0.001 * normal` along
`reflect(incoming direction, normal)`. -/
theorem RayTrace_reflection_per_light (rt : Runtime K) (ray : Ray K) (scene : Scene K)
    (camera : Camera K) (maxDepth : Int) (obj : SceneObject K)
    (hhit : (Raycast rt ray scene).obj = some obj) (hd : maxDepth > 0)
    (hw : ∀ light ∈ scene.lights, light.position.w = 0 ∨ light.position.w = 1) :
    RayTrace rt ray scene camera maxDepth
      = sumVec (scene.lights.map
            (RayTrace.lightTerm rt scene camera (Raycast rt ray scene) obj.material))
        + ((scene.lights.filter
              fun light => !RayTrace.isShadow rt scene (Raycast rt ray scene) light).length : K)
          • ((obj.material.shininess / 128)
            • RayTrace rt
                ⟨(Raycast rt ray scene).intersectionPoint
                    + ((1 : K) / 1000) • (Raycast rt ray scene).intersectionNormal,
                 reflect ray.direction (Raycast rt ray scene).intersectionNormal⟩
                scene camera (maxDepth - 1)) := by
  rw [RayTrace_of_hit rt ray scene camera maxDepth obj hhit, if_pos hd,
    RayTrace.localSum_eq_sumVec rt scene camera _ _ scene.lights hw]
  unfold RayTrace.unshadowed RayTrace.reflection
  rw [Raycast.incomingRay_of_hit rt ray scene obj hhit]

/-- C17: light contributions are accumulated by plain summation: with `maxDepth = 0`,
`RayTrace` on the scene with lights `L1 ++ L2` is `RayTrace` on the scene with lights `L1`
plus `RayTrace` on the scene with lights `L2`, the lights of `L2` having `w = 0` or
`w = 1` (for `L1` the restriction is not needed). -/
theorem RayTrace_lights_append (rt : Runtime K) (ray : Ray K) (objects : List (SceneObject K))
    (l1 l2 : List (Light K)) (camera : Camera K)
    (hw : ∀ light ∈ l2, light.position.w = 0 ∨ light.position.w = 1) :
    RayTrace rt ray ⟨objects, l1 ++ l2⟩ camera 0
      = RayTrace rt ray ⟨objects, l1⟩ camera 0 + RayTrace rt ray ⟨objects, l2⟩ camera 0 := by
  have hr1 : Raycast rt ray ⟨objects, l1⟩ = Raycast rt ray ⟨objects, l1 ++ l2⟩ := rfl
  have hr2 : Raycast rt ray ⟨objects, l2⟩ = Raycast rt ray ⟨objects, l1 ++ l2⟩ := rfl
  cases hobj : (Raycast rt ray ⟨objects, l1 ++ l2⟩).obj with
  | none =>
    rw [RayTrace_of_miss rt ray _ camera 0 hobj,
      RayTrace_of_miss rt ray ⟨objects, l1⟩ camera 0 (by rw [hr1]; exact hobj),
      RayTrace_of_miss rt ray ⟨objects, l2⟩ camera 0 (by rw [hr2]; exact hobj)]
    ext <;> simp
  | some obj =>
    rw [RayTrace_of_hit rt ray _ camera 0 obj hobj,
      RayTrace_of_hit rt ray ⟨objects, l1⟩ camera 0 obj (by rw [hr1]; exact hobj),
      RayTrace_of_hit rt ray ⟨objects, l2⟩ camera 0 obj (by rw [hr2]; exact hobj), hr1, hr2]
    simp only [gt_iff_lt, lt_irrefl, if_false]
    rw [RayTrace.localSum_append rt _ camera _ _ l1 l2 hw,
      RayTrace.localSum_objects rt objects l1 (l1 ++ l2),
      RayTrace.localSum_objects rt objects l2 (l1 ++ l2)]
    ext <;> simp

/-- The product `-1.0f * v` is the opposite vector. -/
theorem neg_one_smul_vec (v : Vec3 K) : (-1 : K) • v = -v := by
  ext <;> simp

/-- C16: for a hit at `X` with normal `N` and material `M`, the local term
`ambient + (1 - s) * (diffuse + specular)` that the Phong block yields for a light with
`w = 1` or `w = 0` is `att * (La*Ma + (1 - s) * (max(N.L, 0) * Ld*Md +
max(V.R, 0)^shininess * Ls*Ms))` with `V = normalize(camera.position - X)`,
`R = reflect(-L, N)`; for `w = 1`, `L = normalize(light.xyz - X)` and
`att = 1 / (constant + linear*d + quadratic*d^2)`, `d = |light.xyz - X|`; for `w = 0`,
`L = normalize(-light.xyz)` and `att = 1`, and the Phong block does not read the fields
`constant`, `linear`, `quadratic`. -/
theorem RayTrace_local_term (rt : Runtime K) (hpow : rt.PowSquare) (camera : Camera K)
    (didRayHit : IntersectionInfo K) (M : Material K) (light : Light K)
    (hw : light.position.w = 1 ∨ light.position.w = 0) (st : ShadeState K) (s : K) :
    (RayTrace.phong rt camera didRayHit M light st).ambient
        + (1 - s) • ((RayTrace.phong rt camera didRayHit M light st).diffuse
          + (RayTrace.phong rt camera didRayHit M light st).specular)
      = RayTrace.localTerm rt camera didRayHit.intersectionPoint didRayHit.intersectionNormal
          M light s ∧
    (light.position.w = 0 → ∀ c l q : K,
      RayTrace.phong rt camera didRayHit M
          { light with constant := c, linear := l, quadratic := q } st
        = RayTrace.phong rt camera didRayHit M light st) := by
  constructor
  · rcases hw with h | h
    · unfold RayTrace.phong RayTrace.localTerm
      simp only [if_pos h, hpow (length rt (light.position.xyz - didRayHit.intersectionPoint))]
      ext <;>
      · simp only [Vec3.add_x, Vec3.add_y, Vec3.add_z, Vec3.smul_x, Vec3.smul_y, Vec3.smul_z,
          Vec3.mul_x, Vec3.mul_y, Vec3.mul_z]
        ring
    · have h1 : ¬ light.position.w = 1 := by rw [h]; exact zero_ne_one
      unfold RayTrace.phong RayTrace.localTerm
      simp only [if_neg h1, if_pos h, neg_one_smul_vec]
      ext <;>
      · simp only [Vec3.add_x, Vec3.add_y, Vec3.add_z, Vec3.smul_x, Vec3.smul_y, Vec3.smul_z,
          Vec3.mul_x, Vec3.mul_y, Vec3.mul_z]
        ring
  · intro h0 c l q
    have h1 : ¬ light.position.w = 1 := by rw [h0]; exact zero_ne_one
    unfold RayTrace.phong
    simp only [if_neg h1, if_pos h0]

/-- The real power function squares its argument at exponent 2. -/
theorem real_powSquare (sr : ℝ → ℝ) (u : ℝ) (v : Vec3 ℝ) :
    Runtime.PowSquare (⟨sr, Real.rpow, u, v⟩ : Runtime ℝ) := by
  intro x
  show x ^ (2 : ℝ) = x * x
  rw [Real.rpow_two, pow_two]

/-- Witness of C16 over the reals: a point light above the north pole of the unit sphere. -/
theorem RayTrace_local_term_witness :
    Runtime.PowSquare (⟨Real.sqrt, Real.rpow, 0, 0⟩ : Runtime ℝ) ∧
    ((1 : ℝ) = 1 ∨ (1 : ℝ) = 0) ∧
    (RayTrace.phong (⟨Real.sqrt, Real.rpow, 0, 0⟩ : Runtime ℝ)
        ⟨⟨0, 0, 3⟩, ⟨0, 0, 0⟩, ⟨0, 1, 0⟩, 60, 1, 4, 4⟩
        ⟨⟨⟨0, 0, 3⟩, ⟨0, 0, -1⟩⟩, 2, none, ⟨0, 0, 1⟩, ⟨0, 0, 1⟩⟩
        ⟨⟨1, 1, 1⟩, ⟨1, 1, 1⟩, ⟨1, 1, 1⟩, 8⟩
        ⟨⟨0, 0, 5, 1⟩, ⟨1, 1, 1⟩, ⟨1, 1, 1⟩, ⟨1, 1, 1⟩, 1, 0, 0⟩ ⟨0, 0, 0, 0, 0, 0⟩).ambient
      + (1 - (0 : ℝ)) • ((RayTrace.phong (⟨Real.sqrt, Real.rpow, 0, 0⟩ : Runtime ℝ)
        ⟨⟨0, 0, 3⟩, ⟨0, 0, 0⟩, ⟨0, 1, 0⟩, 60, 1, 4, 4⟩
        ⟨⟨⟨0, 0, 3⟩, ⟨0, 0, -1⟩⟩, 2, none, ⟨0, 0, 1⟩, ⟨0, 0, 1⟩⟩
        ⟨⟨1, 1, 1⟩, ⟨1, 1, 1⟩, ⟨1, 1, 1⟩, 8⟩
        ⟨⟨0, 0, 5, 1⟩, ⟨1, 1, 1⟩, ⟨1, 1, 1⟩, ⟨1, 1, 1⟩, 1, 0, 0⟩ ⟨0, 0, 0, 0, 0, 0⟩).diffuse
        + (RayTrace.phong (⟨Real.sqrt, Real.rpow, 0, 0⟩ : Runtime ℝ)
        ⟨⟨0, 0, 3⟩, ⟨0, 0, 0⟩, ⟨0, 1, 0⟩, 60, 1, 4, 4⟩
        ⟨⟨⟨0, 0, 3⟩, ⟨0, 0, -1⟩⟩, 2, none, ⟨0, 0, 1⟩, ⟨0, 0, 1⟩⟩
        ⟨⟨1, 1, 1⟩, ⟨1, 1, 1⟩, ⟨1, 1, 1⟩, 8⟩
        ⟨⟨0, 0, 5, 1⟩, ⟨1, 1, 1⟩, ⟨1, 1, 1⟩, ⟨1, 1, 1⟩, 1, 0, 0⟩ ⟨0, 0, 0, 0, 0, 0⟩).specular)
      = RayTrace.localTerm (⟨Real.sqrt, Real.rpow, 0, 0⟩ : Runtime ℝ)
          ⟨⟨0, 0, 3⟩, ⟨0, 0, 0⟩, ⟨0, 1, 0⟩, 60, 1, 4, 4⟩ ⟨0, 0, 1⟩ ⟨0, 0, 1⟩
          ⟨⟨1, 1, 1⟩, ⟨1, 1, 1⟩, ⟨1, 1, 1⟩, 8⟩
          ⟨⟨0, 0, 5, 1⟩, ⟨1, 1, 1⟩, ⟨1, 1, 1⟩, ⟨1, 1, 1⟩, 1, 0, 0⟩ 0 :=
  ⟨real_powSquare _ _ _, Or.inl rfl,
    (RayTrace_local_term _ (real_powSquare _ _ _) _
      ⟨⟨⟨0, 0, 3⟩, ⟨0, 0, -1⟩⟩, 2, none, ⟨0, 0, 1⟩, ⟨0, 0, 1⟩⟩ _
      ⟨⟨0, 0, 5, 1⟩, ⟨1, 1, 1⟩, ⟨1, 1, 1⟩, ⟨1, 1, 1⟩, 1, 0, 0⟩ (Or.inl rfl)
      ⟨0, 0, 0, 0, 0, 0⟩ 0).1⟩

/-- Normalising a vector that points up the z axis. -/
theorem normalize_axis {rt : Runtime K} (hsqrt : rt.SqrtExact) (a : K) (ha : 0 < a) :
    normalize rt ⟨0, 0, a⟩ = ⟨0, 0, 1⟩ := by
  have hd : dot (⟨0, 0, a⟩ : Vec3 K) ⟨0, 0, a⟩ = a * a := by simp [dot]
  unfold normalize
  rw [hd, hsqrt.sqrt_mul_self (le_of_lt ha)]
  ext
  · simp
  · simp
  · simp only [Vec3.smul_z]
    field_simp

/-- When exactly one object of the scene is hit, `Raycast` returns its record. -/
theorem Raycast.eq_hitInfo_of_unique (rt : Runtime K) (ray : Ray K) (scene : Scene K)
    (o : SceneObject K) (ho : o ∈ scene.objects) (hp : 0 < (o.Intersect rt ray 0 0).ret)
    (hu : ∀ o2 ∈ scene.objects, 0 < (o2.Intersect rt ray 0 0).ret → o2 = o) :
    Raycast rt ray scene = Raycast.hitInfo rt ray o := by
  obtain ⟨hmem, _⟩ := Raycast.of_hit rt ray scene ⟨o, ho, hp⟩
  obtain ⟨o2, ho2, hp2, heq⟩ := (Raycast.mem_infoList rt ray scene _).mp hmem
  rw [heq, hu o2 ho2 hp2]

/-- In the example the primary ray hits the first sphere at distance 2. -/
theorem ShadowExample.surface_ret :
    (SceneObject.Intersect (⟨Real.sqrt, Real.rpow, 0, 0⟩ : Runtime ℝ)
      (.sphere ShadowExample.surface) ShadowExample.ray 0 0).ret = 2 := by
  simp only [SceneObject.Intersect, Sphere.Intersect_unfold, Sphere.b, Sphere.c, Sphere.chooseT,
    dot, Vec3.sub_x, Vec3.sub_y, Vec3.sub_z, ShadowExample.surface, ShadowExample.ray]
  norm_num

/-- In the example the primary ray does not hit the occluder, which lies behind its
origin. -/
theorem ShadowExample.occluder_ret :
    (SceneObject.Intersect (⟨Real.sqrt, Real.rpow, 0, 0⟩ : Runtime ℝ)
      (.sphere ShadowExample.occluder) ShadowExample.ray 0 0).ret = 0 := by
  simp only [SceneObject.Intersect, Sphere.Intersect_unfold, Sphere.b, Sphere.c, Sphere.chooseT,
    dot, Vec3.sub_x, Vec3.sub_y, Vec3.sub_z, ShadowExample.occluder, ShadowExample.ray]
  norm_num

/-- In the example the shadow ray meets the occluder at distance 3.99. -/
theorem ShadowExample.shadow_occluder_ret :
    (SceneObject.Intersect (⟨Real.sqrt, Real.rpow, 0, 0⟩ : Runtime ℝ)
      (.sphere ShadowExample.occluder) ⟨⟨0, 0, 101 / 100⟩, ⟨0, 0, 1⟩⟩ 0 0).ret = 399 / 100 := by
  simp only [SceneObject.Intersect, Sphere.Intersect_unfold, Sphere.b, Sphere.c, Sphere.chooseT,
    dot, Vec3.sub_x, Vec3.sub_y, Vec3.sub_z, ShadowExample.occluder]
  norm_num

/-- In the example the shadow ray leaves the first sphere without meeting it again. -/
theorem ShadowExample.shadow_surface_ret :
    (SceneObject.Intersect (⟨Real.sqrt, Real.rpow, 0, 0⟩ : Runtime ℝ)
      (.sphere ShadowExample.surface) ⟨⟨0, 0, 101 / 100⟩, ⟨0, 0, 1⟩⟩ 0 0).ret = 0 := by
  simp only [SceneObject.Intersect, Sphere.Intersect_unfold, Sphere.b, Sphere.c, Sphere.chooseT,
    dot, Vec3.sub_x, Vec3.sub_y, Vec3.sub_z, ShadowExample.surface]
  norm_num

/-- In every scene in which the primary ray of the example hits only the first sphere,
`Raycast` reports its north pole. -/
theorem ShadowExample.raycast_of_objects (scene : Scene ℝ)
    (hmem : SceneObject.sphere ShadowExample.surface ∈ scene.objects)
    (hu : ∀ o2 ∈ scene.objects,
      0 < (o2.Intersect (⟨Real.sqrt, Real.rpow, 0, 0⟩ : Runtime ℝ) ShadowExample.ray 0 0).ret →
        o2 = .sphere ShadowExample.surface) :
    Raycast (⟨Real.sqrt, Real.rpow, 0, 0⟩ : Runtime ℝ) ShadowExample.ray scene
      = ⟨ShadowExample.ray, 2, some (.sphere ShadowExample.surface), ⟨0, 0, 1⟩, ⟨0, 0, 1⟩⟩ := by
  have hsq := real_sqrtExact Real.rpow 0 0
  rw [Raycast.eq_hitInfo_of_unique _ _ _ (.sphere ShadowExample.surface) hmem
    (by rw [ShadowExample.surface_ret]; norm_num) hu]
  have hpt : (SceneObject.Intersect (⟨Real.sqrt, Real.rpow, 0, 0⟩ : Runtime ℝ)
      (.sphere ShadowExample.surface) ShadowExample.ray 0 0).outIntersectionPoint
      = ⟨0, 0, 1⟩ := by
    have h2 := ShadowExample.surface_ret
    simp only [SceneObject.Intersect, Sphere.Intersect_unfold] at h2 ⊢
    split_ifs at h2 ⊢ with h
    · norm_num at h2
    · simp only at h2 ⊢
      rw [h2]
      ext <;> norm_num [ShadowExample.ray]
  have hn : (SceneObject.Intersect (⟨Real.sqrt, Real.rpow, 0, 0⟩ : Runtime ℝ)
      (.sphere ShadowExample.surface) ShadowExample.ray 0 0).outIntersectionNormal
      = ⟨0, 0, 1⟩ := by
    have h2 := ShadowExample.surface_ret
    simp only [SceneObject.Intersect, Sphere.Intersect_unfold] at h2 hpt ⊢
    split_ifs at h2 hpt ⊢ with h
    · norm_num at h2
    · simp only at hpt ⊢
      rw [hpt]
      exact normalize_axis hsq 1 one_pos
  unfold Raycast.hitInfo
  rw [ShadowExample.surface_ret, hpt, hn]

/-- In the example `Raycast` reports the north pole of the first sphere. -/
theorem ShadowExample.raycast_value :
    Raycast (⟨Real.sqrt, Real.rpow, 0, 0⟩ : Runtime ℝ) ShadowExample.ray ShadowExample.scene
      = ⟨ShadowExample.ray, 2, some (.sphere ShadowExample.surface), ⟨0, 0, 1⟩, ⟨0, 0, 1⟩⟩ := by
  apply ShadowExample.raycast_of_objects _ (List.mem_cons_self _ _)
  intro o2 ho2 hp2
  simp only [ShadowExample.scene, List.mem_cons, List.mem_singleton, List.not_mem_nil,
    or_false] at ho2
  rcases ho2 with rfl | rfl
  · rfl
  · rw [ShadowExample.occluder_ret] at hp2
    exact absurd hp2 (lt_irrefl 0)

/-- Normalising a vector that points along the x axis. -/
theorem normalize_axis_x {rt : Runtime K} (hsqrt : rt.SqrtExact) (a : K) (ha : 0 < a) :
    normalize rt ⟨a, 0, 0⟩ = ⟨1, 0, 0⟩ := by
  have hd : dot (⟨a, 0, 0⟩ : Vec3 K) ⟨a, 0, 0⟩ = a * a := by simp [dot]
  unfold normalize
  rw [hd, hsqrt.sqrt_mul_self (le_of_lt ha)]
  ext
  · simp only [Vec3.smul_x]
    field_simp
  · simp
  · simp

/-- The primary ray of the example passes beside the near occluder. -/
theorem ShadowExample.nearOccluder_ret :
    (SceneObject.Intersect (⟨Real.sqrt, Real.rpow, 0, 0⟩ : Runtime ℝ)
      (.sphere ShadowExample.nearOccluder) ShadowExample.ray 0 0).ret = -1 := by
  simp only [SceneObject.Intersect, Sphere.Intersect_unfold, Sphere.b, Sphere.c, dot,
    Vec3.sub_x, Vec3.sub_y, Vec3.sub_z, ShadowExample.nearOccluder, ShadowExample.ray]
  norm_num

/-- The shadow ray towards the side light meets the near occluder at distance 1/2. -/
theorem ShadowExample.shadow_nearOccluder_ret :
    (SceneObject.Intersect (⟨Real.sqrt, Real.rpow, 0, 0⟩ : Runtime ℝ)
      (.sphere ShadowExample.nearOccluder) ⟨⟨0, 0, 101 / 100⟩, ⟨1, 0, 0⟩⟩ 0 0).ret = 1 / 2 := by
  simp only [SceneObject.Intersect, Sphere.Intersect_unfold, Sphere.b, Sphere.c, Sphere.chooseT,
    dot, Vec3.sub_x, Vec3.sub_y, Vec3.sub_z, ShadowExample.nearOccluder]
  norm_num

/-- In the scene with the near occluder `Raycast` still reports the north pole of the
first sphere. -/
theorem ShadowExample.near_raycast_value :
    Raycast (⟨Real.sqrt, Real.rpow, 0, 0⟩ : Runtime ℝ) ShadowExample.ray ShadowExample.nearScene
      = ⟨ShadowExample.ray, 2, some (.sphere ShadowExample.surface), ⟨0, 0, 1⟩, ⟨0, 0, 1⟩⟩ := by
  apply ShadowExample.raycast_of_objects _ (List.mem_cons_self _ _)
  intro o2 ho2 hp2
  simp only [ShadowExample.nearScene, List.mem_cons, List.mem_singleton, List.not_mem_nil,
    or_false] at ho2
  rcases ho2 with rfl | rfl
  · rfl
  · rw [ShadowExample.nearOccluder_ret] at hp2
    norm_num at hp2

/-- In the example the light is not treated as shadowed: the occluder is met by the shadow
ray at distance 3.99, not below 1. -/
theorem ShadowExample.not_shadowed :
    RayTrace.isShadow (⟨Real.sqrt, Real.rpow, 0, 0⟩ : Runtime ℝ) ShadowExample.scene
      ⟨ShadowExample.ray, 2, some (.sphere ShadowExample.surface), ⟨0, 0, 1⟩, ⟨0, 0, 1⟩⟩
      ShadowExample.light = false := by
  have hsq := real_sqrtExact Real.rpow 0 0
  have horigin : (⟨0, 0, 1⟩ : Vec3 ℝ) + ((1 : ℝ) / 100) • ⟨0, 0, 1⟩ = ⟨0, 0, 101 / 100⟩ := by
    ext <;> norm_num
  have hdir : normalize (⟨Real.sqrt, Real.rpow, 0, 0⟩ : Runtime ℝ)
      ((ShadowExample.light : Light ℝ).position.xyz - ⟨0, 0, 101 / 100⟩) = ⟨0, 0, 1⟩ := by
    have : (ShadowExample.light : Light ℝ).position.xyz - ⟨0, 0, 101 / 100⟩
        = (⟨0, 0, 999 / 100⟩ : Vec3 ℝ) := by
      ext <;> norm_num [ShadowExample.light, Vec4.xyz]
    rw [this]
    exact normalize_axis hsq _ (by norm_num)
  have hw : (ShadowExample.light : Light ℝ).position.w = 0
      ∨ (ShadowExample.light : Light ℝ).position.w = 1 := Or.inr rfl
  have hw0 : ¬ (ShadowExample.light : Light ℝ).position.w = 0 := by
    show ¬ (1 : ℝ) = 0
    exact one_ne_zero
  rw [← Bool.not_eq_true, RayTrace.isShadow_iff _ _ _ _ hw]
  simp only [horigin, if_neg hw0, hdir]
  rintro ⟨o, ho, h1, h2⟩
  simp only [ShadowExample.scene, List.mem_cons, List.mem_singleton, List.not_mem_nil,
    or_false] at ho
  rcases ho with rfl | rfl
  · rw [ShadowExample.shadow_surface_ret] at h1
    exact absurd h1 (lt_irrefl 0)
  · rw [ShadowExample.shadow_occluder_ret] at h2
    norm_num at h2

/-- In the example the Phong block leaves ambient `(1, 1, 1)`, diffuse `(1, 1, 1)` and
specular `(0, 0, 0)`. -/
theorem ShadowExample.phong_values :
    (RayTrace.phong (⟨Real.sqrt, Real.rpow, 0, 0⟩ : Runtime ℝ) ShadowExample.camera
        ⟨ShadowExample.ray, 2, some (.sphere ShadowExample.surface), ⟨0, 0, 1⟩, ⟨0, 0, 1⟩⟩
        ShadowExample.material ShadowExample.light ⟨0, 0, 0, 0, 0, 0⟩).ambient = ⟨1, 1, 1⟩ ∧
    (RayTrace.phong (⟨Real.sqrt, Real.rpow, 0, 0⟩ : Runtime ℝ) ShadowExample.camera
        ⟨ShadowExample.ray, 2, some (.sphere ShadowExample.surface), ⟨0, 0, 1⟩, ⟨0, 0, 1⟩⟩
        ShadowExample.material ShadowExample.light ⟨0, 0, 0, 0, 0, 0⟩).diffuse = ⟨1, 1, 1⟩ ∧
    (RayTrace.phong (⟨Real.sqrt, Real.rpow, 0, 0⟩ : Runtime ℝ) ShadowExample.camera
        ⟨ShadowExample.ray, 2, some (.sphere ShadowExample.surface), ⟨0, 0, 1⟩, ⟨0, 0, 1⟩⟩
        ShadowExample.material ShadowExample.light ⟨0, 0, 0, 0, 0, 0⟩).specular = ⟨0, 0, 0⟩ := by
  have hsq := real_sqrtExact Real.rpow 0 0
  have hL : normalize (⟨Real.sqrt, Real.rpow, 0, 0⟩ : Runtime ℝ)
      ((ShadowExample.light : Light ℝ).position.xyz - ⟨0, 0, 1⟩) = ⟨0, 0, 1⟩ := by
    have : (ShadowExample.light : Light ℝ).position.xyz - ⟨0, 0, 1⟩ = (⟨0, 0, 10⟩ : Vec3 ℝ) := by
      ext <;> norm_num [ShadowExample.light, Vec4.xyz]
    rw [this]
    exact normalize_axis hsq _ (by norm_num)
  have hw : (ShadowExample.light : Light ℝ).position.w = 1 := rfl
  unfold RayTrace.phong
  simp only [if_pos hw, hL]
  refine ⟨?_, ?_, ?_⟩
  · ext <;> simp [ShadowExample.light, ShadowExample.material]
  · ext <;> simp [ShadowExample.light, ShadowExample.material, dot]
  · ext <;> simp [ShadowExample.light, ShadowExample.material]

/-- The ambient local after the Phong block of a point light. -/
theorem RayTrace.phong_ambient_point (rt : Runtime K) (camera : Camera K)
    (didRayHit : IntersectionInfo K) (material : Material K) (light : Light K)
    (hw : light.position.w = 1) (st : ShadeState K) :
    (RayTrace.phong rt camera didRayHit material light st).ambient
      = (1 / (light.constant
            + light.linear * length rt (light.position.xyz - didRayHit.intersectionPoint)
            + light.quadratic
              * rt.pow (length rt (light.position.xyz - didRayHit.intersectionPoint)) 2))
        • (light.ambient * material.ambient) := by
  unfold RayTrace.phong
  simp only [if_pos hw]

/-- C14, evaluated on the example scene: the primary ray hits the first sphere at
`X = (0, 0, 1)`; the point `X + (1/2) (light - X) = (0, 0, 6)` of the segment from `X` to
the point light is the centre of the occluder, so the occluder lies between the surface
point and the light; yet `RayTrace` with that single light and `maxDepth = 0` returns
`(2, 2, 2)`, the ambient term `(1, 1, 1)` plus the diffuse term `(1, 1, 1)`: the diffuse term
is not zeroed, because the shadow ray meets the occluder at distance 3.99 and the loop only
counts distances below 1. -/
theorem RayTrace_occluder_beyond_one :
    (Raycast (⟨Real.sqrt, Real.rpow, 0, 0⟩ : Runtime ℝ) ShadowExample.ray
        ShadowExample.scene).obj = some (.sphere ShadowExample.surface) ∧
    (Raycast (⟨Real.sqrt, Real.rpow, 0, 0⟩ : Runtime ℝ) ShadowExample.ray
        ShadowExample.scene).intersectionPoint = ⟨0, 0, 1⟩ ∧
    (⟨0, 0, 1⟩ : Vec3 ℝ) + ((1 : ℝ) / 2) • ((ShadowExample.light : Light ℝ).position.xyz - ⟨0, 0, 1⟩)
      = (ShadowExample.occluder : Sphere ℝ).center ∧
    RayTrace (⟨Real.sqrt, Real.rpow, 0, 0⟩ : Runtime ℝ) ShadowExample.ray ShadowExample.scene
        ShadowExample.camera 0 = ⟨2, 2, 2⟩ ∧
    (RayTrace.phong (⟨Real.sqrt, Real.rpow, 0, 0⟩ : Runtime ℝ) ShadowExample.camera
        (Raycast (⟨Real.sqrt, Real.rpow, 0, 0⟩ : Runtime ℝ) ShadowExample.ray ShadowExample.scene)
        ShadowExample.material ShadowExample.light ⟨0, 0, 0, 0, 0, 0⟩).ambient = ⟨1, 1, 1⟩ ∧
    RayTrace (⟨Real.sqrt, Real.rpow, 0, 0⟩ : Runtime ℝ) ShadowExample.ray ShadowExample.scene
        ShadowExample.camera 0
      ≠ (RayTrace.phong (⟨Real.sqrt, Real.rpow, 0, 0⟩ : Runtime ℝ) ShadowExample.camera
        (Raycast (⟨Real.sqrt, Real.rpow, 0, 0⟩ : Runtime ℝ) ShadowExample.ray ShadowExample.scene)
        ShadowExample.material ShadowExample.light ⟨0, 0, 0, 0, 0, 0⟩).ambient := by
  have hobj : (Raycast (⟨Real.sqrt, Real.rpow, 0, 0⟩ : Runtime ℝ) ShadowExample.ray
      ShadowExample.scene).obj = some (.sphere ShadowExample.surface) := by
    rw [ShadowExample.raycast_value]
  have hval : RayTrace (⟨Real.sqrt, Real.rpow, 0, 0⟩ : Runtime ℝ) ShadowExample.ray
      ShadowExample.scene ShadowExample.camera 0 = ⟨2, 2, 2⟩ := by
    rw [RayTrace_of_hit _ _ _ _ 0 _ hobj, ShadowExample.raycast_value]
    obtain ⟨ha, hd, hs⟩ := ShadowExample.phong_values
    have hmat : (SceneObject.sphere (ShadowExample.surface : Sphere ℝ)).material
        = ShadowExample.material := rfl
    have hlights : (ShadowExample.scene : Scene ℝ).lights = [ShadowExample.light] := rfl
    rw [hmat, hlights]
    simp only [RayTrace.localSum, RayTrace.shadowVal, ShadowExample.not_shadowed, ha, hd, hs]
    ext <;> norm_num
  have hamb := ShadowExample.phong_values.1
  refine ⟨hobj, by rw [ShadowExample.raycast_value], ?_, hval, by rw [ShadowExample.raycast_value]; exact hamb,
    ?_⟩
  · ext <;> norm_num [ShadowExample.light, ShadowExample.occluder, Vec4.xyz]
  · rw [hval, ShadowExample.raycast_value, hamb]
    intro h
    have hx := congrArg Vec3.x h
    norm_num at hx

/-- The range in which the shadow test does see an occluder: when the shadow ray of a
point light (`w = 1`), cast from `hit point + 0.01 * normal` towards the light, meets some
scene object at a distance strictly between 0 and 1, the loop body adds for that light only
the attenuated ambient term `att * (La * Ma)` (diffuse and specular are zeroed) and makes
no recursive call; in a scene with that single light `RayTrace` returns exactly this
ambient term. -/
theorem RayTrace_occluder_within_one (rt : Runtime K) (ray : Ray K) (scene : Scene K)
    (camera : Camera K) (maxDepth : Int) (obj : SceneObject K) (light : Light K)
    (hobj : (Raycast rt ray scene).obj = some obj)
    (hw : light.position.w = 1)
    (hocc : ∃ o ∈ scene.objects,
      0 < (o.Intersect rt
        ⟨(Raycast rt ray scene).intersectionPoint
            + ((1 : K) / 100) • (Raycast rt ray scene).intersectionNormal,
         normalize rt (light.position.xyz
           - ((Raycast rt ray scene).intersectionPoint
              + ((1 : K) / 100) • (Raycast rt ray scene).intersectionNormal))⟩ 0 0).ret ∧
      (o.Intersect rt
        ⟨(Raycast rt ray scene).intersectionPoint
            + ((1 : K) / 100) • (Raycast rt ray scene).intersectionNormal,
         normalize rt (light.position.xyz
           - ((Raycast rt ray scene).intersectionPoint
              + ((1 : K) / 100) • (Raycast rt ray scene).intersectionNormal))⟩ 0 0).ret < 1) :
    (∀ (recur : Ray K → Int → Option (Vec3 K)) (st : ShadeState K),
      (RayTrace.body rt scene camera maxDepth (Raycast rt ray scene) recur st light).map
          (fun st1 => (st1.colorTemp, st1.colorCombinedTemp))
        = some
          ((1 / (light.constant
              + light.linear
                * length rt (light.position.xyz - (Raycast rt ray scene).intersectionPoint)
              + light.quadratic
                * rt.pow (length rt
                    (light.position.xyz - (Raycast rt ray scene).intersectionPoint)) 2))
            • (light.ambient * obj.material.ambient),
           st.colorCombinedTemp
            + (1 / (light.constant
              + light.linear
                * length rt (light.position.xyz - (Raycast rt ray scene).intersectionPoint)
              + light.quadratic
                * rt.pow (length rt
                    (light.position.xyz - (Raycast rt ray scene).intersectionPoint)) 2))
            • (light.ambient * obj.material.ambient))) ∧
    (scene.lights = [light] →
      RayTrace rt ray scene camera maxDepth
        = (1 / (light.constant
              + light.linear
                * length rt (light.position.xyz - (Raycast rt ray scene).intersectionPoint)
              + light.quadratic
                * rt.pow (length rt
                    (light.position.xyz - (Raycast rt ray scene).intersectionPoint)) 2))
            • (light.ambient * obj.material.ambient)) := by
  have hw0 : ¬ light.position.w = 0 := by rw [hw]; exact one_ne_zero
  have hs : RayTrace.isShadow rt scene (Raycast rt ray scene) light = true := by
    rw [RayTrace.isShadow_iff rt scene _ light (Or.inr hw)]
    simp only [if_neg hw0]
    exact hocc
  have hzero : ∀ a v : Vec3 K, a + (0 : K) • v = a := by
    intro a v
    ext <;> simp
  constructor
  · intro recur st
    rw [RayTrace.body_shadowed rt scene camera maxDepth _ recur st light obj hobj hs]
    simp only [Option.map_some', sub_self, hzero,
      RayTrace.phong_ambient_point rt camera _ obj.material light hw]
  · intro hl
    rw [RayTrace_of_hit rt ray scene camera maxDepth obj hobj, hl]
    simp only [RayTrace.localSum, RayTrace.shadowVal, hs, if_true, sub_self, hzero,
      RayTrace.phong_ambient_point rt camera _ obj.material light hw]
    have hk : RayTrace.unshadowed rt scene (Raycast rt ray scene) [light] = 0 := by
      simp [RayTrace.unshadowed, hs]
    rw [hk]
    ext <;> simp <;> split_ifs <;> simp

/-- On a hit, the normal that `Sphere::Intersect` outputs is the normalised intersection
point itself; the centre of the sphere is not subtracted. -/
theorem Sphere.Intersect_normal_is_point (rt : Runtime K) (s : Sphere K) (ray : Ray K)
    (p0 n0 : Vec3 K) (hpos : 0 < (s.Intersect rt ray p0 n0).ret) :
    (s.Intersect rt ray p0 n0).outIntersectionNormal
      = normalize rt (s.Intersect rt ray p0 n0).outIntersectionPoint := by
  rw [Sphere.Intersect_unfold] at hpos ⊢
  split_ifs at hpos ⊢ with h
  · simp only at hpos
    linarith
  · rfl

/-- C20, evaluated on the unit sphere centred at `(0, 0, 5)` and the ray from the origin
along `(0, 0, 1)`: the hit is at distance 4, at the point `(0, 0, 4)`; the normal of the
sphere there is `(point - center) / |point - center| = (0, 0, -1)`, facing the ray, but
`Sphere::Intersect` outputs `normalize(point) = (0, 0, 1)`. -/
theorem Sphere.Intersect_normal_off_center :
    (Sphere.Intersect (⟨Real.sqrt, Real.rpow, 0, 0⟩ : Runtime ℝ)
        ⟨⟨0, 0, 0, 0⟩, ⟨0, 0, 5⟩, 1⟩ ⟨⟨0, 0, 0⟩, ⟨0, 0, 1⟩⟩ 0 0).ret = 4 ∧
    (Sphere.Intersect (⟨Real.sqrt, Real.rpow, 0, 0⟩ : Runtime ℝ)
        ⟨⟨0, 0, 0, 0⟩, ⟨0, 0, 5⟩, 1⟩ ⟨⟨0, 0, 0⟩, ⟨0, 0, 1⟩⟩ 0 0).outIntersectionPoint
      = ⟨0, 0, 4⟩ ∧
    normalize (⟨Real.sqrt, Real.rpow, 0, 0⟩ : Runtime ℝ)
        ((⟨0, 0, 4⟩ : Vec3 ℝ) - ⟨0, 0, 5⟩) = ⟨0, 0, -1⟩ ∧
    (Sphere.Intersect (⟨Real.sqrt, Real.rpow, 0, 0⟩ : Runtime ℝ)
        ⟨⟨0, 0, 0, 0⟩, ⟨0, 0, 5⟩, 1⟩ ⟨⟨0, 0, 0⟩, ⟨0, 0, 1⟩⟩ 0 0).outIntersectionNormal
      = ⟨0, 0, 1⟩ := by
  have hsq := real_sqrtExact Real.rpow 0 0
  have hret : (Sphere.Intersect (⟨Real.sqrt, Real.rpow, 0, 0⟩ : Runtime ℝ)
      ⟨⟨0, 0, 0, 0⟩, ⟨0, 0, 5⟩, 1⟩ ⟨⟨0, 0, 0⟩, ⟨0, 0, 1⟩⟩ 0 0).ret = 4 := by
    simp only [Sphere.Intersect_unfold, Sphere.b, Sphere.c, Sphere.chooseT, dot, Vec3.sub_x,
      Vec3.sub_y, Vec3.sub_z]
    norm_num
  have hpt : (Sphere.Intersect (⟨Real.sqrt, Real.rpow, 0, 0⟩ : Runtime ℝ)
      ⟨⟨0, 0, 0, 0⟩, ⟨0, 0, 5⟩, 1⟩ ⟨⟨0, 0, 0⟩, ⟨0, 0, 1⟩⟩ 0 0).outIntersectionPoint
      = ⟨0, 0, 4⟩ := by
    have h2 := hret
    simp only [Sphere.Intersect_unfold] at h2 ⊢
    split_ifs at h2 ⊢ with h
    · norm_num at h2
    · simp only at h2 ⊢
      rw [h2]
      ext <;> norm_num
  refine ⟨hret, hpt, ?_, ?_⟩
  · have h1 : (⟨0, 0, 4⟩ : Vec3 ℝ) - ⟨0, 0, 5⟩ = ⟨0, 0, -1⟩ := by
      ext <;> norm_num
    rw [h1]
    unfold normalize
    ext <;> simp [dot]
  · rw [Sphere.Intersect_normal_is_point _ _ _ _ _ (by rw [hret]; norm_num), hpt]
    exact normalize_axis hsq 4 (by norm_num)

end ShadingTheorems

section ShadingWitnesses

/-- Witness of C12 over the reals: the example scene with `maxDepth = 2`, run with three
activations. -/
theorem RayTrace_terminates_witness :
    RayTraceFuel (⟨Real.sqrt, Real.rpow, 0, 0⟩ : Runtime ℝ) ((max (2 : Int) 0).toNat + 1 + 0)
        ShadowExample.ray ShadowExample.scene ShadowExample.camera 2
      = some (RayTrace (⟨Real.sqrt, Real.rpow, 0, 0⟩ : Runtime ℝ) ShadowExample.ray
          ShadowExample.scene ShadowExample.camera 2) :=
  (RayTrace_terminates _ _ _ _ 2 0).1

/-- An instance over the reals of the shadow test within its range: in the scene with the
near occluder the shadow ray of the side light meets the occluder at distance `1/2`, and
`RayTrace` returns the ambient term alone. -/
theorem RayTrace_occluder_within_one_example :
    (Raycast (⟨Real.sqrt, Real.rpow, 0, 0⟩ : Runtime ℝ) ShadowExample.ray ShadowExample.nearScene).obj = some (.sphere ShadowExample.surface) ∧
    (ShadowExample.sideLight : Light ℝ).position.w = 1 ∧
    (∃ o ∈ (ShadowExample.nearScene : Scene ℝ).objects,
      0 < (o.Intersect (⟨Real.sqrt, Real.rpow, 0, 0⟩ : Runtime ℝ)
        ⟨(Raycast (⟨Real.sqrt, Real.rpow, 0, 0⟩ : Runtime ℝ) ShadowExample.ray ShadowExample.nearScene).intersectionPoint
            + ((1 : ℝ) / 100) • (Raycast (⟨Real.sqrt, Real.rpow, 0, 0⟩ : Runtime ℝ) ShadowExample.ray ShadowExample.nearScene).intersectionNormal,
         normalize (⟨Real.sqrt, Real.rpow, 0, 0⟩ : Runtime ℝ) ((ShadowExample.sideLight : Light ℝ).position.xyz
           - ((Raycast (⟨Real.sqrt, Real.rpow, 0, 0⟩ : Runtime ℝ) ShadowExample.ray ShadowExample.nearScene).intersectionPoint
              + ((1 : ℝ) / 100) • (Raycast (⟨Real.sqrt, Real.rpow, 0, 0⟩ : Runtime ℝ) ShadowExample.ray ShadowExample.nearScene).intersectionNormal))⟩ 0 0).ret ∧
      (o.Intersect (⟨Real.sqrt, Real.rpow, 0, 0⟩ : Runtime ℝ)
        ⟨(Raycast (⟨Real.sqrt, Real.rpow, 0, 0⟩ : Runtime ℝ) ShadowExample.ray ShadowExample.nearScene).intersectionPoint
            + ((1 : ℝ) / 100) • (Raycast (⟨Real.sqrt, Real.rpow, 0, 0⟩ : Runtime ℝ) ShadowExample.ray ShadowExample.nearScene).intersectionNormal,
         normalize (⟨Real.sqrt, Real.rpow, 0, 0⟩ : Runtime ℝ) ((ShadowExample.sideLight : Light ℝ).position.xyz
           - ((Raycast (⟨Real.sqrt, Real.rpow, 0, 0⟩ : Runtime ℝ) ShadowExample.ray ShadowExample.nearScene).intersectionPoint
              + ((1 : ℝ) / 100) • (Raycast (⟨Real.sqrt, Real.rpow, 0, 0⟩ : Runtime ℝ) ShadowExample.ray ShadowExample.nearScene).intersectionNormal))⟩ 0 0).ret < 1) ∧
    RayTrace (⟨Real.sqrt, Real.rpow, 0, 0⟩ : Runtime ℝ) ShadowExample.ray ShadowExample.nearScene ShadowExample.camera 1
      = (1 / ((ShadowExample.sideLight : Light ℝ).constant
            + (ShadowExample.sideLight : Light ℝ).linear
              * length (⟨Real.sqrt, Real.rpow, 0, 0⟩ : Runtime ℝ) ((ShadowExample.sideLight : Light ℝ).position.xyz
                  - (Raycast (⟨Real.sqrt, Real.rpow, 0, 0⟩ : Runtime ℝ) ShadowExample.ray ShadowExample.nearScene).intersectionPoint)
            + (ShadowExample.sideLight : Light ℝ).quadratic
              * Real.rpow (length (⟨Real.sqrt, Real.rpow, 0, 0⟩ : Runtime ℝ) ((ShadowExample.sideLight : Light ℝ).position.xyz
                  - (Raycast (⟨Real.sqrt, Real.rpow, 0, 0⟩ : Runtime ℝ) ShadowExample.ray ShadowExample.nearScene).intersectionPoint)) 2))
          • ((ShadowExample.sideLight : Light ℝ).ambient
            * (SceneObject.sphere (ShadowExample.surface : Sphere ℝ)).material.ambient) := by
  have hsq := real_sqrtExact Real.rpow 0 0
  have hobj : (Raycast (⟨Real.sqrt, Real.rpow, 0, 0⟩ : Runtime ℝ) ShadowExample.ray ShadowExample.nearScene).obj = some (.sphere ShadowExample.surface) := by
    rw [ShadowExample.near_raycast_value]
  have hocc : ∃ o ∈ (ShadowExample.nearScene : Scene ℝ).objects,
      0 < (o.Intersect (⟨Real.sqrt, Real.rpow, 0, 0⟩ : Runtime ℝ)
        ⟨(Raycast (⟨Real.sqrt, Real.rpow, 0, 0⟩ : Runtime ℝ) ShadowExample.ray ShadowExample.nearScene).intersectionPoint
            + ((1 : ℝ) / 100) • (Raycast (⟨Real.sqrt, Real.rpow, 0, 0⟩ : Runtime ℝ) ShadowExample.ray ShadowExample.nearScene).intersectionNormal,
         normalize (⟨Real.sqrt, Real.rpow, 0, 0⟩ : Runtime ℝ) ((ShadowExample.sideLight : Light ℝ).position.xyz
           - ((Raycast (⟨Real.sqrt, Real.rpow, 0, 0⟩ : Runtime ℝ) ShadowExample.ray ShadowExample.nearScene).intersectionPoint
              + ((1 : ℝ) / 100) • (Raycast (⟨Real.sqrt, Real.rpow, 0, 0⟩ : Runtime ℝ) ShadowExample.ray ShadowExample.nearScene).intersectionNormal))⟩ 0 0).ret ∧
      (o.Intersect (⟨Real.sqrt, Real.rpow, 0, 0⟩ : Runtime ℝ)
        ⟨(Raycast (⟨Real.sqrt, Real.rpow, 0, 0⟩ : Runtime ℝ) ShadowExample.ray ShadowExample.nearScene).intersectionPoint
            + ((1 : ℝ) / 100) • (Raycast (⟨Real.sqrt, Real.rpow, 0, 0⟩ : Runtime ℝ) ShadowExample.ray ShadowExample.nearScene).intersectionNormal,
         normalize (⟨Real.sqrt, Real.rpow, 0, 0⟩ : Runtime ℝ) ((ShadowExample.sideLight : Light ℝ).position.xyz
           - ((Raycast (⟨Real.sqrt, Real.rpow, 0, 0⟩ : Runtime ℝ) ShadowExample.ray ShadowExample.nearScene).intersectionPoint
              + ((1 : ℝ) / 100) • (Raycast (⟨Real.sqrt, Real.rpow, 0, 0⟩ : Runtime ℝ) ShadowExample.ray ShadowExample.nearScene).intersectionNormal))⟩ 0 0).ret < 1 := by
    have horigin : (⟨0, 0, 1⟩ : Vec3 ℝ) + ((1 : ℝ) / 100) • ⟨0, 0, 1⟩ = ⟨0, 0, 101 / 100⟩ := by
      ext <;> norm_num
    have hdir : normalize (⟨Real.sqrt, Real.rpow, 0, 0⟩ : Runtime ℝ)
        ((ShadowExample.sideLight : Light ℝ).position.xyz - ⟨0, 0, 101 / 100⟩) = ⟨1, 0, 0⟩ := by
      have : (ShadowExample.sideLight : Light ℝ).position.xyz - ⟨0, 0, 101 / 100⟩
          = (⟨11, 0, 0⟩ : Vec3 ℝ) := by
        ext <;> norm_num [ShadowExample.sideLight, Vec4.xyz]
      rw [this]
      exact normalize_axis_x hsq _ (by norm_num)
    rw [ShadowExample.near_raycast_value]
    simp only [horigin, hdir]
    refine ⟨.sphere ShadowExample.nearOccluder, ?_, ?_, ?_⟩
    · simp [ShadowExample.nearScene]
    · rw [ShadowExample.shadow_nearOccluder_ret]; norm_num
    · rw [ShadowExample.shadow_nearOccluder_ret]; norm_num
  exact ⟨hobj, rfl, hocc,
    (RayTrace_occluder_within_one _ ShadowExample.ray ShadowExample.nearScene
      ShadowExample.camera 1 _ ShadowExample.sideLight hobj rfl hocc).2 rfl⟩

/-- In the scene with the near occluder the side light is treated as shadowed: its shadow
ray meets the occluder at distance `1/2`. -/
theorem ShadowExample.near_shadowed :
    RayTrace.isShadow (⟨Real.sqrt, Real.rpow, 0, 0⟩ : Runtime ℝ) ShadowExample.nearScene
      (Raycast (⟨Real.sqrt, Real.rpow, 0, 0⟩ : Runtime ℝ) ShadowExample.ray
        ShadowExample.nearScene)
      ShadowExample.sideLight = true := by
  have hsq := real_sqrtExact Real.rpow 0 0
  have horigin : (⟨0, 0, 1⟩ : Vec3 ℝ) + ((1 : ℝ) / 100) • ⟨0, 0, 1⟩ = ⟨0, 0, 101 / 100⟩ := by
    ext <;> norm_num
  have hdir : normalize (⟨Real.sqrt, Real.rpow, 0, 0⟩ : Runtime ℝ)
      ((ShadowExample.sideLight : Light ℝ).position.xyz - ⟨0, 0, 101 / 100⟩) = ⟨1, 0, 0⟩ := by
    have : (ShadowExample.sideLight : Light ℝ).position.xyz - ⟨0, 0, 101 / 100⟩
        = (⟨11, 0, 0⟩ : Vec3 ℝ) := by
      ext <;> norm_num [ShadowExample.sideLight, Vec4.xyz]
    rw [this]
    exact normalize_axis_x hsq _ (by norm_num)
  have hw0 : ¬ (ShadowExample.sideLight : Light ℝ).position.w = 0 := by
    show ¬ (1 : ℝ) = 0
    exact one_ne_zero
  rw [RayTrace.isShadow_iff _ _ _ _ (Or.inr rfl), ShadowExample.near_raycast_value]
  simp only [horigin, if_neg hw0, hdir]
  refine ⟨.sphere ShadowExample.nearOccluder, ?_, ?_, ?_⟩
  · simp [ShadowExample.nearScene]
  · rw [ShadowExample.shadow_nearOccluder_ret]; norm_num
  · rw [ShadowExample.shadow_nearOccluder_ret]; norm_num

/-- Witness of C13 over the reals: in the scene with the near occluder and `maxDepth = 1`
the side light is shadowed (an object is met by its shadow ray at a distance between 0 and
1) and `RayTrace` returns the ambient term of that light alone, without the reflection
term. -/
theorem RayTrace_shadowed_light_witness :
    (∃ o ∈ (ShadowExample.nearScene : Scene ℝ).objects,
      0 < (o.Intersect (⟨Real.sqrt, Real.rpow, 0, 0⟩ : Runtime ℝ)
        ⟨(⟨0, 0, 1⟩ : Vec3 ℝ) + ((1 : ℝ) / 100) • ⟨0, 0, 1⟩,
         normalize (⟨Real.sqrt, Real.rpow, 0, 0⟩ : Runtime ℝ)
           ((ShadowExample.sideLight : Light ℝ).position.xyz
             - ((⟨0, 0, 1⟩ : Vec3 ℝ) + ((1 : ℝ) / 100) • ⟨0, 0, 1⟩))⟩ 0 0).ret ∧
      (o.Intersect (⟨Real.sqrt, Real.rpow, 0, 0⟩ : Runtime ℝ)
        ⟨(⟨0, 0, 1⟩ : Vec3 ℝ) + ((1 : ℝ) / 100) • ⟨0, 0, 1⟩,
         normalize (⟨Real.sqrt, Real.rpow, 0, 0⟩ : Runtime ℝ)
           ((ShadowExample.sideLight : Light ℝ).position.xyz
             - ((⟨0, 0, 1⟩ : Vec3 ℝ) + ((1 : ℝ) / 100) • ⟨0, 0, 1⟩))⟩ 0 0).ret < 1) ∧
    RayTrace (⟨Real.sqrt, Real.rpow, 0, 0⟩ : Runtime ℝ) ShadowExample.ray ShadowExample.nearScene
        ShadowExample.camera 1
      = (RayTrace.phong (⟨Real.sqrt, Real.rpow, 0, 0⟩ : Runtime ℝ) ShadowExample.camera
          (Raycast (⟨Real.sqrt, Real.rpow, 0, 0⟩ : Runtime ℝ) ShadowExample.ray
            ShadowExample.nearScene)
          (SceneObject.sphere (ShadowExample.surface : Sphere ℝ)).material
          ShadowExample.sideLight ⟨0, 0, 0, 0, 0, 0⟩).ambient := by
  have hobj : (Raycast (⟨Real.sqrt, Real.rpow, 0, 0⟩ : Runtime ℝ) ShadowExample.ray
      ShadowExample.nearScene).obj = some (.sphere ShadowExample.surface) := by
    rw [ShadowExample.near_raycast_value]
  have hw : ∀ light ∈ (ShadowExample.nearScene : Scene ℝ).lights,
      light.position.w = 0 ∨ light.position.w = 1 := by
    intro light hl
    simp only [ShadowExample.nearScene, List.mem_singleton] at hl
    subst hl
    exact Or.inr rfl
  have hw0 : ¬ (ShadowExample.sideLight : Light ℝ).position.w = 0 := by
    show ¬ (1 : ℝ) = 0
    exact one_ne_zero
  have h := RayTrace_shadowed_light (⟨Real.sqrt, Real.rpow, 0, 0⟩ : Runtime ℝ)
    ShadowExample.ray ShadowExample.nearScene ShadowExample.camera 1
    (.sphere ShadowExample.surface) hobj hw
  constructor
  · have h1 := (h.1 ShadowExample.sideLight (by simp [ShadowExample.nearScene])).mp
      ShadowExample.near_shadowed
    rw [ShadowExample.near_raycast_value] at h1
    simp only [if_neg hw0] at h1
    exact h1
  · rw [h.2]
    have hl : (ShadowExample.nearScene : Scene ℝ).lights = [ShadowExample.sideLight] := rfl
    rw [hl]
    simp only [List.map_cons, List.map_nil, List.filter_cons, List.filter_nil,
      ShadowExample.near_shadowed, if_true, Bool.not_true, Bool.false_eq_true, if_false,
      List.length_nil, Nat.cast_zero, sumVec]
    ext <;> simp

/-- Witness of C15 over the reals: the example scene with `maxDepth = 1`. -/
theorem RayTrace_reflection_per_light_witness :
    (Raycast (⟨Real.sqrt, Real.rpow, 0, 0⟩ : Runtime ℝ) ShadowExample.ray ShadowExample.scene).obj
        = some (.sphere ShadowExample.surface) ∧
    (1 : Int) > 0 ∧
    (∀ light ∈ (ShadowExample.scene : Scene ℝ).lights,
      light.position.w = 0 ∨ light.position.w = 1) ∧
    RayTrace (⟨Real.sqrt, Real.rpow, 0, 0⟩ : Runtime ℝ) ShadowExample.ray ShadowExample.scene ShadowExample.camera 1
      = sumVec ((ShadowExample.scene : Scene ℝ).lights.map
            (RayTrace.lightTerm (⟨Real.sqrt, Real.rpow, 0, 0⟩ : Runtime ℝ) ShadowExample.scene ShadowExample.camera
              (Raycast (⟨Real.sqrt, Real.rpow, 0, 0⟩ : Runtime ℝ) ShadowExample.ray ShadowExample.scene)
              (SceneObject.sphere (ShadowExample.surface : Sphere ℝ)).material))
        + (((ShadowExample.scene : Scene ℝ).lights.filter
              fun light => !RayTrace.isShadow (⟨Real.sqrt, Real.rpow, 0, 0⟩ : Runtime ℝ) ShadowExample.scene
                (Raycast (⟨Real.sqrt, Real.rpow, 0, 0⟩ : Runtime ℝ) ShadowExample.ray ShadowExample.scene) light).length : ℝ)
          • (((SceneObject.sphere (ShadowExample.surface : Sphere ℝ)).material.shininess / 128)
            • RayTrace (⟨Real.sqrt, Real.rpow, 0, 0⟩ : Runtime ℝ)
                ⟨(Raycast (⟨Real.sqrt, Real.rpow, 0, 0⟩ : Runtime ℝ) ShadowExample.ray ShadowExample.scene).intersectionPoint
                    + ((1 : ℝ) / 1000)
                      • (Raycast (⟨Real.sqrt, Real.rpow, 0, 0⟩ : Runtime ℝ) ShadowExample.ray ShadowExample.scene).intersectionNormal,
                 reflect (ShadowExample.ray : Ray ℝ).direction
                  (Raycast (⟨Real.sqrt, Real.rpow, 0, 0⟩ : Runtime ℝ) ShadowExample.ray ShadowExample.scene).intersectionNormal⟩
                ShadowExample.scene ShadowExample.camera (1 - 1)) := by
  have hobj : (Raycast (⟨Real.sqrt, Real.rpow, 0, 0⟩ : Runtime ℝ) ShadowExample.ray ShadowExample.scene).obj
      = some (.sphere ShadowExample.surface) := by
    rw [ShadowExample.raycast_value]
  have hw : ∀ light ∈ (ShadowExample.scene : Scene ℝ).lights,
      light.position.w = 0 ∨ light.position.w = 1 := by
    intro light hl
    simp only [ShadowExample.scene, List.mem_singleton] at hl
    rw [hl]
    exact Or.inr rfl
  exact ⟨hobj, by decide, hw,
    RayTrace_reflection_per_light _ _ _ ShadowExample.camera 1 _ hobj (by decide) hw⟩

/-- Witness of C17 over the reals: the two lights of the examples, one list each. -/
theorem RayTrace_lights_append_witness :
    (∀ light ∈ [(ShadowExample.sideLight : Light ℝ)],
      light.position.w = 0 ∨ light.position.w = 1) ∧
    RayTrace (⟨Real.sqrt, Real.rpow, 0, 0⟩ : Runtime ℝ) ShadowExample.ray
        ⟨(ShadowExample.scene : Scene ℝ).objects,
          [ShadowExample.light] ++ [ShadowExample.sideLight]⟩ ShadowExample.camera 0
      = RayTrace (⟨Real.sqrt, Real.rpow, 0, 0⟩ : Runtime ℝ) ShadowExample.ray
          ⟨(ShadowExample.scene : Scene ℝ).objects, [ShadowExample.light]⟩ ShadowExample.camera 0
        + RayTrace (⟨Real.sqrt, Real.rpow, 0, 0⟩ : Runtime ℝ) ShadowExample.ray
          ⟨(ShadowExample.scene : Scene ℝ).objects, [ShadowExample.sideLight]⟩
          ShadowExample.camera 0 := by
  have hw : ∀ light ∈ [(ShadowExample.sideLight : Light ℝ)],
      light.position.w = 0 ∨ light.position.w = 1 := by
    intro light hl
    rw [List.mem_singleton.mp hl]
    exact Or.inr rfl
  exact ⟨hw, RayTrace_lights_append _ _ _ _ _ _ hw⟩

end ShadingWitnesses

/-! ## Image and render loop -/

section RenderingBasics

variable {K : Type} [LinearOrderedField K]

/-- The clamped colour scaled by 255 lies between 0 and 255. -/
theorem clamp_scaled_bounds (c : K) : 0 ≤ clamp c 0 1 * 255 ∧ clamp c 0 1 * 255 ≤ 255 := by
  have h0 : 0 ≤ clamp c 0 1 := le_min (le_max_right c 0) zero_le_one
  have h1 : clamp c 0 1 ≤ 1 := min_le_right _ _
  constructor
  · exact mul_nonneg h0 (by norm_num)
  · linarith

/-- Reading back the three bytes that three consecutive stores have written. -/
theorem Image.store_three (data : List Nat) (index : Int) (a b c : Nat) (h0 : 0 ≤ index)
    (h2 : index + 2 < data.length) :
    (Image.store (Image.store (Image.store data index a) (index + 1) b) (index + 2) c)[index.toNat]?
        = some a ∧
      (Image.store (Image.store (Image.store data index a) (index + 1) b) (index + 2) c)[(index + 1).toNat]?
        = some b ∧
      (Image.store (Image.store (Image.store data index a) (index + 1) b) (index + 2) c)[(index + 2).toNat]?
        = some c := by
  have e1 : (index + 1).toNat = index.toNat + 1 := by omega
  have e2 : (index + 2).toNat = index.toNat + 2 := by omega
  have hlen : index.toNat + 2 < data.length := by omega
  unfold Image.store
  rw [if_pos h0, if_pos (by omega), if_pos (by omega), e1, e2]
  refine ⟨?_, ?_, ?_⟩
  · rw [List.getElem?_set_ne (by omega), List.getElem?_set_ne (by omega),
      List.getElem?_set_self (by omega)]
  · rw [List.getElem?_set_ne (by omega),
      List.getElem?_set_self (by rw [List.length_set]; omega)]
  · rw [List.getElem?_set_self (by rw [List.length_set, List.length_set]; omega)]

end RenderingBasics

section RenderingTheorems

variable {K : Type} [LinearOrderedField K] [FloorRing K]

/-- The method `Image::ToChar` without the reduction to 8 bits, which never applies. -/
theorem Image.ToChar_eq_floor (c : K) : Image.ToChar c = ⌊clamp c 0 1 * 255⌋₊ := by
  obtain ⟨_, h1⟩ := clamp_scaled_bounds c
  have hle : ⌊clamp c 0 1 * 255⌋₊ ≤ 255 := by
    have := Nat.floor_mono h1
    rwa [show ((255 : K)) = ((255 : ℕ) : K) by norm_num, Nat.floor_natCast] at this
  unfold Image.ToChar toUnsignedChar
  exact Nat.mod_eq_of_lt (by omega)

/-- C18: `Image::ToChar(c)` is `floor(clamp(c, 0, 1) * 255)`; it lies in `[0, 255]`, is `0`
for every `c ≤ 0`, is `255` exactly for the `c ≥ 1`, and is non-decreasing in `c`. -/
theorem Image.ToChar_spec (c : K) :
    ((Image.ToChar c : Nat) : Int) = ⌊clamp c 0 1 * 255⌋ ∧
      Image.ToChar c ≤ 255 ∧
      (c ≤ 0 → Image.ToChar c = 0) ∧
      (Image.ToChar c = 255 ↔ 1 ≤ c) ∧
      ∀ c2 : K, c ≤ c2 → Image.ToChar c ≤ Image.ToChar c2 := by
  obtain ⟨h0, h1⟩ := clamp_scaled_bounds c
  have h255 : ((255 : ℕ) : K) = 255 := by norm_num
  refine ⟨?_, ?_, ?_, ?_, ?_⟩
  · rw [Image.ToChar_eq_floor]
    exact Int.natCast_floor_eq_floor h0
  · rw [Image.ToChar_eq_floor]
    have := Nat.floor_mono h1
    rwa [← h255, Nat.floor_natCast] at this
  · intro hc
    rw [Image.ToChar_eq_floor]
    have : clamp c 0 1 = 0 := by
      unfold clamp
      rw [max_eq_right hc, min_eq_left zero_le_one]
    rw [this, zero_mul, Nat.floor_zero]
  · rw [Image.ToChar_eq_floor, Nat.floor_eq_iff h0, h255]
    constructor
    · rintro ⟨h, _⟩
      have hc1 : 1 ≤ clamp c 0 1 := by linarith
      unfold clamp at hc1
      have := le_trans hc1 (min_le_left _ _)
      rcases le_max_iff.mp this with h2 | h2
      · exact h2
      · exact absurd h2 (by norm_num)
    · intro hc
      have : clamp c 0 1 = 1 := by
        unfold clamp
        rw [min_eq_right (le_trans hc (le_max_left c 0))]
      rw [this]
      constructor <;> norm_num
  · intro c2 hcc
    rw [Image.ToChar_eq_floor, Image.ToChar_eq_floor]
    apply Nat.floor_mono
    have : clamp c 0 1 ≤ clamp c2 0 1 := by
      unfold clamp
      exact min_le_min (max_le_max hcc (le_refl 0)) (le_refl 1)
    linarith

/-- The byte written for a zero colour component. -/
theorem Image.ToChar_zero : Image.ToChar (0 : K) = 0 := by
  rw [Image.ToChar_eq_floor]
  have : clamp (0 : K) 0 1 = 0 := by
    unfold clamp
    rw [max_self, min_eq_left zero_le_one]
  rw [this, zero_mul, Nat.floor_zero]

/-- C19: for a pixel whose primary ray misses every scene object, the iteration of the
render loop (`RayTrace`, then `Image::SetColor`) stores the colour `(0, 0, 0)`: each of the
three bytes it writes is `ToChar(0) = 0`, and for a pixel inside the buffer the bytes at
indices `(y * width + x) * 3 .. + 2` are `0` afterwards, whatever the lights and
`maxDepth`. -/
theorem renderPixel_miss_black (rt : Runtime K) (tan : K → K) (M_PI : K) (scene : Scene K)
    (camera : Camera K) (maxDepth : Int) (image : Image) (x y : Int)
    (hmiss : (Raycast rt (GetRayThruPixel rt tan M_PI camera x (image.height - y - 1))
      scene).obj = none) :
    renderPixel rt tan M_PI scene camera maxDepth image x y
        = image.SetColor x y (⟨0, 0, 0⟩ : Vec3 K) ∧
      Image.ToChar (0 : K) = 0 ∧
      (0 ≤ (y * image.width + x) * 3 → (y * image.width + x) * 3 + 2 < image.data.length →
        (renderPixel rt tan M_PI scene camera maxDepth image x y).data[
            ((y * image.width + x) * 3).toNat]? = some 0 ∧
          (renderPixel rt tan M_PI scene camera maxDepth image x y).data[
            ((y * image.width + x) * 3 + 1).toNat]? = some 0 ∧
          (renderPixel rt tan M_PI scene camera maxDepth image x y).data[
            ((y * image.width + x) * 3 + 2).toNat]? = some 0) := by
  have hr : renderPixel rt tan M_PI scene camera maxDepth image x y
      = image.SetColor x y (⟨0, 0, 0⟩ : Vec3 K) := by
    unfold renderPixel
    simp only
    rw [RayTrace_of_miss rt _ scene camera maxDepth hmiss]
    rfl
  refine ⟨hr, Image.ToChar_zero, ?_⟩
  intro h0 h2
  rw [hr]
  unfold Image.SetColor
  simp only [Image.ToChar_zero]
  exact Image.store_three image.data _ 0 0 0 h0 h2

end RenderingTheorems

section RenderingWitnesses

/-- Witness of C19 over the reals: a scene without objects, one light, `maxDepth = 3`, and
the pixel `(1, 2)` of a 4 x 4 image. -/
theorem renderPixel_miss_black_witness :
    (Raycast (⟨Real.sqrt, Real.rpow, 0, 0⟩ : Runtime ℝ)
      (GetRayThruPixel (⟨Real.sqrt, Real.rpow, 0, 0⟩ : Runtime ℝ) Real.tan Real.pi ShadowExample.camera 1
        ((Image.create 4 4).height - 2 - 1))
      ⟨[], [ShadowExample.light]⟩).obj = none ∧
    renderPixel (⟨Real.sqrt, Real.rpow, 0, 0⟩ : Runtime ℝ) Real.tan Real.pi ⟨[], [ShadowExample.light]⟩ ShadowExample.camera 3
        (Image.create 4 4) 1 2
      = (Image.create 4 4).SetColor 1 2 (⟨0, 0, 0⟩ : Vec3 ℝ) :=
  ⟨rfl, (renderPixel_miss_black (⟨Real.sqrt, Real.rpow, 0, 0⟩ : Runtime ℝ) Real.tan Real.pi ⟨[], [ShadowExample.light]⟩
    ShadowExample.camera 3 (Image.create 4 4) 1 2 rfl).1⟩

end RenderingWitnesses

/-! ## Misses behind the origin, reflected rays, front faces -/

section GeometryTheorems

variable {K : Type} [LinearOrderedField K]

/-- The record that `Raycast` returns with a non-null `obj` is the one pushed for a scene
object whose `Intersect` returned a value `> 0`. -/
theorem Raycast.eq_hitInfo_of_obj (rt : Runtime K) (ray : Ray K) (scene : Scene K)
    (obj : SceneObject K) (hhit : (Raycast rt ray scene).obj = some obj) :
    obj ∈ scene.objects ∧ 0 < (obj.Intersect rt ray 0 0).ret ∧
      Raycast rt ray scene = Raycast.hitInfo rt ray obj := by
  have hex : ∃ o ∈ scene.objects, 0 < (o.Intersect rt ray 0 0).ret := by
    by_contra hno
    have := Raycast.obj_none_of_no_hit rt ray scene (fun o ho hp => hno ⟨o, ho, hp⟩)
    rw [this] at hhit
    exact Option.noConfusion hhit
  obtain ⟨hmem, _⟩ := Raycast.of_hit rt ray scene hex
  obtain ⟨o, ho, hp, heq⟩ := (Raycast.mem_infoList rt ray scene _).mp hmem
  have hobj : some obj = some o := by
    rw [← hhit, heq]
    rfl
  have ho2 : obj = o := Option.some.inj hobj
  subst ho2
  exact ⟨ho, hp, heq⟩

/-- The value of `chooseT` when the discriminant is positive and both roots are negative:
no branch of the chain assigns `t`. -/
theorem Sphere.chooseT_of_both_neg (rt : Runtime K) (b disc : K) (hd : 0 < disc)
    (h1 : -1 * b + rt.sqrt disc < 0) (h2 : -1 * b - rt.sqrt disc < 0) :
    Sphere.chooseT rt b disc = 0 := by
  unfold Sphere.chooseT
  rw [if_neg (ne_of_gt hd), if_pos hd]
  simp only
  rw [if_neg (fun h => absurd h.1 (not_lt.mpr (le_of_lt h1))),
    if_neg (fun h => absurd h.1 (not_lt.mpr (le_of_lt h1))),
    if_neg (fun h => absurd h.2 (not_lt.mpr (le_of_lt h2)))]

/-- C25: when the discriminant `b * b - c` is positive and both roots `-b + sqrt(...)` and
`-b - sqrt(...)` are negative, `Sphere::Intersect` returns the initial value `0` of `t`
whatever the out-parameters held before, its output point is the ray origin, and `Raycast`
on any scene does not return that sphere. -/
theorem Sphere.Intersect_both_roots_negative (rt : Runtime K) (s : Sphere K) (ray : Ray K)
    (hd : 0 < s.b ray * s.b ray - s.c ray)
    (h1 : -1 * s.b ray + rt.sqrt (s.b ray * s.b ray - s.c ray) < 0)
    (h2 : -1 * s.b ray - rt.sqrt (s.b ray * s.b ray - s.c ray) < 0) :
    (∀ p0 n0 : Vec3 K, (s.Intersect rt ray p0 n0).ret = 0 ∧
      (s.Intersect rt ray p0 n0).outIntersectionPoint = ray.origin) ∧
    ¬ 0 < (s.Intersect rt ray 0 0).ret ∧
    ∀ scene : Scene K, (Raycast rt ray scene).obj ≠ some (SceneObject.sphere s) := by
  have ht := Sphere.chooseT_of_both_neg rt (s.b ray) _ hd h1 h2
  have hret : ∀ p0 n0 : Vec3 K, (s.Intersect rt ray p0 n0).ret = 0 ∧
      (s.Intersect rt ray p0 n0).outIntersectionPoint = ray.origin := by
    intro p0 n0
    rw [Sphere.Intersect_unfold, if_neg (not_lt.mpr (le_of_lt hd)), ht]
    refine ⟨rfl, ?_⟩
    ext <;> simp
  refine ⟨hret, ?_, ?_⟩
  · rw [(hret 0 0).1]
    exact lt_irrefl 0
  · intro scene hobj
    have h := (Raycast.eq_hitInfo_of_obj rt ray scene _ hobj).2.1
    have h0 : (SceneObject.Intersect rt (SceneObject.sphere s) ray 0 0).ret = 0 := (hret 0 0).1
    rw [h0] at h
    exact lt_irrefl 0 h

/-- The vector `glm::reflect(I, N)` has the squared length of `I` when `N` has length one. -/
theorem dot_reflect_self (I N : Vec3 K) (hN : dot N N = 1) :
    dot (reflect I N) (reflect I N) = dot I I := by
  unfold dot at hN
  simp only [reflect, dot, Vec3.sub_x, Vec3.sub_y, Vec3.sub_z, Vec3.smul_x, Vec3.smul_y,
    Vec3.smul_z]
  linear_combination
    (4 * (N.x * I.x + N.y * I.y + N.z * I.z) * (N.x * I.x + N.y * I.y + N.z * I.z)) * hN

/-- A vector with `dot v v = 1` has length one. -/
theorem length_eq_one_of_dot {rt : Runtime K} (hsqrt : rt.SqrtExact) {v : Vec3 K}
    (h : dot v v = 1) : length rt v = 1 := by
  unfold length
  rw [h]
  have := hsqrt.sqrt_mul_self (zero_le_one : (0 : K) ≤ 1)
  rwa [mul_one] at this

/-- With an exact square root, a positive number has a positive root. -/
theorem Runtime.SqrtExact.sqrt_pos {rt : Runtime K} (h : rt.SqrtExact) {x : K}
    (hx : 0 < x) : 0 < rt.sqrt x := by
  have h1 := h.sqrt_nonneg (le_of_lt hx)
  have h2 := h.mul_self_sqrt (le_of_lt hx)
  rcases lt_or_eq_of_le h1 with h3 | h3
  · exact h3
  · rw [← h3] at h2
    rw [mul_zero] at h2
    exact absurd h2 (ne_of_lt hx)

/-- The normal of a hit that `Raycast` returns has length one when the object is a triangle,
and when it is a sphere that is not hit in the origin of the world (the normal of a sphere
is the normalised output point). -/
theorem Raycast.normal_unit (rt : Runtime K) (hsqrt : rt.SqrtExact) (ray : Ray K)
    (scene : Scene K) (obj : SceneObject K) (hhit : (Raycast rt ray scene).obj = some obj)
    (hpoint : (∃ tri, obj = SceneObject.triangle tri) ∨
      (Raycast rt ray scene).intersectionPoint ≠ 0) :
    length rt (Raycast rt ray scene).intersectionNormal = 1 := by
  obtain ⟨_, hp, heq⟩ := Raycast.eq_hitInfo_of_obj rt ray scene obj hhit
  apply length_eq_one_of_dot hsqrt
  rw [heq] at hpoint ⊢
  cases obj with
  | sphere s =>
    have hne : (Raycast.hitInfo rt ray (SceneObject.sphere s)).intersectionPoint ≠ 0 := by
      rcases hpoint with ⟨tri, h⟩ | h
      · exact SceneObject.noConfusion h
      · exact h
    have hp2 : 0 < (s.Intersect rt ray 0 0).ret := hp
    have hne2 : (s.Intersect rt ray 0 0).outIntersectionPoint ≠ 0 := hne
    show dot (s.Intersect rt ray 0 0).outIntersectionNormal
      (s.Intersect rt ray 0 0).outIntersectionNormal = 1
    rw [Sphere.Intersect_unfold] at hp2 hne2 ⊢
    split_ifs at hp2 hne2 ⊢ with hdisc
    · exfalso
      simp only at hp2
      linarith
    · simp only at hne2 ⊢
      exact dot_normalize_self hsqrt _ (hsqrt.sqrt_pos (dot_self_pos hne2))
  | triangle tri =>
    have hp2 : 0 < (tri.Intersect rt ray 0 0).ret := hp
    show dot (tri.Intersect rt ray 0 0).outIntersectionNormal
      (tri.Intersect rt ray 0 0).outIntersectionNormal = 1
    rw [Triangle.Intersect_locals] at hp2 ⊢
    split_ifs at hp2 ⊢ with hf ht hin
    · exfalso
      simp only at hp2
      linarith
    · exfalso
      simp only at hp2
      linarith
    · simp only
      have hn : tri.n ≠ 0 := by
        intro h0
        apply hf
        unfold Triangle.f
        rw [h0]
        simp [dot]
      exact dot_normalize_self hsqrt _ (hsqrt.sqrt_pos (dot_self_pos hn))
    · simp only
      have hn : tri.n ≠ 0 := by
        intro h0
        apply hf
        unfold Triangle.f
        rw [h0]
        simp [dot]
      exact dot_normalize_self hsqrt _ (hsqrt.sqrt_pos (dot_self_pos hn))

/-- Where the directions stay of length one: the direction of the ray that `RayTrace` hands
to its recursive call is `I - 2 (N . I) N` and has length one when the incoming direction
`I` and the hit normal `N` have length one; so below a primary ray of unit direction, as long
as the activations hit an object with a unit normal, the ray of every nested activation has
unit direction. -/
theorem RayTrace_reflection_unit (rt : Runtime K) (hsqrt : rt.SqrtExact) (scene : Scene K)
    (ray : Ray K) (hray : length rt ray.direction = 1) (depth : Nat)
    (hhit : ∀ j < depth, (Raycast rt (RayTrace.rayAt rt scene ray j) scene).obj ≠ none)
    (hnormal : ∀ j < depth,
      length rt (Raycast rt (RayTrace.rayAt rt scene ray j) scene).intersectionNormal = 1) :
    (∀ info : IntersectionInfo K, length rt info.incomingRay.direction = 1 →
      length rt info.intersectionNormal = 1 →
      (RayTrace.reflection info).direction
          = info.incomingRay.direction
            - (2 * dot info.intersectionNormal info.incomingRay.direction)
              • info.intersectionNormal ∧
        length rt (RayTrace.reflection info).direction = 1) ∧
    ∀ i ≤ depth, length rt (RayTrace.rayAt rt scene ray i).direction = 1 := by
  have hstep : ∀ info : IntersectionInfo K, length rt info.incomingRay.direction = 1 →
      length rt info.intersectionNormal = 1 →
      length rt (RayTrace.reflection info).direction = 1 := by
    intro info hI hN
    apply length_eq_one_of_dot hsqrt
    show dot (reflect info.incomingRay.direction info.intersectionNormal)
      (reflect info.incomingRay.direction info.intersectionNormal) = 1
    rw [dot_reflect_self _ _ (dot_self_of_length_eq_one hsqrt hN)]
    exact dot_self_of_length_eq_one hsqrt hI
  refine ⟨fun info hI hN => ⟨?_, hstep info hI hN⟩, ?_⟩
  · show reflect info.incomingRay.direction info.intersectionNormal = _
    unfold reflect
    rw [mul_comm]
  · intro i
    induction i with
    | zero => intro _; exact hray
    | succ i ih =>
      intro hi
      have hi2 : i < depth := hi
      have hprev := ih (le_of_lt hi2)
      show length rt (RayTrace.reflection
        (Raycast rt (RayTrace.rayAt rt scene ray i) scene)).direction = 1
      apply hstep _ _ (hnormal i hi2)
      cases hobj : (Raycast rt (RayTrace.rayAt rt scene ray i) scene).obj with
      | none => exact absurd hobj (hhit i hi2)
      | some obj =>
        rw [Raycast.incomingRay_of_hit rt _ scene obj hobj]
        exact hprev

end GeometryTheorems

section GeometryWitnesses

/-- Witness of C25 over the reals: the unit sphere at `(0, 0, -5)` and the ray from the
origin along `(0, 0, 1)`; `b = 5`, `c = 24`, the roots are `-4` and `-6`. -/
theorem Sphere.Intersect_both_roots_negative_witness :
    (Sphere.Intersect (⟨Real.sqrt, Real.rpow, 0, 0⟩ : Runtime ℝ)
        ⟨⟨0, 0, 0, 0⟩, ⟨0, 0, -5⟩, 1⟩ ⟨⟨0, 0, 0⟩, ⟨0, 0, 1⟩⟩ ⟨7, 7, 7⟩ ⟨7, 7, 7⟩).ret = 0 ∧
    (Sphere.Intersect (⟨Real.sqrt, Real.rpow, 0, 0⟩ : Runtime ℝ)
        ⟨⟨0, 0, 0, 0⟩, ⟨0, 0, -5⟩, 1⟩ ⟨⟨0, 0, 0⟩, ⟨0, 0, 1⟩⟩ ⟨7, 7, 7⟩
        ⟨7, 7, 7⟩).outIntersectionPoint = (⟨0, 0, 0⟩ : Vec3 ℝ) := by
  have hb : Sphere.b (⟨⟨0, 0, 0, 0⟩, ⟨0, 0, -5⟩, 1⟩ : Sphere ℝ) ⟨⟨0, 0, 0⟩, ⟨0, 0, 1⟩⟩ = 5 := by
    simp [Sphere.b, dot]
  have hc : Sphere.c (⟨⟨0, 0, 0, 0⟩, ⟨0, 0, -5⟩, 1⟩ : Sphere ℝ) ⟨⟨0, 0, 0⟩, ⟨0, 0, 1⟩⟩ = 24 := by
    simp [Sphere.c, dot]
    norm_num
  have hdisc : (5 : ℝ) * 5 - 24 = 1 := by norm_num
  exact (Sphere.Intersect_both_roots_negative (⟨Real.sqrt, Real.rpow, 0, 0⟩ : Runtime ℝ)
    ⟨⟨0, 0, 0, 0⟩, ⟨0, 0, -5⟩, 1⟩ ⟨⟨0, 0, 0⟩, ⟨0, 0, 1⟩⟩
    (by rw [hb, hc]; norm_num)
    (by rw [hb, hc, hdisc]; simp only [Real.sqrt_one]; norm_num)
    (by rw [hb, hc, hdisc]; simp only [Real.sqrt_one]; norm_num)).1 ⟨7, 7, 7⟩ ⟨7, 7, 7⟩

/-- An instance over the reals: in the example scene the primary ray `(0, 0, -1)` hits
the first sphere in its north pole, and the ray of the first nested activation has unit
direction. -/
theorem RayTrace_reflection_unit_example :
    length (⟨Real.sqrt, Real.rpow, 0, 0⟩ : Runtime ℝ)
      (RayTrace.rayAt (⟨Real.sqrt, Real.rpow, 0, 0⟩ : Runtime ℝ) ShadowExample.scene
        ShadowExample.ray 1).direction = 1 :=
  (RayTrace_reflection_unit (⟨Real.sqrt, Real.rpow, 0, 0⟩ : Runtime ℝ) (real_sqrtExact _ _ _)
    ShadowExample.scene ShadowExample.ray
    (length_eq_one_of_dot (real_sqrtExact _ _ _) (by simp [dot, ShadowExample.ray])) 1
    (by
      intro j hj
      have h0 : j = 0 := by omega
      subst h0
      show (Raycast _ ShadowExample.ray ShadowExample.scene).obj ≠ none
      rw [ShadowExample.raycast_value]
      exact Option.some_ne_none _)
    (by
      intro j hj
      have h0 : j = 0 := by omega
      subst h0
      show length _ (Raycast _ ShadowExample.ray ShadowExample.scene).intersectionNormal = 1
      rw [ShadowExample.raycast_value]
      exact length_eq_one_of_dot (real_sqrtExact _ _ _) (by simp [dot]))).2 1 (le_refl 1)

end GeometryWitnesses

/-! ## A hit in the origin of the world -/

section WorldOrigin

/-- The primary ray of the example hits the sphere at distance 2. -/
theorem OriginExample.origin_sphere_ret :
    (SceneObject.Intersect (⟨Real.sqrt, Real.rpow, 0, 0⟩ : Runtime ℝ)
      (.sphere OriginExample.sphere) OriginExample.ray 0 0).ret = 2 := by
  simp only [SceneObject.Intersect, Sphere.Intersect_unfold, Sphere.b, Sphere.c, Sphere.chooseT,
    dot, Vec3.sub_x, Vec3.sub_y, Vec3.sub_z, OriginExample.sphere, OriginExample.ray]
  norm_num

/-- The hit that `Raycast` reports in the example: the origin of the world, with the normal
`normalize(point)` of `Sphere::Intersect`. -/
theorem OriginExample.origin_raycast_value :
    Raycast (⟨Real.sqrt, Real.rpow, 0, 0⟩ : Runtime ℝ) OriginExample.ray OriginExample.scene
      = ⟨OriginExample.ray, 2, some (.sphere OriginExample.sphere), ⟨0, 0, 0⟩,
          normalize (⟨Real.sqrt, Real.rpow, 0, 0⟩ : Runtime ℝ) ⟨0, 0, 0⟩⟩ := by
  rw [Raycast.eq_hitInfo_of_unique _ _ _ (.sphere OriginExample.sphere)
    (List.mem_cons_self _ _) (by rw [OriginExample.origin_sphere_ret]; norm_num)
    (by
      intro o2 ho2 _
      simp only [OriginExample.scene, List.mem_singleton] at ho2
      exact ho2)]
  have hpt : (SceneObject.Intersect (⟨Real.sqrt, Real.rpow, 0, 0⟩ : Runtime ℝ)
      (.sphere OriginExample.sphere) OriginExample.ray 0 0).outIntersectionPoint
      = ⟨0, 0, 0⟩ := by
    have h2 := OriginExample.origin_sphere_ret
    simp only [SceneObject.Intersect, Sphere.Intersect_unfold] at h2 ⊢
    split_ifs at h2 ⊢ with h
    · norm_num at h2
    · simp only at h2 ⊢
      rw [h2]
      ext <;> norm_num [OriginExample.ray]
  have hn : (SceneObject.Intersect (⟨Real.sqrt, Real.rpow, 0, 0⟩ : Runtime ℝ)
      (.sphere OriginExample.sphere) OriginExample.ray 0 0).outIntersectionNormal
      = normalize (⟨Real.sqrt, Real.rpow, 0, 0⟩ : Runtime ℝ)
          (SceneObject.Intersect (⟨Real.sqrt, Real.rpow, 0, 0⟩ : Runtime ℝ)
            (.sphere OriginExample.sphere) OriginExample.ray 0 0).outIntersectionPoint := by
    have h2 := OriginExample.origin_sphere_ret
    simp only [SceneObject.Intersect, Sphere.Intersect_unfold] at h2 ⊢
    split_ifs at h2 ⊢ with h
    · norm_num at h2
    · rfl
  unfold Raycast.hitInfo
  rw [hn, hpt, OriginExample.origin_sphere_ret]

/-- With the division of a field, where `1 / 0 = 0`, normalising the zero vector gives the
zero vector. -/
theorem normalize_zero_vec (rt : Runtime ℝ) : normalize rt (⟨0, 0, 0⟩ : Vec3 ℝ) = ⟨0, 0, 0⟩ := by
  unfold normalize
  ext <;> simp

/-- In the example the light is not treated as shadowed. -/
theorem OriginExample.origin_not_shadowed :
    RayTrace.isShadow (⟨Real.sqrt, Real.rpow, 0, 0⟩ : Runtime ℝ) OriginExample.scene
      (Raycast (⟨Real.sqrt, Real.rpow, 0, 0⟩ : Runtime ℝ) OriginExample.ray
        OriginExample.scene)
      ShadowExample.light = false := by
  have hsq := real_sqrtExact Real.rpow 0 0
  have horigin : (⟨0, 0, 0⟩ : Vec3 ℝ) + ((1 : ℝ) / 100) • ⟨0, 0, 0⟩ = ⟨0, 0, 0⟩ := by
    ext <;> norm_num
  have hdir : normalize (⟨Real.sqrt, Real.rpow, 0, 0⟩ : Runtime ℝ)
      ((ShadowExample.light : Light ℝ).position.xyz - ⟨0, 0, 0⟩) = ⟨0, 0, 1⟩ := by
    have : (ShadowExample.light : Light ℝ).position.xyz - ⟨0, 0, 0⟩
        = (⟨0, 0, 11⟩ : Vec3 ℝ) := by
      ext <;> norm_num [ShadowExample.light, Vec4.xyz]
    rw [this]
    exact normalize_axis hsq _ (by norm_num)
  have hw0 : ¬ (ShadowExample.light : Light ℝ).position.w = 0 := by
    show ¬ (1 : ℝ) = 0
    exact one_ne_zero
  rw [← Bool.not_eq_true, RayTrace.isShadow_iff _ _ _ _ (Or.inr rfl),
    OriginExample.origin_raycast_value]
  simp only [normalize_zero_vec, horigin, if_neg hw0, hdir]
  rintro ⟨o, ho, h1, h2⟩
  simp only [OriginExample.scene, List.mem_singleton] at ho
  subst ho
  have hret : (SceneObject.Intersect (⟨Real.sqrt, Real.rpow, 0, 0⟩ : Runtime ℝ)
      (.sphere OriginExample.sphere) ⟨⟨0, 0, 0⟩, ⟨0, 0, 1⟩⟩ 0 0).ret = 0 := by
    simp only [SceneObject.Intersect, Sphere.Intersect_unfold, Sphere.b, Sphere.c,
      Sphere.chooseT, dot, Vec3.sub_x, Vec3.sub_y, Vec3.sub_z, OriginExample.sphere]
    norm_num
  rw [hret] at h1
  exact lt_irrefl 0 h1

/-- C26, where the source departs from it: the unit primary ray from `(0, 0, 2)` along
`(0, 0, -1)` hits the unit sphere centred at `(0, 0, -1)` in the origin of the world, at
distance 2.  `Sphere::Intersect` sets the normal to `normalize(point)`, and with
`dot(point, point) = 0` the division of that normalisation is by zero, so the hit normal
does not have length one; the light is not shadowed, and with `maxDepth = 1` `RayTrace`
makes its recursive call on the ray `reflection` built from that normal. -/
theorem RayTrace_reflection_world_origin :
    length (⟨Real.sqrt, Real.rpow, 0, 0⟩ : Runtime ℝ) (OriginExample.ray : Ray ℝ).direction = 1 ∧
    Raycast (⟨Real.sqrt, Real.rpow, 0, 0⟩ : Runtime ℝ) OriginExample.ray OriginExample.scene
      = ⟨OriginExample.ray, 2, some (.sphere OriginExample.sphere), ⟨0, 0, 0⟩,
          normalize (⟨Real.sqrt, Real.rpow, 0, 0⟩ : Runtime ℝ) ⟨0, 0, 0⟩⟩ ∧
    checkedDiv (1 : ℝ)
        (Real.sqrt (dot
          (Raycast (⟨Real.sqrt, Real.rpow, 0, 0⟩ : Runtime ℝ) OriginExample.ray
            OriginExample.scene).intersectionPoint
          (Raycast (⟨Real.sqrt, Real.rpow, 0, 0⟩ : Runtime ℝ) OriginExample.ray
            OriginExample.scene).intersectionPoint)) = none ∧
    length (⟨Real.sqrt, Real.rpow, 0, 0⟩ : Runtime ℝ)
        (Raycast (⟨Real.sqrt, Real.rpow, 0, 0⟩ : Runtime ℝ) OriginExample.ray
          OriginExample.scene).intersectionNormal ≠ 1 ∧
    RayTrace.isShadow (⟨Real.sqrt, Real.rpow, 0, 0⟩ : Runtime ℝ) OriginExample.scene
        (Raycast (⟨Real.sqrt, Real.rpow, 0, 0⟩ : Runtime ℝ) OriginExample.ray
          OriginExample.scene)
        ShadowExample.light = false ∧
    RayTrace (⟨Real.sqrt, Real.rpow, 0, 0⟩ : Runtime ℝ) OriginExample.ray OriginExample.scene
        ShadowExample.camera 1
      = RayTrace.localSum (⟨Real.sqrt, Real.rpow, 0, 0⟩ : Runtime ℝ) OriginExample.scene
            ShadowExample.camera
            (Raycast (⟨Real.sqrt, Real.rpow, 0, 0⟩ : Runtime ℝ) OriginExample.ray
              OriginExample.scene)
            (OriginExample.sphere : Sphere ℝ).material [ShadowExample.light]
            ⟨0, 0, 0, 0, 0, 0⟩
        + ((OriginExample.sphere : Sphere ℝ).material.shininess / 128)
          • RayTrace (⟨Real.sqrt, Real.rpow, 0, 0⟩ : Runtime ℝ)
              ⟨(Raycast (⟨Real.sqrt, Real.rpow, 0, 0⟩ : Runtime ℝ) OriginExample.ray
                    OriginExample.scene).intersectionPoint
                  + ((1 : ℝ) / 1000)
                    • (Raycast (⟨Real.sqrt, Real.rpow, 0, 0⟩ : Runtime ℝ) OriginExample.ray
                        OriginExample.scene).intersectionNormal,
               reflect (OriginExample.ray : Ray ℝ).direction
                 (Raycast (⟨Real.sqrt, Real.rpow, 0, 0⟩ : Runtime ℝ) OriginExample.ray
                   OriginExample.scene).intersectionNormal⟩
              OriginExample.scene ShadowExample.camera 0 := by
  have hsq := real_sqrtExact Real.rpow 0 0
  have hobj : (Raycast (⟨Real.sqrt, Real.rpow, 0, 0⟩ : Runtime ℝ) OriginExample.ray
      OriginExample.scene).obj = some (.sphere OriginExample.sphere) := by
    rw [OriginExample.origin_raycast_value]
  refine ⟨?_, OriginExample.origin_raycast_value, ?_, ?_, OriginExample.origin_not_shadowed, ?_⟩
  · exact length_eq_one_of_dot hsq (by simp [dot, OriginExample.ray])
  · rw [OriginExample.origin_raycast_value]
    simp [checkedDiv, dot]
  · rw [OriginExample.origin_raycast_value]
    simp only [normalize_zero_vec]
    simp [length, dot]
  · rw [RayTrace_of_hit _ OriginExample.ray OriginExample.scene ShadowExample.camera 1 _ hobj]
    have hl : (OriginExample.scene : Scene ℝ).lights = [ShadowExample.light] := rfl
    have hun : RayTrace.unshadowed (⟨Real.sqrt, Real.rpow, 0, 0⟩ : Runtime ℝ)
        OriginExample.scene
        (Raycast (⟨Real.sqrt, Real.rpow, 0, 0⟩ : Runtime ℝ) OriginExample.ray
          OriginExample.scene) [ShadowExample.light] = 1 := by
      simp [RayTrace.unshadowed, OriginExample.origin_not_shadowed]
    rw [hl, hun, if_pos (by norm_num)]
    unfold RayTrace.reflection
    rw [Raycast.incomingRay_of_hit _ OriginExample.ray OriginExample.scene _ hobj]
    have hone : ∀ v : Vec3 ℝ, ((1 : ℕ) : ℝ) • v = v := by
      intro v
      ext <;> simp
    rw [hone]
    rfl

end WorldOrigin

/-! ## The frame of `SetColor` -/

section SetColorTheorems

variable {K : Type} [LinearOrderedField K] [FloorRing K]

/-- A store inside the buffer keeps its length. -/
theorem Image.store_length (data : List Nat) (index : Int) (value : Nat) :
    (Image.store data index value).length = data.length := by
  unfold Image.store
  split_ifs
  · exact List.length_set _ _ _
  · rfl

/-- A store does not change the other bytes. -/
theorem Image.store_other (data : List Nat) (index : Int) (value : Nat) (i : Nat)
    (hi : (i : Int) ≠ index) : (Image.store data index value)[i]? = data[i]? := by
  unfold Image.store
  split_ifs with h0
  · apply List.getElem?_set_ne
    intro h
    apply hi
    omega
  · rfl

/-- The offset of a pixel inside the image is inside the buffer of `w * h * 3` bytes. -/
theorem Image.index_bounds (w h x y : Int) (hx0 : 0 ≤ x) (hxw : x < w) (hy0 : 0 ≤ y)
    (hyh : y < h) : 0 ≤ (y * w + x) * 3 ∧ (y * w + x) * 3 + 2 < w * h * 3 := by
  have hw : 0 ≤ w := by omega
  have h1 : 0 ≤ y * w := mul_nonneg hy0 hw
  have h2 : (y + 1) * w ≤ h * w := mul_le_mul_of_nonneg_right (by omega) hw
  constructor
  · nlinarith
  · nlinarith

/-- Two pixels of the image with the same offset are the same pixel. -/
theorem Image.index_injective (w x y x2 y2 : Int) (hx0 : 0 ≤ x) (hxw : x < w)
    (hx20 : 0 ≤ x2) (hx2w : x2 < w) (h : y * w + x = y2 * w + x2) : x = x2 ∧ y = y2 := by
  have hy : y = y2 := by
    rcases lt_trichotomy y y2 with hlt | heq | hgt
    · exfalso
      have : (y + 1) * w ≤ y2 * w := mul_le_mul_of_nonneg_right (by omega) (by omega)
      nlinarith
    · exact heq
    · exfalso
      have : (y2 + 1) * w ≤ y * w := mul_le_mul_of_nonneg_right (by omega) (by omega)
      nlinarith
  subst hy
  exact ⟨by linarith, rfl⟩

/-- C27: on an image of width `w` and height `h` with its buffer of `w * h * 3` bytes,
`SetColor(x, y, color)` for a pixel `0 ≤ x < w`, `0 ≤ y < h` (so `w > 0` and `h > 0`) writes the three bytes of
`color` at the indices `(y * w + x) * 3`, `+ 1`, `+ 2`, which lie inside the buffer; it keeps
the length of the buffer, the width and the height, every byte at another index, and so the
three bytes of every other pixel of the image.  When the size `w * h * 3` fits an `int`, so
do `y * w`, `y * w + x` and the three indices: the index arithmetic does not overflow. -/
theorem Image.SetColor_frame (w h : Int) (data : List Nat) (x y : Int) (color : Vec3 K)
    (hlen : (data.length : Int) = w * h * 3) (hx0 : 0 ≤ x) (hxw : x < w) (hy0 : 0 ≤ y) (hyh : y < h) :
    (0 ≤ (y * w + x) * 3 ∧ (y * w + x) * 3 + 2 < (data.length : Int)) ∧
    ((Image.SetColor ⟨data, w, h⟩ x y color).data.length = data.length ∧
      (Image.SetColor ⟨data, w, h⟩ x y color).width = w ∧
      (Image.SetColor ⟨data, w, h⟩ x y color).height = h) ∧
    ((Image.SetColor ⟨data, w, h⟩ x y color).data[((y * w + x) * 3).toNat]?
        = some (Image.ToChar color.x) ∧
      (Image.SetColor ⟨data, w, h⟩ x y color).data[((y * w + x) * 3 + 1).toNat]?
        = some (Image.ToChar color.y) ∧
      (Image.SetColor ⟨data, w, h⟩ x y color).data[((y * w + x) * 3 + 2).toNat]?
        = some (Image.ToChar color.z)) ∧
    (∀ i : Nat, (i : Int) ≠ (y * w + x) * 3 → (i : Int) ≠ (y * w + x) * 3 + 1 →
      (i : Int) ≠ (y * w + x) * 3 + 2 →
      (Image.SetColor ⟨data, w, h⟩ x y color).data[i]? = data[i]?) ∧
    (∀ x2 y2 : Int, 0 ≤ x2 → x2 < w → 0 ≤ y2 → y2 < h → (x2 ≠ x ∨ y2 ≠ y) →
      ∀ c : Nat, c < 3 →
        (Image.SetColor ⟨data, w, h⟩ x y color).data[((y2 * w + x2) * 3).toNat + c]?
          = data[((y2 * w + x2) * 3).toNat + c]?) ∧
    (w * h * 3 < 2 ^ 31 →
      (0 ≤ y * w ∧ y * w < 2 ^ 31) ∧ (0 ≤ y * w + x ∧ y * w + x < 2 ^ 31) ∧
      (0 ≤ (y * w + x) * 3 ∧ (y * w + x) * 3 + 2 < 2 ^ 31)) := by
  obtain ⟨hi0, hi2⟩ := Image.index_bounds w h x y hx0 hxw hy0 hyh
  have hother : ∀ i : Nat, (i : Int) ≠ (y * w + x) * 3 → (i : Int) ≠ (y * w + x) * 3 + 1 →
      (i : Int) ≠ (y * w + x) * 3 + 2 →
      (Image.SetColor ⟨data, w, h⟩ x y color).data[i]? = data[i]? := by
    intro i h0 h1 h2
    show (Image.store (Image.store (Image.store data ((y * w + x) * 3) _)
      ((y * w + x) * 3 + 1) _) ((y * w + x) * 3 + 2) _)[i]? = data[i]?
    rw [Image.store_other _ _ _ _ h2, Image.store_other _ _ _ _ h1,
      Image.store_other _ _ _ _ h0]
  refine ⟨⟨hi0, by rw [hlen]; exact hi2⟩, ⟨?_, rfl, rfl⟩, ?_, hother, ?_, ?_⟩
  · show (Image.store (Image.store (Image.store data ((y * w + x) * 3) _)
      ((y * w + x) * 3 + 1) _) ((y * w + x) * 3 + 2) _).length = data.length
    rw [Image.store_length, Image.store_length, Image.store_length]
  · exact Image.store_three data ((y * w + x) * 3) _ _ _ hi0 (by rw [hlen]; exact hi2)
  · intro x2 y2 hx20 hx2w hy20 hy2h hne c hc
    obtain ⟨hj0, _⟩ := Image.index_bounds w h x2 y2 hx20 hx2w hy20 hy2h
    have hcast : (((((y2 * w + x2) * 3).toNat + c : Nat)) : Int) = (y2 * w + x2) * 3 + c := by
      push_cast
      rw [Int.toNat_of_nonneg hj0]
    have hdiff : y2 * w + x2 ≠ y * w + x := by
      intro heq
      obtain ⟨e1, e2⟩ := Image.index_injective w x2 y2 x y hx20 hx2w hx0 hxw heq
      rcases hne with h | h
      · exact h e1
      · exact h e2
    have hc2 : (c : Int) < 3 := by exact_mod_cast hc
    have hc0 : (0 : Int) ≤ c := Int.natCast_nonneg c
    apply hother
    · rw [hcast]; omega
    · rw [hcast]; omega
    · rw [hcast]; omega
  · intro hfit
    have hyw : 0 ≤ y * w := mul_nonneg hy0 (by omega)
    refine ⟨⟨hyw, ?_⟩, ⟨?_, ?_⟩, hi0, ?_⟩ <;> omega

end SetColorTheorems

section SetColorWitnesses

/-- Witness of C27 over the rationals: the pixel `(1, 0)` of a fresh 2 x 2 image. -/
theorem Image.SetColor_frame_witness :
    (Image.SetColor (Image.create 2 2) 1 0 (⟨1, 0, 1 / 2⟩ : Vec3 ℚ)).data.length = 12 ∧
    (Image.SetColor (Image.create 2 2) 1 0 (⟨1, 0, 1 / 2⟩ : Vec3 ℚ)).data[3]?
      = some (Image.ToChar (1 : ℚ)) :=
  ⟨(Image.SetColor_frame 2 2 (List.replicate 12 0) 1 0 (⟨1, 0, 1 / 2⟩ : Vec3 ℚ)
      (by decide) (by decide) (by decide) (by decide) (by decide)).2.1.1,
    (Image.SetColor_frame 2 2 (List.replicate 12 0) 1 0 (⟨1, 0, 1 / 2⟩ : Vec3 ℚ)
      (by decide) (by decide) (by decide) (by decide) (by decide)).2.2.1.1⟩

end SetColorWitnesses

/-! ## Reading the scene file -/

section ParsingBasics

variable {K : Type}

/-- Sequencing after a step that succeeded. -/
theorem except_ok_bind {ε α β : Type} (a : α) (g : α → Except ε β) :
    (Except.ok a >>= g) = g a := rfl

/-- Sequencing after a step that stopped. -/
theorem except_error_bind {ε α β : Type} (e : ε) (g : α → Except ε β) :
    ((Except.error e : Except ε α) >>= g) = Except.error e := rfl

/-- The value of `pure` in `Except`. -/
theorem except_pure {ε α : Type} (a : α) : (pure a : Except ε α) = Except.ok a := rfl

/-- An access past the end of `filecontent`. -/
theorem tokenAt_of_le (filecontent : List String) (index : Nat)
    (h : filecontent.length ≤ index) :
    tokenAt filecontent index = .error (.outOfBounds index) := by
  unfold tokenAt
  rw [List.getElem?_eq_none h]

/-- `std::stof` on an access past the end of `filecontent`. -/
theorem stofAt_of_le (lib : StdLib K) (filecontent : List String) (index : Nat)
    (h : filecontent.length ≤ index) :
    stofAt lib filecontent index = .error (.outOfBounds index) := by
  unfold stofAt
  rw [tokenAt_of_le filecontent index h]

/-- A token other than the one replaced is read as before. -/
theorem stofAt_set_ne (lib : StdLib K) (filecontent : List String) (i j : Nat)
    (token : String) (h : i ≠ j) :
    stofAt lib (filecontent.set i token) j = stofAt lib filecontent j := by
  unfold stofAt tokenAt
  rw [List.getElem?_set_ne h]

/-- The three reads of `vec3At` when they succeed. -/
theorem vec3At_ok (lib : StdLib K) (filecontent : List String) (i j k : Nat) (x y z : K)
    (hx : stofAt lib filecontent i = .ok x) (hy : stofAt lib filecontent j = .ok y)
    (hz : stofAt lib filecontent k = .ok z) :
    vec3At lib filecontent i j k = .ok ⟨x, y, z⟩ := by
  simp only [vec3At, hx, hy, hz, except_ok_bind, except_pure]

/-- `vec3At` does not read a token other than its three. -/
theorem vec3At_set_ne (lib : StdLib K) (filecontent : List String) (n i j k : Nat)
    (token : String) (hi : n ≠ i) (hj : n ≠ j) (hk : n ≠ k) :
    vec3At lib (filecontent.set n token) i j k = vec3At lib filecontent i j k := by
  simp only [vec3At, stofAt_set_ne lib filecontent n _ token hi,
    stofAt_set_ne lib filecontent n _ token hj, stofAt_set_ne lib filecontent n _ token hk]

/-- `materialAt` does not read a token in front of its ten. -/
theorem materialAt_set_lt (lib : StdLib K) (filecontent : List String) (n index : Nat)
    (token : String) (h : n < index) :
    materialAt lib (filecontent.set n token) index = materialAt lib filecontent index := by
  simp only [materialAt,
    vec3At_set_ne lib filecontent n _ _ _ token (show n ≠ index by omega)
      (show n ≠ index + 1 by omega) (show n ≠ index + 2 by omega),
    vec3At_set_ne lib filecontent n _ _ _ token (show n ≠ index + 3 by omega)
      (show n ≠ index + 4 by omega) (show n ≠ index + 5 by omega),
    vec3At_set_ne lib filecontent n _ _ _ token (show n ≠ index + 6 by omega)
      (show n ≠ index + 7 by omega) (show n ≠ index + 8 by omega),
    stofAt_set_ne lib filecontent n _ token (show n ≠ index + 9 by omega)]

/-- A token that `std::stoi` reads as a number. -/
theorem stoiAt_token (lib : StdLib K) (filecontent : List String) (index : Nat) (n : Int)
    (h : stoiAt lib filecontent index = .ok n) :
    ∃ token, tokenAt filecontent index = .ok token ∧ lib.stoi token = some n := by
  unfold stoiAt at h
  cases ht : tokenAt filecontent index with
  | error e =>
    rw [ht] at h
    exact Except.noConfusion h
  | ok token =>
    simp only [ht] at h
    cases hs : lib.stoi token with
    | none =>
      simp only [hs] at h
      exact Except.noConfusion h
    | some m =>
      simp only [hs] at h
      refine ⟨token, rfl, ?_⟩
      rw [hs, Except.ok.inj h]

/-- A `triSideN` block builds the triangle of the `tri` block with the first and the third
coordinate of `B` and of `C` replaced. -/
theorem readTriSide_of_readTri (lib : StdLib K) (filecontent : List String) (startNum : Nat)
    (bx bz cx cz : K) (tri : Triangle K) (h : readTri lib filecontent startNum = .ok tri) :
    readTriSide lib filecontent startNum bx bz cx cz
      = .ok ⟨tri.material, tri.A, ⟨bx, tri.B.y, bz⟩, ⟨cx, tri.C.y, cz⟩⟩ := by
  simp only [readTri, readTriSide] at h ⊢
  cases h1 : vec3At lib filecontent (startNum + 1) (startNum + 2) (startNum + 3) <;>
    simp only [h1, except_ok_bind, except_error_bind, reduceCtorEq] at h ⊢
  simp only [vec3At] at h
  cases h4 : stofAt lib filecontent (startNum + 4) <;>
    simp only [h4, except_ok_bind, except_error_bind, reduceCtorEq] at h ⊢
  cases h5 : stofAt lib filecontent (startNum + 5) <;>
    simp only [h5, except_ok_bind, except_error_bind, reduceCtorEq] at h ⊢
  cases h6 : stofAt lib filecontent (startNum + 6) <;>
    simp only [h6, except_ok_bind, except_error_bind, except_pure, reduceCtorEq] at h ⊢
  cases h7 : stofAt lib filecontent (startNum + 7) <;>
    simp only [h7, except_ok_bind, except_error_bind, reduceCtorEq] at h ⊢
  cases h8 : stofAt lib filecontent (startNum + 8) <;>
    simp only [h8, except_ok_bind, except_error_bind, reduceCtorEq] at h ⊢
  cases h9 : stofAt lib filecontent (startNum + 9) <;>
    simp only [h9, except_ok_bind, except_error_bind, except_pure, reduceCtorEq] at h ⊢
  cases h10 : materialAt lib filecontent (startNum + 10) <;>
    simp only [h10, except_ok_bind, except_error_bind, except_pure, reduceCtorEq] at h ⊢
  have h11 := Except.ok.inj h
  subst h11
  rfl

/-- A `triSideN` block reads none of the tokens 4, 6, 7 and 9 of its record. -/
theorem readTriSide_set (lib : StdLib K) (filecontent : List String) (startNum : Nat)
    (bx bz cx cz : K) (n : Nat) (token : String)
    (hn : n = startNum + 4 ∨ n = startNum + 6 ∨ n = startNum + 7 ∨ n = startNum + 9) :
    readTriSide lib (filecontent.set n token) startNum bx bz cx cz
      = readTriSide lib filecontent startNum bx bz cx cz := by
  simp only [readTriSide,
    vec3At_set_ne lib filecontent n _ _ _ token (show n ≠ startNum + 1 by omega)
      (show n ≠ startNum + 2 by omega) (show n ≠ startNum + 3 by omega),
    stofAt_set_ne lib filecontent n _ token (show n ≠ startNum + 5 by omega),
    stofAt_set_ne lib filecontent n _ token (show n ≠ startNum + 8 by omega),
    materialAt_set_lt lib filecontent n _ token (show n < startNum + 10 by omega)]


/-- The reads of `readLight` when they succeed. -/
theorem readLight_ok (lib : StdLib K) (filecontent : List String) (startNum : Nat)
    (v : Nat → K)
    (hv : ∀ j, 1 ≤ j → j ≤ 16 → stofAt lib filecontent (startNum + j) = .ok (v j)) :
    readLight lib filecontent startNum = .ok (lightOfValues v) := by
  simp only [readLight, vec3At, hv 1 (by omega) (by omega), hv 2 (by omega) (by omega),
    hv 3 (by omega) (by omega), hv 4 (by omega) (by omega), hv 5 (by omega) (by omega),
    hv 6 (by omega) (by omega), hv 7 (by omega) (by omega), hv 8 (by omega) (by omega),
    hv 9 (by omega) (by omega), hv 10 (by omega) (by omega), hv 11 (by omega) (by omega),
    hv 12 (by omega) (by omega), hv 13 (by omega) (by omega), hv 14 (by omega) (by omega),
    hv 15 (by omega) (by omega), hv 16 (by omega) (by omega), except_ok_bind, except_pure]
  rfl

/-- The light loop over records whose tokens are numbers. -/
theorem readLights_ok (lib : StdLib K) (filecontent : List String) (count : Nat) :
    ∀ (startNum : Nat) (acc : List (Light K)) (v : Nat → Nat → K),
      (∀ k, k < count → ∀ j, 1 ≤ j → j ≤ 16 →
        stofAt lib filecontent (startNum + 16 * k + j) = .ok (v k j)) →
      readLights lib filecontent count (startNum, acc)
        = .ok (startNum + 16 * count,
            acc ++ (List.range count).map (fun k => lightOfValues (v k))) := by
  induction count with
  | zero =>
    intro startNum acc v _
    simp [readLights]
  | succ count ih =>
    intro startNum acc v hv
    have h0 : readLight lib filecontent startNum = .ok (lightOfValues (v 0)) :=
      readLight_ok lib filecontent startNum (v 0) (fun j h1 h2 => by
        have := hv 0 (Nat.succ_pos _) j h1 h2
        simpa using this)
    have hrest := ih (startNum + 16) (acc ++ [lightOfValues (v 0)]) (fun k => v (k + 1))
      (fun k hk j h1 h2 => by
        have := hv (k + 1) (Nat.succ_lt_succ hk) j h1 h2
        rw [← this]
        congr 1
        ring)
    simp only [readLights, h0]
    rw [hrest, List.range_succ_eq_map, List.map_cons, List.map_map, List.append_assoc]
    congr 2
    ring

/-- C22: with the light count `n` at index `L` and numbers `v k 1 .. v k 16` in the sixteen
tokens `L + 16 k + 1 .. L + 16 k + 16` of every light `k < n`, the light loop run for
`m ≤ n` iterations has built the first `m` lights and advanced `startNum` by 16 for each of
them; light `k` has the position `(v k 1, v k 2, v k 3, v k 4)`, the ambient, diffuse and
specular colours from the next nine tokens and the coefficients `constant`, `linear`,
`quadratic` from the last three.  With `n ≥ 1` the part of `main` that reads the lights
yields exactly these `n` lights. -/
theorem readLights_spec (lib : StdLib K) (filecontent : List String) (L : Nat) (n : Int)
    (v : Nat → Nat → K) (hcount : stoiAt lib filecontent L = .ok n)
    (hv : ∀ k, k < n.toNat → ∀ j, 1 ≤ j → j ≤ 16 →
      stofAt lib filecontent (L + 16 * k + j) = .ok (v k j)) :
    (∀ m, m ≤ n.toNat →
      readLights lib filecontent m (L, [])
        = .ok (L + 16 * m, (List.range m).map (fun k => lightOfValues (v k)))) ∧
    (∀ k, (lightOfValues (v k)).position = ⟨v k 1, v k 2, v k 3, v k 4⟩ ∧
      (lightOfValues (v k)).ambient = ⟨v k 5, v k 6, v k 7⟩ ∧
      (lightOfValues (v k)).diffuse = ⟨v k 8, v k 9, v k 10⟩ ∧
      (lightOfValues (v k)).specular = ⟨v k 11, v k 12, v k 13⟩ ∧
      (lightOfValues (v k)).constant = v k 14 ∧
      (lightOfValues (v k)).linear = v k 15 ∧
      (lightOfValues (v k)).quadratic = v k 16) ∧
    (0 < n →
      (readLightSection lib filecontent L).result
        = .ok ((List.range n.toNat).map (fun k => lightOfValues (v k))) ∧
      ((List.range n.toNat).map (fun k => lightOfValues (v k))).length = n.toNat) := by
  have hloop : ∀ m, m ≤ n.toNat →
      readLights lib filecontent m (L, [])
        = .ok (L + 16 * m, (List.range m).map (fun k => lightOfValues (v k))) := by
    intro m hm
    have := readLights_ok lib filecontent m L [] v (fun k hk => hv k (lt_of_lt_of_le hk hm))
    rwa [List.nil_append] at this
  refine ⟨hloop, fun k => ⟨rfl, rfl, rfl, rfl, rfl, rfl, rfl⟩, ?_⟩
  intro hn
  have hw : stofAt lib filecontent (L + 4) = .ok (v 0 4) := by
    have := hv 0 (by omega) 4 (by omega) (by omega)
    simpa using this
  refine ⟨?_, by simp⟩
  simp only [readLightSection, hcount, hw, hloop n.toNat (le_refl _)]

end ParsingBasics

section ParsingTheorems

variable {K : Type} [LinearOrderedField K]

/-- The `sphereBounce` block builds the sphere of the `sphere` block with the second
coordinate of the centre replaced. -/
theorem readSphereBounce_of_readSphere (lib : StdLib K) (animationIndex : Nat)
    (filecontent : List String) (startNum : Nat) (sp : Sphere K)
    (h : readSphere lib filecontent startNum = .ok sp) :
    readSphereBounce lib animationIndex filecontent startNum
      = .ok ⟨sp.material,
          ⟨sp.center.x, ((bounceY.getD animationIndex 0 : Int) : K), sp.center.z⟩,
          sp.radius⟩ := by
  simp only [readSphere, readSphereBounce, vec3At] at h ⊢
  cases h1 : stofAt lib filecontent (startNum + 1) <;>
    simp only [h1, except_ok_bind, except_error_bind, reduceCtorEq] at h ⊢
  cases h2 : stofAt lib filecontent (startNum + 2) <;>
    simp only [h2, except_ok_bind, except_error_bind, reduceCtorEq] at h ⊢
  cases h3 : stofAt lib filecontent (startNum + 3) <;>
    simp only [h3, except_ok_bind, except_error_bind, reduceCtorEq] at h ⊢
  cases h4 : stofAt lib filecontent (startNum + 4) <;>
    simp only [h4, except_ok_bind, except_error_bind, except_pure, reduceCtorEq] at h ⊢
  cases h5 : materialAt lib filecontent (startNum + 5) <;>
    simp only [h5, except_ok_bind, except_error_bind, except_pure, reduceCtorEq] at h ⊢
  have h6 := Except.ok.inj h
  subst h6
  rfl

/-- The `sphereBounce` block does not read the token of the second coordinate. -/
theorem readSphereBounce_set (lib : StdLib K) (animationIndex : Nat)
    (filecontent : List String) (startNum : Nat) (token : String) :
    readSphereBounce lib animationIndex (filecontent.set (startNum + 2) token) startNum
      = readSphereBounce lib animationIndex filecontent startNum := by
  simp only [readSphereBounce,
    stofAt_set_ne lib filecontent (startNum + 2) _ token (show startNum + 2 ≠ startNum + 1 by omega),
    stofAt_set_ne lib filecontent (startNum + 2) _ token (show startNum + 2 ≠ startNum + 3 by omega),
    stofAt_set_ne lib filecontent (startNum + 2) _ token (show startNum + 2 ≠ startNum + 4 by omega),
    materialAt_set_lt lib filecontent (startNum + 2) _ token (show startNum + 2 < startNum + 5 by omega)]

/-- Distinct kinds have distinct keywords. -/
theorem ObjectKind.keyword_injective (k1 k2 : ObjectKind) (h : k1.keyword = k2.keyword) :
    k1 = k2 := by
  cases k1 <;> cases k2 <;> first | rfl | exact absurd h (by decide)

/-- A block whose keyword stands at the cursor reads its record. -/
theorem objectBlock_consume (lib : StdLib K) (animationIndex : Nat)
    (filecontent : List String) (kind : ObjectKind) (startNum : Nat)
    (acc : List (SceneObject K)) (object : SceneObject K)
    (htok : tokenAt filecontent startNum = .ok kind.keyword)
    (hobj : readObject lib animationIndex filecontent startNum kind = .ok object) :
    objectBlock lib animationIndex filecontent kind (startNum, acc)
      = .ok (startNum + kind.size, acc ++ [object]) := by
  simp only [objectBlock, htok, hobj, except_ok_bind, except_pure, if_true]

/-- A block whose keyword does not stand at the cursor changes nothing. -/
theorem objectBlock_skip (lib : StdLib K) (animationIndex : Nat)
    (filecontent : List String) (kind : ObjectKind) (startNum : Nat)
    (acc : List (SceneObject K)) (token : String)
    (htok : tokenAt filecontent startNum = .ok token) (hne : token ≠ kind.keyword) :
    objectBlock lib animationIndex filecontent kind (startNum, acc) = .ok (startNum, acc) := by
  simp only [objectBlock, htok, except_ok_bind, except_pure, if_neg hne]

/-- The body of the object loop is the seven blocks in the order of the source. -/
theorem objectLoopBody_eq_blocks (lib : StdLib K) (animationIndex : Nat)
    (filecontent : List String) (state : Nat × List (SceneObject K)) :
    objectLoopBody lib animationIndex filecontent state
      = objectBlocks lib animationIndex filecontent
          [.sphere, .sphereBounce, .tri, .triSide1, .triSide2, .triSide3, .triSide4] state := by
  simp only [objectLoopBody, objectBlocks]
  cases objectBlock lib animationIndex filecontent .sphere state with
  | error e => rfl
  | ok s1 =>
  simp only [except_ok_bind]
  cases objectBlock lib animationIndex filecontent .sphereBounce s1 with
  | error e => rfl
  | ok s2 =>
  simp only [except_ok_bind]
  cases objectBlock lib animationIndex filecontent .tri s2 with
  | error e => rfl
  | ok s3 =>
  simp only [except_ok_bind]
  cases objectBlock lib animationIndex filecontent .triSide1 s3 with
  | error e => rfl
  | ok s4 =>
  simp only [except_ok_bind]
  cases objectBlock lib animationIndex filecontent .triSide2 s4 with
  | error e => rfl
  | ok s5 =>
  simp only [except_ok_bind]
  cases objectBlock lib animationIndex filecontent .triSide3 s5 with
  | error e => rfl
  | ok s6 =>
  simp only [except_ok_bind]
  cases objectBlock lib animationIndex filecontent .triSide4 s6 with
  | error e => rfl
  | ok s7 => rfl

/-- The records of a layout are as many as its objects, and the light count stands behind
their tokens. -/
theorem RecordsAt.length_and_last (lib : StdLib K) (animationIndex : Nat)
    (filecontent : List String) (kinds : List ObjectKind) :
    ∀ (start : Nat) (objects : List (SceneObject K)) (last : Nat),
      RecordsAt lib animationIndex filecontent start kinds objects last →
      objects.length = kinds.length ∧ last = start + (kinds.map ObjectKind.size).sum ∧
        ∃ lightNum, stoiAt lib filecontent last = .ok lightNum := by
  induction kinds with
  | nil =>
    intro start objects last h
    cases objects with
    | nil => exact ⟨rfl, by simpa using h.1.symm, h.2⟩
    | cons o os => exact False.elim h
  | cons kind kinds ih =>
    intro start objects last h
    cases objects with
    | nil => exact False.elim h
    | cons o os =>
      obtain ⟨_, _, hrest⟩ := h
      obtain ⟨h1, h2, h3⟩ := ih _ _ _ hrest
      refine ⟨by simp [h1], ?_, h3⟩
      rw [h2]
      simp only [List.map_cons, List.sum_cons]
      omega

/-- One block on a layout: it reads the first record when that has its keyword and nothing
otherwise, and in front of the cursor it leaves is a layout again. -/
theorem objectBlock_layout (lib : StdLib K) (animationIndex : Nat)
    (filecontent : List String) (hkw : ∀ kind : ObjectKind, lib.stoi kind.keyword = none)
    (kind : ObjectKind) (start : Nat) (acc : List (SceneObject K)) (kinds : List ObjectKind)
    (objects : List (SceneObject K)) (last : Nat)
    (h : RecordsAt lib animationIndex filecontent start kinds objects last) :
    ∃ (start1 : Nat) (done : List (SceneObject K)) (kinds1 : List ObjectKind)
      (objects1 : List (SceneObject K)),
      objectBlock lib animationIndex filecontent kind (start, acc) = .ok (start1, acc ++ done) ∧
      objects = done ++ objects1 ∧
      RecordsAt lib animationIndex filecontent start1 kinds1 objects1 last ∧
      kinds1.length ≤ kinds.length ∧
      (kinds.head? = some kind → kinds1.length < kinds.length) ∧
      (kinds.head? ≠ some kind → start1 = start ∧ kinds1 = kinds ∧ objects1 = objects) := by
  cases kinds with
  | nil =>
    cases objects with
    | cons o os => exact False.elim h
    | nil =>
      obtain ⟨hlast, n, hn⟩ := h
      subst hlast
      have htok := stoiAt_token lib filecontent start n hn
      obtain ⟨token, ht, hs⟩ := htok
      have hne : token ≠ kind.keyword := by
        intro heq
        rw [heq, hkw kind] at hs
        exact Option.noConfusion hs
      refine ⟨start, [], [], [], ?_, rfl, ⟨rfl, n, hn⟩, le_refl _, ?_, ?_⟩
      · rw [List.append_nil]
        exact objectBlock_skip lib animationIndex filecontent kind start acc token ht hne
      · intro hh
        exact Option.noConfusion hh
      · intro _
        exact ⟨rfl, rfl, rfl⟩
  | cons k ks =>
    cases objects with
    | nil => exact False.elim h
    | cons o os =>
      obtain ⟨htok, hobj, hrest⟩ := h
      by_cases hk : k = kind
      · subst hk
        refine ⟨start + k.size, [o], ks, os, ?_, rfl, hrest, Nat.le_succ _, ?_, ?_⟩
        · exact objectBlock_consume lib animationIndex filecontent k start acc o htok hobj
        · intro _
          exact Nat.lt_succ_self _
        · intro hh
          exact absurd rfl hh
      · have hne : k.keyword ≠ kind.keyword :=
          fun heq => hk (ObjectKind.keyword_injective k kind heq)
        refine ⟨start, [], k :: ks, o :: os, ?_, rfl, ⟨htok, hobj, hrest⟩, le_refl _, ?_, ?_⟩
        · rw [List.append_nil]
          exact objectBlock_skip lib animationIndex filecontent kind start acc _ htok hne
        · intro hh
          exact absurd (Option.some.inj hh) hk
        · intro _
          exact ⟨rfl, rfl, rfl⟩

/-- A run of blocks on a layout: it reads some of the first records, at least one when the
kind of the first record is among the blocks. -/
theorem objectBlocks_layout (lib : StdLib K) (animationIndex : Nat)
    (filecontent : List String) (hkw : ∀ kind : ObjectKind, lib.stoi kind.keyword = none)
    (last : Nat) (blocks : List ObjectKind) :
    ∀ (start : Nat) (acc : List (SceneObject K)) (kinds : List ObjectKind)
      (objects : List (SceneObject K)),
      RecordsAt lib animationIndex filecontent start kinds objects last →
      ∃ (start1 : Nat) (done : List (SceneObject K)) (kinds1 : List ObjectKind)
        (objects1 : List (SceneObject K)),
        objectBlocks lib animationIndex filecontent blocks (start, acc)
          = .ok (start1, acc ++ done) ∧
        objects = done ++ objects1 ∧
        RecordsAt lib animationIndex filecontent start1 kinds1 objects1 last ∧
        kinds1.length ≤ kinds.length ∧
        (∀ k, kinds.head? = some k → k ∈ blocks → kinds1.length < kinds.length) := by
  induction blocks with
  | nil =>
    intro start acc kinds objects h
    refine ⟨start, [], kinds, objects, ?_, rfl, h, le_refl _, ?_⟩
    · rw [List.append_nil]
      rfl
    · intro k _ hk
      exact absurd hk (List.not_mem_nil k)
  | cons kind blocks ih =>
    intro start acc kinds objects h
    obtain ⟨s1, d1, ks1, os1, hb, ho, hr, hle, hlt, hsame⟩ :=
      objectBlock_layout lib animationIndex filecontent hkw kind start acc kinds objects last h
    obtain ⟨s2, d2, ks2, os2, hb2, ho2, hr2, hle2, hlt2⟩ := ih s1 (acc ++ d1) ks1 os1 hr
    refine ⟨s2, d1 ++ d2, ks2, os2, ?_, ?_, hr2, le_trans hle2 hle, ?_⟩
    · simp only [objectBlocks, hb]
      rw [hb2, List.append_assoc]
    · rw [ho, ho2, List.append_assoc]
    · intro k hk hmem
      by_cases hkk : k = kind
      · subst hkk
        exact lt_of_le_of_lt hle2 (hlt hk)
      · have hne : kinds.head? ≠ some kind := by
          rw [hk]
          intro hh
          exact hkk (Option.some.inj hh)
        obtain ⟨_, e2, _⟩ := hsame hne
        subst e2
        rcases List.mem_cons.mp hmem with h1 | h1
        · exact absurd h1 hkk
        · exact hlt2 k hk h1

/-- The object loop on a layout with no more records than iterations reads all the records
and stops on the light count. -/
theorem readObjects_layout (lib : StdLib K) (animationIndex : Nat)
    (filecontent : List String) (hkw : ∀ kind : ObjectKind, lib.stoi kind.keyword = none)
    (last : Nat) (count : Nat) :
    ∀ (start : Nat) (acc : List (SceneObject K)) (kinds : List ObjectKind)
      (objects : List (SceneObject K)),
      RecordsAt lib animationIndex filecontent start kinds objects last →
      kinds.length ≤ count →
      readObjects lib animationIndex filecontent count (start, acc)
        = .ok (last, acc ++ objects) := by
  induction count with
  | zero =>
    intro start acc kinds objects h hlen
    have hk : kinds = [] := List.length_eq_zero.mp (Nat.le_zero.mp hlen)
    subst hk
    cases objects with
    | cons o os => exact False.elim h
    | nil =>
      obtain ⟨hlast, _⟩ := h
      subst hlast
      rw [List.append_nil]
      rfl
  | succ count ih =>
    intro start acc kinds objects h hlen
    obtain ⟨s1, d1, ks1, os1, hb, ho, hr, hle, hlt⟩ :=
      objectBlocks_layout lib animationIndex filecontent hkw last
        [.sphere, .sphereBounce, .tri, .triSide1, .triSide2, .triSide3, .triSide4]
        start acc kinds objects h
    have hlen1 : ks1.length ≤ count := by
      cases kinds with
      | nil => exact le_trans hle (Nat.zero_le _)
      | cons k ks =>
        have hmem : k ∈ ([.sphere, .sphereBounce, .tri, .triSide1, .triSide2, .triSide3,
            .triSide4] : List ObjectKind) := by
          cases k <;> simp
        have := hlt k rfl hmem
        omega
    simp only [readObjects, objectLoopBody_eq_blocks, hb]
    rw [ih s1 (acc ++ d1) ks1 os1 hr hlen1, ho, List.append_assoc]

/-- C21: on a well-formed token list (a header of 15 tokens with the object count `numObj`
at index 14; from index 15
on `numObj` records of any kinds in any order, each with its keyword in front and of the
length of its kind; behind them a numeric light count), the object loop that follows the
reading of the header builds the objects
of the records in file order, `numObj` of them, and leaves `startNum` on the light count,
which stands at index 15 plus the lengths of the records.  The library `std::stoi` is assumed
to throw on the seven keywords. -/
theorem readObjects_wellFormed (lib : StdLib K) (animationIndex : Nat)
    (filecontent : List String) (camera : Camera K) (maxDepth numObj : Int)
    (kinds : List ObjectKind) (objects : List (SceneObject K)) (last : Nat)
    (hkw : ∀ kind : ObjectKind, lib.stoi kind.keyword = none)
    (hheader : readHeader lib filecontent = .ok (camera, maxDepth, numObj))
    (hkinds : (kinds.length : Int) = numObj)
    (hrecords : RecordsAt lib animationIndex filecontent 15 kinds objects last) :
    (readHeader lib filecontent >>= fun header =>
      readObjects lib animationIndex filecontent header.2.2.toNat (15, []))
        = .ok (last, objects) ∧
    (objects.length : Int) = numObj ∧
    last = 15 + (kinds.map ObjectKind.size).sum ∧
    ∃ lightNum, stoiAt lib filecontent last = .ok lightNum := by
  obtain ⟨hlen, hlast, hlight⟩ :=
    RecordsAt.length_and_last lib animationIndex filecontent kinds 15 objects last hrecords
  have hrun := readObjects_layout lib animationIndex filecontent hkw last numObj.toNat 15 []
    kinds objects hrecords (by omega)
  rw [List.nil_append] at hrun
  rw [hheader, except_ok_bind]
  exact ⟨hrun, by omega, hlast, hlight⟩


/-- An object that `readObject` builds for the keyword `sphere` comes from `readSphere`. -/
theorem readObject_sphere_inv (lib : StdLib K) (animationIndex : Nat)
    (filecontent : List String) (startNum : Nat) (sp : Sphere K)
    (h : readObject lib animationIndex filecontent startNum .sphere = .ok (.sphere sp)) :
    readSphere lib filecontent startNum = .ok sp := by
  unfold readObject at h
  cases hr : readSphere lib filecontent startNum with
  | error e =>
    rw [hr] at h
    exact Except.noConfusion h
  | ok sp2 =>
    rw [hr] at h
    have h2 : SceneObject.sphere sp2 = SceneObject.sphere sp := Except.ok.inj h
    rw [SceneObject.sphere.inj h2]

/-- An object that `readObject` builds for the keyword `tri` comes from `readTri`. -/
theorem readObject_tri_inv (lib : StdLib K) (animationIndex : Nat)
    (filecontent : List String) (startNum : Nat) (tri : Triangle K)
    (h : readObject lib animationIndex filecontent startNum .tri = .ok (.triangle tri)) :
    readTri lib filecontent startNum = .ok tri := by
  unfold readObject at h
  cases hr : readTri lib filecontent startNum with
  | error e =>
    rw [hr] at h
    exact Except.noConfusion h
  | ok tri2 =>
    rw [hr] at h
    have h2 : SceneObject.triangle tri2 = SceneObject.triangle tri := Except.ok.inj h
    rw [SceneObject.triangle.inj h2]

/-- C23: in frame `animationIndex < 16` every table has an entry; a `sphereBounce` record
gives the sphere that the same tokens give as a `sphere` record with `center.y` replaced by
`bounceY[animationIndex]`, and a `triSideN` record gives the triangle that the same tokens
give as a `tri` record with `B.x`, `B.z`, `C.x`, `C.z` replaced by the entries of the four
tables of side `N`; replacing the token of field 2 of the `sphereBounce` record, or of field
4, 6, 7 or 9 of the `triSideN` record, by any string changes nothing, not even whether the
record is read. -/
theorem readObject_animated (lib : StdLib K) (animationIndex : Nat)
    (filecontent : List String) (startNum : Nat) (hframe : animationIndex < 16) :
    (animationIndex < bounceY.length ∧
      ∀ table ∈ ([pyramidSide1BX, pyramidSide1BZ, pyramidSide1CX, pyramidSide1CZ,
          pyramidSide2BX, pyramidSide2BZ, pyramidSide2CX, pyramidSide2CZ,
          pyramidSide3BX, pyramidSide3BZ, pyramidSide3CX, pyramidSide3CZ,
          pyramidSide4BX, pyramidSide4BZ, pyramidSide4CX, pyramidSide4CZ] : List (List K)),
        animationIndex < table.length) ∧
    (∀ sp : Sphere K,
      readObject lib animationIndex filecontent startNum .sphere = .ok (.sphere sp) →
      readObject lib animationIndex filecontent startNum .sphereBounce
        = .ok (.sphere ⟨sp.material,
            ⟨sp.center.x, ((bounceY.getD animationIndex 0 : Int) : K), sp.center.z⟩,
            sp.radius⟩)) ∧
    (∀ token : String,
      readObject lib animationIndex (filecontent.set (startNum + 2) token) startNum
          .sphereBounce
        = readObject lib animationIndex filecontent startNum .sphereBounce) ∧
    (∀ tri : Triangle K,
      readObject lib animationIndex filecontent startNum .tri = .ok (.triangle tri) →
      readObject lib animationIndex filecontent startNum .triSide1
          = .ok (.triangle ⟨tri.material, tri.A,
              ⟨tableAt pyramidSide1BX animationIndex, tri.B.y,
                tableAt pyramidSide1BZ animationIndex⟩,
              ⟨tableAt pyramidSide1CX animationIndex, tri.C.y,
                tableAt pyramidSide1CZ animationIndex⟩⟩) ∧
        readObject lib animationIndex filecontent startNum .triSide2
          = .ok (.triangle ⟨tri.material, tri.A,
              ⟨tableAt pyramidSide2BX animationIndex, tri.B.y,
                tableAt pyramidSide2BZ animationIndex⟩,
              ⟨tableAt pyramidSide2CX animationIndex, tri.C.y,
                tableAt pyramidSide2CZ animationIndex⟩⟩) ∧
        readObject lib animationIndex filecontent startNum .triSide3
          = .ok (.triangle ⟨tri.material, tri.A,
              ⟨tableAt pyramidSide3BX animationIndex, tri.B.y,
                tableAt pyramidSide3BZ animationIndex⟩,
              ⟨tableAt pyramidSide3CX animationIndex, tri.C.y,
                tableAt pyramidSide3CZ animationIndex⟩⟩) ∧
        readObject lib animationIndex filecontent startNum .triSide4
          = .ok (.triangle ⟨tri.material, tri.A,
              ⟨tableAt pyramidSide4BX animationIndex, tri.B.y,
                tableAt pyramidSide4BZ animationIndex⟩,
              ⟨tableAt pyramidSide4CX animationIndex, tri.C.y,
                tableAt pyramidSide4CZ animationIndex⟩⟩)) ∧
    (∀ kind ∈ ([.triSide1, .triSide2, .triSide3, .triSide4] : List ObjectKind),
      ∀ (n : Nat) (token : String),
        n = startNum + 4 ∨ n = startNum + 6 ∨ n = startNum + 7 ∨ n = startNum + 9 →
        readObject lib animationIndex (filecontent.set n token) startNum kind
          = readObject lib animationIndex filecontent startNum kind) := by
  refine ⟨⟨hframe, ?_⟩, ?_, ?_, ?_, ?_⟩
  · intro table ht
    simp only [List.mem_cons, List.mem_singleton, List.not_mem_nil, or_false] at ht
    rcases ht with h | h | h | h | h | h | h | h | h | h | h | h | h | h | h | h <;>
      (subst h; exact hframe)
  · intro sp h
    have h2 := readObject_sphere_inv lib animationIndex filecontent startNum sp h
    show (readSphereBounce lib animationIndex filecontent startNum).map SceneObject.sphere = _
    rw [readSphereBounce_of_readSphere lib animationIndex filecontent startNum sp h2]
    rfl
  · intro token
    show (readSphereBounce lib animationIndex _ startNum).map SceneObject.sphere
      = (readSphereBounce lib animationIndex filecontent startNum).map SceneObject.sphere
    rw [readSphereBounce_set]
  · intro tri h
    have h2 := readObject_tri_inv lib animationIndex filecontent startNum tri h
    refine ⟨?_, ?_, ?_, ?_⟩
    all_goals
      show (readTriSide lib filecontent startNum _ _ _ _).map SceneObject.triangle = _
      rw [readTriSide_of_readTri lib filecontent startNum _ _ _ _ tri h2]
      rfl
  · intro kind hkind n token hn
    simp only [List.mem_cons, List.mem_singleton, List.not_mem_nil, or_false] at hkind
    rcases hkind with h | h | h | h
    all_goals
      subst h
      show (readTriSide lib _ startNum _ _ _ _).map SceneObject.triangle
        = (readTriSide lib filecontent startNum _ _ _ _).map SceneObject.triangle
      rw [readTriSide_set lib filecontent startNum _ _ _ _ n token hn]

/-- C29: one iteration of the object loop on a `sphere` record that is followed by a `tri`
record reads both records, because the block of `tri` tests the token at the cursor that the
block of `sphere` has advanced; and there is a token list with the object count 1, a `sphere`
record at index 15 and a `tri` record at index 30 from which the loop, and the reading of the
whole scene, builds two objects. -/
theorem objectLoopBody_two_records (lib : StdLib K) (animationIndex : Nat) :
    (∀ (filecontent : List String) (startNum : Nat) (acc : List (SceneObject K))
      (sp : Sphere K) (tri : Triangle K) (token : String),
      tokenAt filecontent startNum = .ok "sphere" →
      readSphere lib filecontent startNum = .ok sp →
      tokenAt filecontent (startNum + 15) = .ok "tri" →
      readTri lib filecontent (startNum + 15) = .ok tri →
      tokenAt filecontent (startNum + 35) = .ok token →
      (∀ kind : ObjectKind, token ≠ kind.keyword) →
      objectLoopBody lib animationIndex filecontent (startNum, acc)
        = .ok (startNum + 35, acc ++ [.sphere sp, .triangle tri])) ∧
    ∃ (filecontent : List String) (camera : Camera ℚ) (maxDepth : Int) (scene : Scene ℚ),
      stoiAt (decimalLib : StdLib ℚ) filecontent 14 = .ok 1 ∧
      tokenAt filecontent 15 = .ok "sphere" ∧
      tokenAt filecontent 30 = .ok "tri" ∧
      readObjects (decimalLib : StdLib ℚ) animationIndex filecontent 1 (15, [])
        = .ok (50, scene.objects) ∧
      (readScene (decimalLib : StdLib ℚ) animationIndex (some filecontent)).result
        = .ok (camera, maxDepth, scene) ∧
      scene.objects.length = 2 := by
  constructor
  · intro filecontent startNum acc sp tri token h1 hsp h2 htri h3 hnot
    have hs : readObject lib animationIndex filecontent startNum .sphere
        = .ok (.sphere sp) := by
      show (readSphere lib filecontent startNum).map SceneObject.sphere = _
      rw [hsp]
      rfl
    have ht : readObject lib animationIndex filecontent (startNum + 15) .tri
        = .ok (.triangle tri) := by
      show (readTri lib filecontent (startNum + 15)).map SceneObject.triangle = _
      rw [htri]
      rfl
    have e1 := objectBlock_consume lib animationIndex filecontent .sphere startNum acc _ h1 hs
    have e2 := objectBlock_skip lib animationIndex filecontent .sphereBounce (startNum + 15)
      (acc ++ [.sphere sp]) "tri" h2 (by decide)
    have e3 := objectBlock_consume lib animationIndex filecontent .tri (startNum + 15)
      (acc ++ [.sphere sp]) _ h2 ht
    have e4 : ∀ kind : ObjectKind,
        objectBlock lib animationIndex filecontent kind
            (startNum + 35, acc ++ [.sphere sp, .triangle tri])
          = .ok (startNum + 35, acc ++ [.sphere sp, .triangle tri]) :=
      fun kind => objectBlock_skip lib animationIndex filecontent kind (startNum + 35) _ token
        h3 (hnot kind)
    have e3b : objectBlock lib animationIndex filecontent .tri
        (startNum + 15, acc ++ [.sphere sp])
          = .ok (startNum + 35, acc ++ [.sphere sp, .triangle tri]) := by
      rw [e3, List.append_assoc]
      rfl
    have e1b : objectBlock lib animationIndex filecontent .sphere (startNum, acc)
        = .ok (startNum + 15, acc ++ [.sphere sp]) := e1
    rw [objectLoopBody_eq_blocks]
    simp only [objectBlocks, e1b, e2, e3b, e4]
  · exact ⟨exampleHeader "1" ++ exampleSphere ++ exampleTri ++ ["1"] ++ exampleLight,
      ShadowExample.camera, 2,
      ⟨[.sphere ⟨⟨⟨1, 1, 1⟩, ⟨1, 1, 1⟩, ⟨0, 0, 0⟩, 8⟩, ⟨0, 0, 0⟩, 1⟩,
        .triangle ⟨⟨⟨1, 1, 1⟩, ⟨1, 1, 1⟩, ⟨0, 0, 0⟩, 8⟩, ⟨0, 0, -2⟩, ⟨1, 0, -2⟩, ⟨0, 1, -2⟩⟩],
       [⟨⟨0, 0, 11, 1⟩, ⟨1, 1, 1⟩, ⟨1, 1, 1⟩, ⟨1, 1, 1⟩, 1, 0, 0⟩]⟩,
      rfl, rfl, rfl, rfl, rfl, rfl⟩

/-- The part of `main` that reads the scene, on a file that was opened and whose header and
object records are read. -/
theorem readScene_of_objects (lib : StdLib K) (animationIndex : Nat)
    (filecontent : List String) (camera : Camera K) (maxDepth numObj : Int)
    (objects : List (SceneObject K)) (L : Nat)
    (hheader : readHeader lib filecontent = .ok (camera, maxDepth, numObj))
    (hobjects : readObjects lib animationIndex filecontent numObj.toNat (15, [])
      = .ok (L, objects)) :
    (readScene lib animationIndex (some filecontent)).result
      = match (readLightSection lib filecontent L).result with
        | .error e => .error e
        | .ok lights => .ok (camera, maxDepth, ⟨objects, lights⟩) := by
  simp only [readScene, readFile, hheader, hobjects]
  cases (readLightSection lib filecontent L).result <;> rfl

/-- C30: on a token list with a well-formed header and well-formed object records and the
light count at index `L`: when the count is 0 and fewer than four tokens follow it, the
reading of the scene stops on the access to index `L + 4`, which is past the end; when the
count is `n ≥ 1` and the sixteen tokens of each of the `n` lights are numbers, the reading
succeeds with the objects of the records and the `n` lights, no access being past the end. -/
theorem readScene_light_debug (lib : StdLib K) (animationIndex : Nat)
    (filecontent : List String) (camera : Camera K) (maxDepth numObj : Int)
    (kinds : List ObjectKind) (objects : List (SceneObject K)) (L : Nat)
    (hkw : ∀ kind : ObjectKind, lib.stoi kind.keyword = none)
    (hheader : readHeader lib filecontent = .ok (camera, maxDepth, numObj))
    (hkinds : (kinds.length : Int) = numObj)
    (hrecords : RecordsAt lib animationIndex filecontent 15 kinds objects L) :
    (stoiAt lib filecontent L = .ok 0 → filecontent.length ≤ L + 4 →
      (readScene lib animationIndex (some filecontent)).result
        = .error (.outOfBounds (L + 4))) ∧
    (∀ (n : Int) (v : Nat → Nat → K), stoiAt lib filecontent L = .ok n → 0 < n →
      (∀ k, k < n.toNat → ∀ j, 1 ≤ j → j ≤ 16 →
        stofAt lib filecontent (L + 16 * k + j) = .ok (v k j)) →
      L + 16 * n.toNat < filecontent.length ∧
      (readScene lib animationIndex (some filecontent)).result
        = .ok (camera, maxDepth,
            ⟨objects, (List.range n.toNat).map (fun k => lightOfValues (v k))⟩)) := by
  have hrun := readObjects_layout lib animationIndex filecontent hkw L numObj.toNat 15 []
    kinds objects hrecords (by omega)
  rw [List.nil_append] at hrun
  have hscene := readScene_of_objects lib animationIndex filecontent camera maxDepth numObj
    objects L hheader hrun
  constructor
  · intro hcount hlen
    rw [hscene]
    simp only [readLightSection, hcount, stofAt_of_le lib filecontent (L + 4) hlen]
  · intro n v hcount hn hv
    have hw : stofAt lib filecontent (L + 4) = .ok (v 0 4) := by
      have := hv 0 (by omega) 4 (by omega) (by omega)
      simpa using this
    have hloop := readLights_ok lib filecontent n.toNat L [] v hv
    rw [List.nil_append] at hloop
    constructor
    · by_contra hlt
      have h16 := hv (n.toNat - 1) (by omega) 16 (by omega) (by omega)
      rw [stofAt_of_le lib filecontent _ (by omega)] at h16
      exact Except.noConfusion h16
    · rw [hscene]
      simp only [readLightSection, hcount, hw, hloop]

end ParsingTheorems

section FrameTheorems

variable {K : Type} [LinearOrderedField K] [FloorRing K]

/-- C24 as the source has it: when the scene file cannot be opened, the iteration writes
nothing to `std::cout` (the line `File exist` is written for a file that was opened, and the
test has no other branch), goes on with an empty `filecontent`, and stops on the first
access, `filecontent[0]` for the image width, which is past the end; no scene is built and no
image is handed to `stbi_write_png`. -/
theorem frame_unopened (lib : StdLib K) (rt : Runtime K) (tan : K → K) (M_PI : K)
    (animationIndex : Nat) :
    (readFile none : List (Output K) × List String) = ([], []) ∧
    (∀ tokens : List String,
      (readFile (some tokens) : List (Output K) × List String)
        = ([.text "File exist", .endl], tokens)) ∧
    readScene lib animationIndex none = ⟨[], .error (.outOfBounds 0)⟩ ∧
    frame lib rt tan M_PI animationIndex none = ⟨[], .error (.outOfBounds 0)⟩ :=
  ⟨rfl, fun _ => rfl, rfl, rfl⟩

end FrameTheorems

section ParsingWitnesses

/-- The conversions of the examples throw on the seven keywords. -/
theorem decimalLib_keyword (K : Type) [LinearOrderedField K] (kind : ObjectKind) :
    (decimalLib : StdLib K).stoi kind.keyword = none := by
  cases kind <;> rfl

/-- Witness of C21: a file with the object count 2, a `tri` record at index 15, a `sphere`
record at index 35 and the light count at index 50; the loop needs both iterations. -/
theorem readObjects_wellFormed_witness :
    (readHeader (decimalLib : StdLib ℚ)
        (exampleHeader "2" ++ exampleTri ++ exampleSphere ++ ["1"] ++ exampleLight)
      >>= fun header =>
        readObjects (decimalLib : StdLib ℚ) 0
          (exampleHeader "2" ++ exampleTri ++ exampleSphere ++ ["1"] ++ exampleLight)
          header.2.2.toNat (15, []))
      = .ok (50,
          [.triangle ⟨⟨⟨1, 1, 1⟩, ⟨1, 1, 1⟩, ⟨0, 0, 0⟩, 8⟩, ⟨0, 0, -2⟩, ⟨1, 0, -2⟩, ⟨0, 1, -2⟩⟩,
           .sphere ⟨⟨⟨1, 1, 1⟩, ⟨1, 1, 1⟩, ⟨0, 0, 0⟩, 8⟩, ⟨0, 0, 0⟩, 1⟩]) :=
  (readObjects_wellFormed (decimalLib : StdLib ℚ) 0
    (exampleHeader "2" ++ exampleTri ++ exampleSphere ++ ["1"] ++ exampleLight)
    ShadowExample.camera 2 2 [.tri, .sphere]
    [.triangle ⟨⟨⟨1, 1, 1⟩, ⟨1, 1, 1⟩, ⟨0, 0, 0⟩, 8⟩, ⟨0, 0, -2⟩, ⟨1, 0, -2⟩, ⟨0, 1, -2⟩⟩,
     .sphere ⟨⟨⟨1, 1, 1⟩, ⟨1, 1, 1⟩, ⟨0, 0, 0⟩, 8⟩, ⟨0, 0, 0⟩, 1⟩]
    50 (decimalLib_keyword ℚ) rfl rfl
    ⟨rfl, rfl, rfl, rfl, rfl, 1, rfl⟩).1

/-- Witness of C22: one light behind the light count at index 15. -/
theorem readLights_spec_witness :
    readLights (decimalLib : StdLib ℚ) (exampleHeader "0" ++ ["1"] ++ exampleLight) 1 (15, [])
      = .ok (31, [⟨⟨0, 0, 11, 1⟩, ⟨1, 1, 1⟩, ⟨1, 1, 1⟩, ⟨1, 1, 1⟩, 1, 0, 0⟩]) :=
  (readLights_spec (decimalLib : StdLib ℚ) (exampleHeader "0" ++ ["1"] ++ exampleLight) 15 1
    (fun _ j => ([0, 0, 11, 1, 1, 1, 1, 1, 1, 1, 1, 1, 1, 1, 0, 0] : List ℚ).getD (j - 1) 0)
    rfl
    (by
      intro k hk j h1 h2
      have hk0 : k = 0 := by
        have : k < 1 := hk
        omega
      subst hk0
      interval_cases j <;> rfl)).1 1 (le_refl 1)

/-- Witness of C23: in frame 3 the tokens of the unit sphere at the origin, read as a
`sphereBounce` record, give the centre `(0, 5, 0)`. -/
theorem readObject_animated_witness :
    readObject (decimalLib : StdLib ℚ) 3 (exampleHeader "1" ++ exampleSphere) 15 .sphereBounce
      = .ok (.sphere ⟨⟨⟨1, 1, 1⟩, ⟨1, 1, 1⟩, ⟨0, 0, 0⟩, 8⟩, ⟨0, 5, 0⟩, 1⟩) :=
  (readObject_animated (decimalLib : StdLib ℚ) 3 (exampleHeader "1" ++ exampleSphere) 15
    (by decide)).2.1 ⟨⟨⟨1, 1, 1⟩, ⟨1, 1, 1⟩, ⟨0, 0, 0⟩, 8⟩, ⟨0, 0, 0⟩, 1⟩ rfl

/-- Witness of C30: a file without objects whose last token is the light count 0, at index
15; the access to index 19 is past the end. -/
theorem readScene_light_debug_witness :
    (readScene (decimalLib : StdLib ℚ) 0 (some (exampleHeader "0" ++ ["0"]))).result
      = .error (.outOfBounds 19) :=
  (readScene_light_debug (decimalLib : StdLib ℚ) 0 (exampleHeader "0" ++ ["0"])
    ShadowExample.camera 2 0 [] [] 15 (decimalLib_keyword ℚ) rfl rfl ⟨rfl, 0, rfl⟩).1 rfl
    (by decide)

/-- An instance of C24 over the reals: with a scene file that cannot be opened, frame 0
writes nothing at all to `std::cout`, so no diagnostic. -/
theorem unopened_frame_silent :
    (frame (decimalLib : StdLib ℝ) (⟨Real.sqrt, Real.rpow, 0, 0⟩ : Runtime ℝ) Real.tan Real.pi
      0 none).stdout = [] := rfl

end ParsingWitnesses

end Finals
